import Mathlib

/-!
# Super Breakout: the simulation loop of `main.cpp`

A shallow embedding of the game state (the globals of `main.cpp` and the
locals of `main` that survive an iteration of the game loop) and of one
iteration of `while (!quit)`, followed by theorems about it.

Conventions of the embedding.

* C++ `float`/`double` values are exact rationals (`ℚ`): rounding, infinities
  and NaN are outside the model.  The one place where the source relies on a
  NaN comparison being false, the direction test of the brick scan
  (`x / abs(x)` with `x = 0`), is modelled explicitly by `dirOf`.
* C++ `int` values are unbounded integers (`Int`); signed overflow is undefined
  behaviour in C++ and is outside the model.  `%` on `int` is `Int.tmod`
  (truncating remainder).  Loop indices are natural numbers.
* `brickStates[i][j]` is `brickStates.cell i j`; only `i < 13`, `j < 28` are cells
  of the array, the loops of the program never touch another index.
* `SDL_GetTicks()` is the argument `curTime` (milliseconds), the queue drained
  by `SDL_PollEvent` is the argument `events`.
* Rendering and sound playback do not change the game state and are left out.
-/

namespace SuperBreakout

/-! ## Constants -/

/-- `const int bricksWidth = 13`. -/
def bricksWidth : Nat := 13
/-- `const int bricksHeight = 28`. -/
def bricksHeight : Nat := 28
/-- `const int widthPadding = 2`. -/
def widthPadding : Nat := 2
/-- `const int heightPadding = 8`. -/
def heightPadding : Nat := 8
/-- Number of brick rows used by the game, `bricksHeight - 7`. -/
def activeRows : Nat := bricksHeight - 7
/-- `paddleWidthStart = 1.5 / (bricksWidth + (float)widthPadding)`. -/
def paddleWidthStart : ℚ := (15 / 10) / ((bricksWidth : ℚ) + (widthPadding : ℚ))
/-- `paddleHeight = 1.0 / ((float)bricksHeight + (float)heightPadding)`. -/
def paddleHeight : ℚ := 1 / ((bricksHeight : ℚ) + (heightPadding : ℚ))
/-- `ballRespawnTime = 1.0f`. -/
def ballRespawnTime : ℚ := 1
/-- `ballSize = paddleHeight * 0.6f` (never assigned afterwards). -/
def ballSize : ℚ := paddleHeight * (6 / 10)
/-- `ballSpeedStart = 0.5`. -/
def ballSpeedStart : ℚ := 5 / 10
/-- `BALL_SPEED_MULT_CAP = 1.5f`. -/
def BALL_SPEED_MULT_CAP : ℚ := 15 / 10
/-- `ballCooldown = 0.05f`. -/
def ballCooldown : ℚ := 5 / 100
/-- `lineCooldown = 0.1f`. -/
def lineCooldown : ℚ := 1 / 10
/-- `numBrickSounds = 8`. -/
def numBrickSounds : Int := 8
/-- `scoreQueueInterval = 1.0f / 10.0f`. -/
def scoreQueueInterval : ℚ := 1 / 10

/-! ## State -/

/-- The brick array `int brickStates[bricksWidth][bricksHeight]`: `cell i j` is
`brickStates[i][j]`. -/
structure Grid where
  cell : Nat → Nat → Int

/-- The assignment `brickStates[i][j] = v`. -/
def setCell (g : Grid) (i j : Nat) (v : Int) : Grid :=
  Grid.mk (fun a b => if a = i ∧ b = j then v else g.cell a b)

/-- The mutable globals of `main.cpp`, and the locals `quit` and `prevTime` of `main`. -/
structure State where
  paddleWidth : ℚ
  paddleX : ℚ
  brickStates : Grid
  lives : Int
  ballRespawnTimer : ℚ
  ballMissed : Bool
  gamePaused : Bool
  ballSpeed : ℚ
  ballSpeedX : ℚ
  ballSpeedY : ℚ
  lastBreakTime : ℚ
  ballX : ℚ
  ballY : ℚ
  paddleHitCounter : Int
  lastPaddleHitTime : ℚ
  lineCounter : Int
  lastLineTime : ℚ
  brickSoundCounter : Int
  score : Int
  scoreQueue : Int
  scoreQueueTimer : ℚ
  quit : Bool
  prevTime : Nat

/-- The values given by the initialisers of the globals (zero for the ones without
initialiser), with `quit = false` and `prevTime = curTime - 1` (in `Uint32`) as set up before
the loop. -/
def initState (curTime : Nat) : State where
  paddleWidth := paddleWidthStart
  paddleX := 5 / 10
  brickStates := Grid.mk (fun _ _ => 0)
  lives := 5
  ballRespawnTimer := 0
  ballMissed := false
  gamePaused := false
  ballSpeed := ballSpeedStart
  ballSpeedX := 0
  ballSpeedY := ballSpeedStart / 2
  lastBreakTime := 0
  ballX := 5 / 10
  ballY := 7 / 10
  paddleHitCounter := 0
  lastPaddleHitTime := 0
  lineCounter := 0
  lastLineTime := 0
  brickSoundCounter := 0
  score := 0
  scoreQueue := 0
  scoreQueueTimer := 0
  quit := false
  prevTime := (curTime + 4294967295) % 4294967296

/-! ## resetGame -/

/-- Body of the inner loop of `resetGame`: `brickStates[i][j] = (j % 8 < 4) ? 1 : 0`. -/
def resetCell (i : Nat) (g : Grid) (j : Nat) : Grid :=
  if j % 8 < 4 then setCell g i j 1 else setCell g i j 0

/-- The loop `for (j = 0; j < bricksHeight - 7; j++)` of `resetGame` for column `i`. -/
def resetColumn (g : Grid) (i : Nat) : Grid :=
  (List.range activeRows).foldl (resetCell i) g

/-- The loop `for (i = 0; i < bricksWidth; i++)` of `resetGame`. -/
def resetBricks (g : Grid) : Grid :=
  (List.range bricksWidth).foldl resetColumn g

/-- The function `resetGame()`. -/
def resetGame (s : State) : State :=
  { s with
    lives := 5
    ballMissed := false
    ballSpeed := ballSpeedStart
    ballSpeedX := 0
    ballSpeedY := ballSpeedStart / 2
    ballX := 5 / 10
    ballY := 7 / 10
    paddleX := 5 / 10
    paddleWidth := paddleWidthStart
    paddleHitCounter := 0
    lineCounter := 0
    brickSoundCounter := 0
    score := 0
    scoreQueue := 0
    scoreQueueTimer := 0
    brickStates := resetBricks s.brickStates }

/-- Number of cells of the active region (`i < 13`, `j < 21`) whose value is `1`. -/
def aliveCount (g : Grid) : Nat :=
  ((List.range bricksWidth).map
    (fun i => ((List.range activeRows).filter (fun j => g.cell i j == 1)).length)).sum

/-! ## Input events -/

/-- The scancodes told apart by the `switch` of the event loop. -/
inductive Key where
  | escape | q | p | f | space | r | other
  deriving DecidableEq, Repr

/-- The SDL events told apart by the event loop. -/
inductive Event where
  | quitEvent
  | keyDown (k : Key)
  | mouseMotion (xrel : Int)
  | other
  deriving DecidableEq, Repr

/-- Body of `while (SDL_PollEvent(&e))`, for one event. -/
def handleEvent (delta : ℚ) (s : State) (e : Event) : State :=
  match e with
  | Event.quitEvent => { s with quit := true }
  | Event.keyDown Key.escape => { s with quit := true }
  | Event.keyDown Key.q => { s with quit := true }
  | Event.keyDown Key.p => { s with gamePaused := !s.gamePaused }
  | Event.keyDown Key.f => { s with gamePaused := !s.gamePaused }
  | Event.keyDown Key.space => { s with gamePaused := !s.gamePaused }
  | Event.keyDown Key.r => resetGame s
  | Event.keyDown Key.other => s
  | Event.mouseMotion xrel =>
    if s.gamePaused = false then
      let hi : ℚ := 1 - s.paddleWidth / 2 - 1 / ((bricksWidth : ℚ) + (widthPadding : ℚ))
      let lo : ℚ := s.paddleWidth / 2 + 1 / ((bricksWidth : ℚ) + (widthPadding : ℚ))
      { s with paddleX := max (min hi (s.paddleX + (xrel : ℚ) * delta)) lo }
    else s
  | Event.other => s

/-- The loop `while (SDL_PollEvent(&e))` over the pending events. -/
def pollEvents (s : State) (delta : ℚ) (events : List Event) : State :=
  events.foldl (handleEvent delta) s

/-! ## Timers, miss and respawn -/

/-- The statement `if (scoreQueueTimer > 0) scoreQueueTimer -= delta;`. -/
def tickTimers (s : State) (delta : ℚ) : State :=
  if s.scoreQueueTimer > 0 then { s with scoreQueueTimer := s.scoreQueueTimer - delta } else s

/-- The statement `if (ballMissed) ... else if (ballY > 1.0f && lives > 0) ...`. -/
def missRespawn (s : State) (delta : ℚ) : State :=
  if s.ballMissed = true then
    let s1 := { s with ballRespawnTimer := s.ballRespawnTimer + delta }
    if s1.ballRespawnTimer ≥ ballRespawnTime then
      { s1 with
        ballMissed := false
        ballSpeed := ballSpeedStart
        ballSpeedX := 0
        ballSpeedY := ballSpeedStart / 2
        ballX := s1.paddleX
        ballY := 7 / 10 }
    else s1
  else if s.ballY > 1 ∧ s.lives > 0 then
    { s with
      lives := s.lives - 1
      ballMissed := decide (s.lives - 1 > 0)
      ballSpeedX := 0
      ballSpeedY := 0
      ballRespawnTimer := 0 }
  else s

/-! ## Brick collisions -/

/-- The float expression `x / abs(x)`: `1` or `-1` for `x ≠ 0`, NaN (`none`) for `x = 0`. -/
def dirOf (x : ℚ) : Option ℚ :=
  if x = 0 then none else some (x / |x|)

/-- The float expression `-(x) / abs(x)`: NaN (`none`) for `x = 0`. -/
def negDirOf (x : ℚ) : Option ℚ :=
  if x = 0 then none else some (-x / |x|)

/-- The float comparison `a == b`, false as soon as one side is NaN. -/
def floatEq (a b : Option ℚ) : Prop :=
  match a, b with
  | some x, some y => x = y
  | _, _ => False

instance floatEqDecidable (a b : Option ℚ) : Decidable (floatEq a b) := by
  unfold floatEq
  split <;> infer_instance

/-- Horizontal centre of the bricks of column `i`: `(i + 1.5f) / (bricksWidth + widthPadding)`. -/
def brickCenterX (i : Nat) : ℚ :=
  ((i : ℚ) + 15 / 10) / ((bricksWidth : ℚ) + (widthPadding : ℚ))

/-- Vertical centre of the bricks of row `j`: `(j + 1.5f) / (bricksHeight + heightPadding)`. -/
def brickCenterY (j : Nat) : ℚ :=
  ((j : ℚ) + 15 / 10) / ((bricksHeight : ℚ) + (heightPadding : ℚ))

/-- The condition of the `if` on `distX`, `distY` and the direction of the ball,
for the brick of column `i` and row `j`. -/
def hitTest (s : State) (i j : Nat) : Prop :=
  |s.ballX - brickCenterX i| ≤ (ballSize + 1 / ((bricksWidth : ℚ) + (widthPadding : ℚ))) / 2 ∧
  |s.ballY - brickCenterY j| ≤ (ballSize + 1 / ((bricksHeight : ℚ) + (heightPadding : ℚ))) / 2 ∧
  floatEq (dirOf s.ballSpeedY) (negDirOf (s.ballY - brickCenterY j))

instance hitTestDecidable (s : State) (i j : Nat) : Decidable (hitTest s i j) := by
  unfold hitTest
  infer_instance

/-- The points queued for a brick of row `j`. -/
def brickPoints (j : Nat) : Int :=
  if j < 4 then 7 else if j < 8 then 5 else if j < 12 then 3 else 1

/-- The expression `std::min(std::max(1.0f, 1.0f + (score - 1000) / 2000.0f), BALL_SPEED_MULT_CAP)`. -/
def speedBase (score : Int) : ℚ :=
  min (max 1 (1 + ((score - 1000 : Int) : ℚ) / 2000)) BALL_SPEED_MULT_CAP

/-- The three assignments of a speed-up branch: `ballSpeed = v`, `ballSpeedY *= -ballSpeed / oldSpeed`,
`ballSpeedX *= ballSpeed / oldSpeed`. -/
def speedUp (s : State) (v : ℚ) : State :=
  let oldSpeed := s.ballSpeed
  { s with
    ballSpeed := v
    ballSpeedY := s.ballSpeedY * (-v / oldSpeed)
    ballSpeedX := s.ballSpeedX * (v / oldSpeed) }

/-- The `if / else if` chain on the row `j` that raises the speed of the ball and flips its
vertical direction. -/
def speedUpdate (s : State) (j : Nat) : State :=
  if j < 4 ∧ s.ballSpeed < 13 / 10 * speedBase s.score then
    speedUp s (13 / 10 * speedBase s.score)
  else if j < 8 ∧ s.ballSpeed < 11 / 10 * speedBase s.score then
    speedUp s (11 / 10 * speedBase s.score)
  else if j < 16 ∧ s.ballSpeed < 8 / 10 * speedBase s.score then
    speedUp s (8 / 10 * speedBase s.score)
  else
    { s with ballSpeedY := s.ballSpeedY * (-1) }

/-- The body executed for the brick `(i, j)` that is hit: kill it, queue its points, update the
speed, record the time. -/
def brickHit (s : State) (curTime : Nat) (i j : Nat) : State :=
  let s1 := { s with brickStates := setCell s.brickStates i j 0 }
  let s2 := { s1 with scoreQueue := s1.scoreQueue + brickPoints j }
  let s3 := speedUpdate s2 j
  { s3 with lastBreakTime := (curTime : ℚ) }

/-- The brick `(i, j)` is alive and passes the hit test: the two nested `if` conditions of the
scan hold for it. -/
def liveHit (s : State) (i j : Nat) : Prop :=
  s.brickStates.cell i j = 1 ∧ hitTest s i j

instance liveHitDecidable (s : State) (i j : Nat) : Decidable (liveHit s i j) := by
  unfold liveHit
  infer_instance

/-- The cell `(i2, j2)` is visited before the cell `(i, j)` by the scan: columns outside, rows
inside. -/
def scannedBefore (i2 j2 i j : Nat) : Prop :=
  i2 < i ∨ (i2 = i ∧ j2 < j)

/-- Body of the loop over the rows `j` of column `i`; the second component is `hasCollided`,
and an iteration entered with `hasCollided` set does nothing (`break`). -/
def scanCell (curTime : Nat) (i : Nat) (acc : State × Bool) (j : Nat) : State × Bool :=
  if acc.2 = true then acc
  else if acc.1.brickStates.cell i j = 1 then
    if hitTest acc.1 i j then (brickHit acc.1 curTime i j, true) else acc
  else acc

/-- Body of the loop over the columns `i`: `break` when `hasCollided`, else scan the rows. -/
def scanColumn (curTime : Nat) (acc : State × Bool) (i : Nat) : State × Bool :=
  if acc.2 = true then acc
  else (List.range activeRows).foldl (scanCell curTime i) acc

/-- The brick-collision block: the scan runs only when `(curTime - lastBreakTime) / 1000.0f`
exceeds `ballCooldown`. -/
def brickCollisions (s : State) (curTime : Nat) : State :=
  if ((curTime : ℚ) - s.lastBreakTime) / 1000 > ballCooldown then
    ((List.range bricksWidth).foldl (scanColumn curTime) (s, false)).1
  else s

/-! ## Score queue -/

/-- The body of the drain: next sound index, `score++`, `scoreQueue--`, restart the timer. -/
def drainStep (s : State) : State :=
  { s with
    brickSoundCounter := Int.tmod (s.brickSoundCounter + 1) numBrickSounds
    score := s.score + 1
    scoreQueue := s.scoreQueue - 1
    scoreQueueTimer := scoreQueueInterval * (1 - (if s.lives ≤ 0 then 1 else 0) * (4 / 10)) }

/-- The statement `if (scoreQueue > 0 && scoreQueueTimer <= 0) ...`. -/
def scoreDrain (s : State) : State :=
  if s.scoreQueue > 0 ∧ s.scoreQueueTimer ≤ 0 then drainStep s else s

/-! ## Paddle collisions, line descent, paddle shrinking -/

/-- Vertical centre of the paddle:
`(bricksHeight + widthPadding) / (bricksHeight + heightPadding) + paddleHeight / 2`. -/
def paddleCenterY : ℚ :=
  ((bricksHeight : ℚ) + (widthPadding : ℚ)) / ((bricksHeight : ℚ) + (heightPadding : ℚ))
    + paddleHeight / 2

/-- The condition of the paddle-collision `if`. -/
def paddleTest (s : State) : Prop :=
  |s.ballX - s.paddleX| ≤ (s.paddleWidth + ballSize) / 2 ∧ |s.ballY - paddleCenterY| ≤ ballSize

instance paddleTestDecidable (s : State) : Decidable (paddleTest s) := by
  unfold paddleTest
  infer_instance

/-- The new velocity after a paddle hit. -/
def bouncePaddle (s : State) : State :=
  let frac : ℚ := max (min (|s.ballX - s.paddleX| / s.paddleWidth) (8 / 10)) (3 / 10)
  let vx : ℚ :=
    if (s.ballX - s.paddleX) / |s.ballX - s.paddleX| < 0 then -frac * s.ballSpeed
    else frac * s.ballSpeed
  { s with ballSpeedX := vx, ballSpeedY := -(abs (s.ballSpeed - abs vx)) }

/-- The rate-limited increment of `paddleHitCounter`. -/
def countPaddleHit (s : State) (curTime : Nat) : State :=
  if ((curTime : ℚ) - s.lastPaddleHitTime) / 1000 > lineCooldown then
    { s with paddleHitCounter := s.paddleHitCounter + 1, lastPaddleHitTime := (curTime : ℚ) }
  else s

/-- The schedule of paddle-hit counts at which the bricks move down. -/
def lineDue (c : Int) : Prop :=
  c = 9 ∨ c = 14 ∨ c = 17 ∨ c = 20 ∨ c = 22 ∨ c = 24 ∨ (c > 25 ∧ Int.tmod c 2 = 0)

instance lineDueDecidable (c : Int) : Decidable (lineDue c) := by
  unfold lineDue
  infer_instance

/-- The value `lineCounter % 8 > 3` stored into an `int` cell: `1` when true, `0` when false. -/
def newRowValue (lc : Int) : Int :=
  if Int.tmod lc 8 > 3 then 1 else 0

/-- Body of the inner loop of the descent for row `j` and column `i`. -/
def descendCell (lc : Int) (j : Nat) (g : Grid) (i : Nat) : Grid :=
  if j > 0 then setCell g i j (g.cell i (j - 1))
  else if j = 0 then setCell g i j (newRowValue lc)
  else g

/-- The loop `for (i = bricksWidth - 1; i >= 0; i--)` of the descent, for row `j`. -/
def descendRow (lc : Int) (g : Grid) (j : Nat) : Grid :=
  (List.range bricksWidth).reverse.foldl (descendCell lc j) g

/-- The loop `for (j = bricksHeight - 8; j >= 0; j--)` of the descent. -/
def descendGrid (lc : Int) (g : Grid) : Grid :=
  (List.range (bricksHeight - 7)).reverse.foldl (descendRow lc) g

/-- The line descent: shift the rows and `lineCounter++`. -/
def descendLines (s : State) : State :=
  { s with
    brickStates := descendGrid s.lineCounter s.brickStates
    lineCounter := s.lineCounter + 1 }

/-- The `if / else if` chain that shrinks the paddle. -/
def shrinkPaddle (s : State) : State :=
  if s.lineCounter > 99 ∧ s.paddleWidth > paddleWidthStart * (85 / 100) then
    { s with paddleWidth := paddleWidthStart * (85 / 100) }
  else if s.lineCounter > 199 ∧ s.paddleWidth > paddleWidthStart * (75 / 100) then
    { s with paddleWidth := paddleWidthStart * (75 / 100) }
  else if s.lineCounter > 299 ∧ s.paddleWidth > paddleWidthStart * (5 / 10) then
    { s with paddleWidth := paddleWidthStart * (5 / 10) }
  else s

/-- The block executed when the bricks move down: descent, `lastLineTime = curTime`, shrink. -/
def lineStep (s : State) (curTime : Nat) : State :=
  shrinkPaddle { descendLines s with lastLineTime := (curTime : ℚ) }

/-- A run of line descents, one for each clock reading of `times`, nothing else in between. -/
def lineSteps (s : State) (times : List Nat) : State :=
  times.foldl lineStep s

/-- The paddle-collision block. -/
def paddleCollisions (s : State) (curTime : Nat) : State :=
  if paddleTest s then
    let s1 := countPaddleHit (bouncePaddle s) curTime
    if ((curTime : ℚ) - s1.lastLineTime) / 1000 > lineCooldown ∧ lineDue s1.paddleHitCounter then
      lineStep s1 curTime
    else s1
  else s

/-! ## Walls and integration -/

/-- The wall-collision block. -/
def wallCollisions (s : State) : State :=
  let s1 :=
    if s.ballX ≤ 1 / ((bricksWidth : ℚ) + (widthPadding : ℚ)) + ballSize / 2 then
      { s with ballSpeedX := |s.ballSpeedX| }
    else if s.ballX ≥ ((bricksWidth : ℚ) + (widthPadding : ℚ) - 1) /
        ((bricksWidth : ℚ) + (widthPadding : ℚ)) - ballSize / 2 then
      { s with ballSpeedX := -|s.ballSpeedX| }
    else s
  if s1.ballY ≤ 1 / ((bricksHeight : ℚ) + (heightPadding : ℚ)) + ballSize / 2 then
    { s1 with ballSpeedY := |s1.ballSpeedY| }
  else s1

/-- The statements `ballX += ballSpeedX * delta; ballY += ballSpeedY * delta;`. -/
def moveBall (s : State) (delta : ℚ) : State :=
  { s with ballX := s.ballX + s.ballSpeedX * delta, ballY := s.ballY + s.ballSpeedY * delta }

/-! ## One iteration of the game loop -/

/-- The state on which the brick scan of an iteration runs: after the timer and the
miss / respawn statements. -/
def beforeCollisions (s : State) (delta : ℚ) : State :=
  missRespawn (tickTimers s delta) delta

/-- The state on which the paddle-collision block of an iteration runs: after the brick scan
and the score drain. -/
def beforePaddle (s : State) (curTime : Nat) (delta : ℚ) : State :=
  scoreDrain (brickCollisions (beforeCollisions s delta) curTime)

/-- The simulation part of an iteration, run when the game is not paused. -/
def simulate (s : State) (curTime : Nat) (delta : ℚ) : State :=
  let s1 := beforeCollisions s delta
  let s2 := brickCollisions s1 curTime
  let s3 := scoreDrain s2
  let s4 := paddleCollisions s3 curTime
  let s5 := wallCollisions s4
  let s6 := moveBall s5 delta
  { s6 with prevTime := curTime }

/-- The body of `while (!quit)` once `delta` is known: skipped when `delta <= 0`, stopped after
the events when the game is paused. -/
def tick (s : State) (curTime : Nat) (delta : ℚ) (events : List Event) : State :=
  if delta ≤ 0 then s
  else
    let s1 := pollEvents s delta events
    if s1.gamePaused = true then s1 else simulate s1 curTime delta

/-- The value of `delta` computed at the top of the loop:
`std::min(((float)curTime - (float)prevTime) / 1000.0f, 0.02f)`. -/
def deltaOf (s : State) (curTime : Nat) : ℚ :=
  min (((curTime : ℚ) - (s.prevTime : ℚ)) / 1000) (2 / 100)

/-- One iteration of `while (!quit)`. -/
def loopStep (s : State) (curTime : Nat) (events : List Event) : State :=
  tick s curTime (deltaOf s curTime) events

/-- The loop `while (!quit)` over the successive clock readings and event queues. -/
def mainLoop (s : State) : List (Nat × List Event) → State
  | [] => s
  | (curTime, events) :: rest =>
    if s.quit = true then s else mainLoop (loopStep s curTime events) rest

/-- The ball lies below the field without moving and no life can be taken for it: it is
waiting for its respawn (`ballMissed`) or there is no life left. -/
def MissPending (s : State) : Prop :=
  s.ballY > 1 ∧ s.ballSpeedX = 0 ∧ s.ballSpeedY = 0 ∧ (s.ballMissed = true ∨ s.lives = 0)

/-- The descent scheduled for the ninth paddle hit has been made: the counter is 9 and the
last descent is as recent as the last counted paddle hit. -/
def NinthLineDone (s : State) : Prop :=
  s.paddleHitCounter = 9 ∧ s.lastLineTime = s.lastPaddleHitTime

/-- An example state: eight paddle hits counted, the ball on the paddle, the clock at 0. -/
def eightHitsState : State :=
  { resetGame (initState 0) with paddleHitCounter := 8, ballY := 61 / 72 }

/-- The states of a game: the result of `resetGame`, and every state an iteration of the
loop produces from one of them. -/
inductive Reachable : State → Prop where
  | reset (s : State) : Reachable (resetGame s)
  | step (s : State) (curTime : Nat) (delta : ℚ) (events : List Event) :
      Reachable s → Reachable (tick s curTime delta events)

/-- A run of iterations of the loop body, one for each clock reading, `delta` and event queue
of `inputs`. -/
def ticks (s : State) (inputs : List (Nat × ℚ × List Event)) : State :=
  inputs.foldl (fun st x => tick st x.1 x.2.1 x.2.2) s

/-- The width the paddle has after the descent that brings the line counter to `k`, as the
thresholds 99, 199 and 299 of the shrink statement give it. -/
def widthAtLine (k : Int) : ℚ :=
  if k ≤ 99 then paddleWidthStart
  else if k ≤ 199 then paddleWidthStart * (85 / 100)
  else if k ≤ 299 then paddleWidthStart * (75 / 100)
  else paddleWidthStart * (5 / 10)

/-- Both paddle edges lie between the side walls, which are one cell (1/15) wide. -/
def PaddleInside (s : State) : Prop :=
  s.paddleX - s.paddleWidth / 2 ≥ 1 / 15 ∧ s.paddleX + s.paddleWidth / 2 ≤ 14 / 15

/-- The speed budget is at least the start speed and bounds the sum of the horizontal and
vertical speeds of the ball. -/
def SpeedBounded (s : State) : Prop :=
  ballSpeedStart ≤ s.ballSpeed ∧ |s.ballSpeedX| + |s.ballSpeedY| ≤ s.ballSpeed

/-- A ball without vertical velocity lies below the field. -/
def StillOnlyBelow (s : State) : Prop :=
  s.ballSpeedY = 0 → s.ballY > 1

/-- An example state: the single live brick `(0, 0)`, the ball just below it moving up, the
score queue empty. -/
def oneBrickState : State :=
  { initState 0 with
    brickStates := setCell (Grid.mk (fun _ _ => 0)) 0 0 1
    ballX := 1 / 10
    ballY := 5 / 100
    ballSpeedY := -(1 / 4) }

/-- An example state: the game paused late in a session, with a respawn timer and the three
cooldown timestamps away from their initial values. -/
def pausedLateState : State :=
  { initState 0 with
    gamePaused := true
    ballRespawnTimer := 1 / 2
    lastBreakTime := 5000
    lastPaddleHitTime := 5000
    lastLineTime := 5000 }

/-- An example state of a game: one iteration from the reset state with a `delta` of 2 s,
after which the ball has fallen past the paddle to `ballY = 6/5`. -/
def belowFieldState : State :=
  tick (resetGame (initState 0)) 20 2 []

/-- An example state of a game: the iteration after `belowFieldState`, which takes the miss. -/
def missedState : State :=
  tick belowFieldState 40 (2 / 100) []

/-- An example state of a game: one iteration from the reset state with a `delta` of 53/90 s,
after which the ball is at the height of the paddle centre, above the paddle. -/
def onPaddleState : State :=
  tick (resetGame (initState 0)) 20 (53 / 90) []

/-- The states of a game after `n` further iterations from `onPaddleState`, at clock readings
1000, 1200, ... (200 ms apart) with a `delta` of 1/1000 s: each of the first iterations counts
a paddle hit. -/
def hitRun : Nat → State
  | 0 => onPaddleState
  | n + 1 => tick (hitRun n) (1000 + 200 * n) (1 / 1000) []

/-- The ball rests on the paddle with `n` paddle hits counted at intervals of 200 ms and no
descent made: what `hitRun n` satisfies for `n <= 8`. -/
def OnPaddleRun (n : Nat) (s : State) : Prop :=
  s.gamePaused = false ∧ s.ballMissed = false ∧ s.scoreQueue = 0 ∧ s.scoreQueueTimer ≤ 0 ∧
  s.paddleX = 1 / 2 ∧ s.paddleWidth = paddleWidthStart ∧ s.ballSpeed = 1 / 2 ∧
  s.lineCounter = 0 ∧ s.lastLineTime = 0 ∧ s.paddleHitCounter = (n : Int) ∧
  s.lastPaddleHitTime ≤ 800 + 200 * (n : ℚ) ∧
  1 / 2 ≤ s.ballX ∧ s.ballX ≤ 1 / 2 + (n : ℚ) * (3 / 20000) ∧
  61 / 72 - (n : ℚ) * (7 / 20000) ≤ s.ballY ∧ s.ballY ≤ 61 / 72

/-- An example state: 99 descents made and 211 paddle hits counted, the ball on the paddle, so
that the next counted hit (number 212) is due for the descent that brings the line counter to
100. -/
def line99State : State :=
  { resetGame (initState 0) with paddleHitCounter := 211, lineCounter := 99, ballY := 61 / 72 }

/-! ## The grid after resetGame -/

@[simp] theorem setCell_cell (g : Grid) (i j : Nat) (v : Int) (a b : Nat) :
    (setCell g i j v).cell a b = if a = i ∧ b = j then v else g.cell a b := rfl

theorem resetCell_cell (i : Nat) (g : Grid) (j a b : Nat) :
    (resetCell i g j).cell a b =
      if a = i ∧ b = j then (if j % 8 < 4 then 1 else 0) else g.cell a b := by
  unfold resetCell
  by_cases h4 : j % 8 < 4 <;> simp [h4]

theorem resetColumn_fold_cell (i : Nat) (n : Nat) (g : Grid) (a b : Nat) :
    ((List.range n).foldl (resetCell i) g).cell a b =
      if a = i ∧ b < n then (if b % 8 < 4 then 1 else 0) else g.cell a b := by
  induction n with
  | zero => simp
  | succ n ih =>
    rw [List.range_succ, List.foldl_append, List.foldl_cons, List.foldl_nil, resetCell_cell, ih]
    by_cases ha : a = i
    · by_cases hb : b = n
      · subst hb; simp [ha]
      · have h3 : (b < n + 1) ↔ b < n := by omega
        simp [ha, hb, h3]
    · simp [ha]

theorem resetColumn_cell (g : Grid) (i a b : Nat) :
    (resetColumn g i).cell a b =
      if a = i ∧ b < activeRows then (if b % 8 < 4 then 1 else 0) else g.cell a b :=
  resetColumn_fold_cell i activeRows g a b

theorem resetBricks_fold_cell (m : Nat) (g : Grid) (a b : Nat) :
    ((List.range m).foldl resetColumn g).cell a b =
      if a < m ∧ b < activeRows then (if b % 8 < 4 then 1 else 0) else g.cell a b := by
  induction m with
  | zero => simp
  | succ m ih =>
    rw [List.range_succ, List.foldl_append, List.foldl_cons, List.foldl_nil, resetColumn_cell, ih]
    by_cases hb : b < activeRows
    · by_cases ha : a = m
      · subst ha; simp [hb]
      · have h3 : (a < m + 1) ↔ a < m := by omega
        simp [ha, h3]
    · simp [hb]

theorem resetGame_cell (s : State) (a b : Nat) :
    (resetGame s).brickStates.cell a b =
      if a < 13 ∧ b < 21 then (if b % 8 < 4 then 1 else 0) else s.brickStates.cell a b := by
  show (resetBricks s.brickStates).cell a b = _
  unfold resetBricks
  rw [resetBricks_fold_cell]
  rfl

theorem aliveCount_resetGame (s : State) : aliveCount (resetGame s).brickStates = 156 := by
  unfold aliveCount
  have h : ∀ i ∈ List.range bricksWidth,
      ((List.range activeRows).filter (fun j => (resetGame s).brickStates.cell i j == 1)).length
        = 12 := by
    intro i hi
    have hi2 : i < 13 := by simpa [bricksWidth] using hi
    have : (List.range activeRows).filter (fun j => (resetGame s).brickStates.cell i j == 1)
        = (List.range activeRows).filter (fun j => decide (j % 8 < 4)) := by
      apply List.filter_congr
      intro j hj
      have hj2 : j < 21 := by simpa [activeRows, bricksHeight] using hj
      rw [resetGame_cell]
      by_cases h4 : j % 8 < 4 <;> simp [hi2, hj2, h4]
    rw [this]
    decide
  rw [List.map_congr_left h]
  decide

/-- C1: after `resetGame`, from any prior state, a cell of the active region (column below 13,
row below 21) holds `1` exactly when `row % 8 < 4` and holds `0` otherwise; so exactly the rows
0-3, 8-11 and 16-19 are alive, the 9 rows 4-7, 12-15 and 20 are dead, and 156 bricks are alive. -/
theorem resetGame_stripes (s : State) :
    (∀ col row, col < 13 → row < 21 →
      (((resetGame s).brickStates.cell col row = 1 ↔ row % 8 < 4) ∧
       ((resetGame s).brickStates.cell col row = 1 ∨ (resetGame s).brickStates.cell col row = 0) ∧
       ((resetGame s).brickStates.cell col row = 1 ↔
          row ∈ [0, 1, 2, 3, 8, 9, 10, 11, 16, 17, 18, 19]) ∧
       ((resetGame s).brickStates.cell col row = 0 ↔
          row ∈ [4, 5, 6, 7, 12, 13, 14, 15, 20]))) ∧
    aliveCount (resetGame s).brickStates = 156 := by
  refine ⟨?_, aliveCount_resetGame s⟩
  intro col row hc hr
  rw [resetGame_cell]
  simp only [hc, hr, and_self, if_true]
  interval_cases row <;> simp

/-- Witness for C1 at the start state, column 3, row 9. -/
theorem resetGame_stripes_witness :
    (3 < 13 ∧ 9 < 21) ∧
    ((resetGame (initState 0)).brickStates.cell 3 9 = 1 ↔ 9 % 8 < 4) :=
  ⟨by decide, ((resetGame_stripes (initState 0)).1 3 9 (by decide) (by decide)).1⟩

/-! ## Line descent -/

theorem range_succ_reverse (n : Nat) :
    (List.range (n + 1)).reverse = n :: (List.range n).reverse := by
  rw [List.range_succ, List.reverse_append]
  rfl

theorem descendCell_cell (lc : Int) (j : Nat) (g : Grid) (i a b : Nat) :
    (descendCell lc j g i).cell a b =
      if a = i ∧ b = j then (if j > 0 then g.cell i (j - 1) else newRowValue lc)
      else g.cell a b := by
  unfold descendCell
  by_cases hj : j > 0
  · simp [hj]
  · have h0 : j = 0 := by omega
    simp [h0]

theorem descendRow_fold_cell (lc : Int) (j : Nat) (m : Nat) (g : Grid) (a b : Nat) :
    ((List.range m).reverse.foldl (descendCell lc j) g).cell a b =
      if a < m ∧ b = j then (if j > 0 then g.cell a (j - 1) else newRowValue lc)
      else g.cell a b := by
  induction m generalizing g with
  | zero => simp
  | succ m ih =>
    rw [range_succ_reverse, List.foldl_cons, ih, descendCell_cell, descendCell_cell]
    by_cases hb : b = j
    · subst hb
      by_cases ha : a < m
      · have h1 : a < m + 1 := by omega
        have h2 : ¬ (a = m ∧ b - 1 = b) := by omega
        simp [ha, h1, h2]
      · by_cases ha2 : a = m
        · subst ha2; simp
        · have h1 : ¬ a < m + 1 := by omega
          simp [ha, ha2, h1]
    · simp [hb]

theorem descendRow_cell (lc : Int) (g : Grid) (j a b : Nat) :
    (descendRow lc g j).cell a b =
      if a < 13 ∧ b = j then (if j > 0 then g.cell a (j - 1) else newRowValue lc)
      else g.cell a b :=
  descendRow_fold_cell lc j bricksWidth g a b

theorem descendGrid_fold_cell (lc : Int) (n : Nat) (g : Grid) (a b : Nat) :
    ((List.range n).reverse.foldl (descendRow lc) g).cell a b =
      if a < 13 ∧ b < n then (if b > 0 then g.cell a (b - 1) else newRowValue lc)
      else g.cell a b := by
  induction n generalizing g with
  | zero => simp
  | succ n ih =>
    rw [range_succ_reverse, List.foldl_cons, ih, descendRow_cell, descendRow_cell]
    by_cases ha : a < 13
    · by_cases hb : b < n
      · have h1 : b < n + 1 := by omega
        have h2 : ¬ (b - 1 = n) := by omega
        simp [ha, hb, h1, h2]
      · by_cases hb2 : b = n
        · subst hb2; simp [ha]
        · have h1 : ¬ b < n + 1 := by omega
          simp [ha, hb, hb2, h1]
    · simp [ha]

/-- One descent: in the active region row 0 is the injected row and row `b > 0` is the old
row `b - 1`; every other cell is untouched. -/
theorem descendGrid_cell (lc : Int) (g : Grid) (a b : Nat) :
    (descendGrid lc g).cell a b =
      if a < 13 ∧ b < 21 then (if b > 0 then g.cell a (b - 1) else newRowValue lc)
      else g.cell a b :=
  descendGrid_fold_cell lc (bricksHeight - 7) g a b

theorem shrinkPaddle_brickStates (s : State) : (shrinkPaddle s).brickStates = s.brickStates := by
  unfold shrinkPaddle
  split_ifs <;> rfl

theorem shrinkPaddle_lineCounter (s : State) : (shrinkPaddle s).lineCounter = s.lineCounter := by
  unfold shrinkPaddle
  split_ifs <;> rfl

theorem lineStep_brickStates (s : State) (t : Nat) :
    (lineStep s t).brickStates = descendGrid s.lineCounter s.brickStates := by
  unfold lineStep
  rw [shrinkPaddle_brickStates]
  rfl

theorem lineStep_lineCounter (s : State) (t : Nat) :
    (lineStep s t).lineCounter = s.lineCounter + 1 := by
  unfold lineStep
  rw [shrinkPaddle_lineCounter]
  rfl

theorem lineSteps_snoc (s : State) (ts : List Nat) (t : Nat) :
    lineSteps s (ts ++ [t]) = lineStep (lineSteps s ts) t := by
  unfold lineSteps
  rw [List.foldl_append]
  rfl

theorem lineSteps_lineCounter (s : State) (ts : List Nat) :
    (lineSteps s ts).lineCounter = s.lineCounter + (ts.length : Int) := by
  induction ts using List.reverseRecOn with
  | nil => simp [lineSteps]
  | append_singleton ts t ih =>
    rw [lineSteps_snoc, lineStep_lineCounter, ih]
    simp
    ring

theorem lineSteps_cell (s : State) (ts : List Nat) (a b : Nat) (ha : a < 13) (hb : b ≤ 20) :
    (lineSteps s ts).brickStates.cell a b =
      if ts.length ≤ b then s.brickStates.cell a (b - ts.length)
      else newRowValue (s.lineCounter + (ts.length : Int) - 1 - (b : Int)) := by
  induction ts using List.reverseRecOn generalizing b with
  | nil => simp [lineSteps]
  | append_singleton ts t ih =>
    rw [lineSteps_snoc, lineStep_brickStates, descendGrid_cell, lineSteps_lineCounter]
    have hb1 : b < 21 := by omega
    simp only [ha, hb1, and_self, if_true, List.length_append, List.length_singleton]
    by_cases h0 : b > 0
    · rw [if_pos h0, ih (b - 1) (by omega)]
      by_cases hl : ts.length + 1 ≤ b
      · have hl2 : ts.length ≤ b - 1 := by omega
        rw [if_pos hl, if_pos hl2]
        congr 1
        omega
      · have hl2 : ¬ ts.length ≤ b - 1 := by omega
        rw [if_neg hl, if_neg hl2]
        congr 1
        push_cast
        omega
    · have hb0 : b = 0 := by omega
      subst hb0
      simp
      congr 1
      ring

/-- C2: after `N` consecutive line descents (none of the other statements of the loop in
between) from a state with any grid `G` and line counter `c`, in every column `i < 13` a row `r`
with `N ≤ r ≤ 20` holds the old content of row `r - N`, a row `r < N` (and `r ≤ 20`) holds the
row injected by descent number `N - 1 - r`, which is `1` if `(c + N - 1 - r) % 8 > 3` and `0`
if not, and the line counter is `c + N`; one descent sets every row `r` from 1 to 20 to the old
row `r - 1`. -/
theorem lineSteps_rows (s : State) (times : List Nat) (i : Nat) (hi : i < 13) :
    (∀ r, times.length ≤ r → r ≤ 20 →
      (lineSteps s times).brickStates.cell i r = s.brickStates.cell i (r - times.length)) ∧
    (∀ r, r < times.length → r ≤ 20 →
      (((lineSteps s times).brickStates.cell i r = 1 ↔
          Int.tmod (s.lineCounter + (times.length : Int) - 1 - (r : Int)) 8 > 3) ∧
       ((lineSteps s times).brickStates.cell i r = 1 ∨
          (lineSteps s times).brickStates.cell i r = 0))) ∧
    (lineSteps s times).lineCounter = s.lineCounter + (times.length : Int) ∧
    (∀ t r, 1 ≤ r → r ≤ 20 →
      (lineStep s t).brickStates.cell i r = s.brickStates.cell i (r - 1)) := by
  refine ⟨?_, ?_, lineSteps_lineCounter s times, ?_⟩
  · intro r h1 h2
    rw [lineSteps_cell s times i r hi h2, if_pos h1]
  · intro r h1 h2
    have hn : ¬ times.length ≤ r := by omega
    rw [lineSteps_cell s times i r hi h2, if_neg hn]
    unfold newRowValue
    by_cases h : Int.tmod (s.lineCounter + (times.length : Int) - 1 - (r : Int)) 8 > 3
    · simp [h]
    · simp [h]
  · intro t r h1 h2
    rw [lineStep_brickStates, descendGrid_cell]
    have h3 : r < 21 := by omega
    have h4 : r > 0 := by omega
    simp [hi, h3, h4]

/-- Witness for C2: three descents from the reset grid, column 2, row 5. -/
theorem lineSteps_rows_witness :
    (2 < 13 ∧ [10, 20, 30].length ≤ 5 ∧ 5 ≤ 20) ∧
    ((lineSteps (resetGame (initState 0)) [10, 20, 30]).brickStates.cell 2 5 =
        (resetGame (initState 0)).brickStates.cell 2 (5 - [10, 20, 30].length)) :=
  ⟨by decide,
   (lineSteps_rows (resetGame (initState 0)) [10, 20, 30] 2 (by decide)).1 5
      (by decide) (by decide)⟩

/-! ## Frame lemmas: the fields each statement of the loop leaves unchanged -/

/-- The fields `tickTimers` can change. -/
theorem tickTimers_frame (s : State) (delta : ℚ) :
    tickTimers s delta =
    { s with
      scoreQueueTimer := (tickTimers s delta).scoreQueueTimer } := by
  unfold tickTimers; split_ifs <;> rfl

@[simp] theorem tickTimers_paddleWidth (s : State) (delta : ℚ) :
    (tickTimers s delta).paddleWidth = s.paddleWidth := by
  rw [tickTimers_frame]

@[simp] theorem tickTimers_paddleX (s : State) (delta : ℚ) :
    (tickTimers s delta).paddleX = s.paddleX := by
  rw [tickTimers_frame]

@[simp] theorem tickTimers_brickStates (s : State) (delta : ℚ) :
    (tickTimers s delta).brickStates = s.brickStates := by
  rw [tickTimers_frame]

@[simp] theorem tickTimers_lives (s : State) (delta : ℚ) :
    (tickTimers s delta).lives = s.lives := by
  rw [tickTimers_frame]

@[simp] theorem tickTimers_ballRespawnTimer (s : State) (delta : ℚ) :
    (tickTimers s delta).ballRespawnTimer = s.ballRespawnTimer := by
  rw [tickTimers_frame]

@[simp] theorem tickTimers_ballMissed (s : State) (delta : ℚ) :
    (tickTimers s delta).ballMissed = s.ballMissed := by
  rw [tickTimers_frame]

@[simp] theorem tickTimers_gamePaused (s : State) (delta : ℚ) :
    (tickTimers s delta).gamePaused = s.gamePaused := by
  rw [tickTimers_frame]

@[simp] theorem tickTimers_ballSpeed (s : State) (delta : ℚ) :
    (tickTimers s delta).ballSpeed = s.ballSpeed := by
  rw [tickTimers_frame]

@[simp] theorem tickTimers_ballSpeedX (s : State) (delta : ℚ) :
    (tickTimers s delta).ballSpeedX = s.ballSpeedX := by
  rw [tickTimers_frame]

@[simp] theorem tickTimers_ballSpeedY (s : State) (delta : ℚ) :
    (tickTimers s delta).ballSpeedY = s.ballSpeedY := by
  rw [tickTimers_frame]

@[simp] theorem tickTimers_lastBreakTime (s : State) (delta : ℚ) :
    (tickTimers s delta).lastBreakTime = s.lastBreakTime := by
  rw [tickTimers_frame]

@[simp] theorem tickTimers_ballX (s : State) (delta : ℚ) :
    (tickTimers s delta).ballX = s.ballX := by
  rw [tickTimers_frame]

@[simp] theorem tickTimers_ballY (s : State) (delta : ℚ) :
    (tickTimers s delta).ballY = s.ballY := by
  rw [tickTimers_frame]

@[simp] theorem tickTimers_paddleHitCounter (s : State) (delta : ℚ) :
    (tickTimers s delta).paddleHitCounter = s.paddleHitCounter := by
  rw [tickTimers_frame]

@[simp] theorem tickTimers_lastPaddleHitTime (s : State) (delta : ℚ) :
    (tickTimers s delta).lastPaddleHitTime = s.lastPaddleHitTime := by
  rw [tickTimers_frame]

@[simp] theorem tickTimers_lineCounter (s : State) (delta : ℚ) :
    (tickTimers s delta).lineCounter = s.lineCounter := by
  rw [tickTimers_frame]

@[simp] theorem tickTimers_lastLineTime (s : State) (delta : ℚ) :
    (tickTimers s delta).lastLineTime = s.lastLineTime := by
  rw [tickTimers_frame]

@[simp] theorem tickTimers_brickSoundCounter (s : State) (delta : ℚ) :
    (tickTimers s delta).brickSoundCounter = s.brickSoundCounter := by
  rw [tickTimers_frame]

@[simp] theorem tickTimers_score (s : State) (delta : ℚ) :
    (tickTimers s delta).score = s.score := by
  rw [tickTimers_frame]

@[simp] theorem tickTimers_scoreQueue (s : State) (delta : ℚ) :
    (tickTimers s delta).scoreQueue = s.scoreQueue := by
  rw [tickTimers_frame]

@[simp] theorem tickTimers_quit (s : State) (delta : ℚ) :
    (tickTimers s delta).quit = s.quit := by
  rw [tickTimers_frame]

@[simp] theorem tickTimers_prevTime (s : State) (delta : ℚ) :
    (tickTimers s delta).prevTime = s.prevTime := by
  rw [tickTimers_frame]

/-- The fields `missRespawn` can change. -/
theorem missRespawn_frame (s : State) (delta : ℚ) :
    missRespawn s delta =
    { s with
      ballRespawnTimer := (missRespawn s delta).ballRespawnTimer,
      ballMissed := (missRespawn s delta).ballMissed,
      ballSpeed := (missRespawn s delta).ballSpeed,
      ballSpeedX := (missRespawn s delta).ballSpeedX,
      ballSpeedY := (missRespawn s delta).ballSpeedY,
      ballX := (missRespawn s delta).ballX,
      ballY := (missRespawn s delta).ballY,
      lives := (missRespawn s delta).lives } := by
  unfold missRespawn; dsimp only; split_ifs <;> rfl

@[simp] theorem missRespawn_paddleWidth (s : State) (delta : ℚ) :
    (missRespawn s delta).paddleWidth = s.paddleWidth := by
  rw [missRespawn_frame]

@[simp] theorem missRespawn_paddleX (s : State) (delta : ℚ) :
    (missRespawn s delta).paddleX = s.paddleX := by
  rw [missRespawn_frame]

@[simp] theorem missRespawn_brickStates (s : State) (delta : ℚ) :
    (missRespawn s delta).brickStates = s.brickStates := by
  rw [missRespawn_frame]

@[simp] theorem missRespawn_gamePaused (s : State) (delta : ℚ) :
    (missRespawn s delta).gamePaused = s.gamePaused := by
  rw [missRespawn_frame]

@[simp] theorem missRespawn_lastBreakTime (s : State) (delta : ℚ) :
    (missRespawn s delta).lastBreakTime = s.lastBreakTime := by
  rw [missRespawn_frame]

@[simp] theorem missRespawn_paddleHitCounter (s : State) (delta : ℚ) :
    (missRespawn s delta).paddleHitCounter = s.paddleHitCounter := by
  rw [missRespawn_frame]

@[simp] theorem missRespawn_lastPaddleHitTime (s : State) (delta : ℚ) :
    (missRespawn s delta).lastPaddleHitTime = s.lastPaddleHitTime := by
  rw [missRespawn_frame]

@[simp] theorem missRespawn_lineCounter (s : State) (delta : ℚ) :
    (missRespawn s delta).lineCounter = s.lineCounter := by
  rw [missRespawn_frame]

@[simp] theorem missRespawn_lastLineTime (s : State) (delta : ℚ) :
    (missRespawn s delta).lastLineTime = s.lastLineTime := by
  rw [missRespawn_frame]

@[simp] theorem missRespawn_brickSoundCounter (s : State) (delta : ℚ) :
    (missRespawn s delta).brickSoundCounter = s.brickSoundCounter := by
  rw [missRespawn_frame]

@[simp] theorem missRespawn_score (s : State) (delta : ℚ) :
    (missRespawn s delta).score = s.score := by
  rw [missRespawn_frame]

@[simp] theorem missRespawn_scoreQueue (s : State) (delta : ℚ) :
    (missRespawn s delta).scoreQueue = s.scoreQueue := by
  rw [missRespawn_frame]

@[simp] theorem missRespawn_scoreQueueTimer (s : State) (delta : ℚ) :
    (missRespawn s delta).scoreQueueTimer = s.scoreQueueTimer := by
  rw [missRespawn_frame]

@[simp] theorem missRespawn_quit (s : State) (delta : ℚ) :
    (missRespawn s delta).quit = s.quit := by
  rw [missRespawn_frame]

@[simp] theorem missRespawn_prevTime (s : State) (delta : ℚ) :
    (missRespawn s delta).prevTime = s.prevTime := by
  rw [missRespawn_frame]

/-- The fields `brickHit` can change. -/
theorem brickHit_frame (s : State) (curTime i j : Nat) :
    brickHit s curTime i j =
    { s with
      brickStates := (brickHit s curTime i j).brickStates,
      scoreQueue := (brickHit s curTime i j).scoreQueue,
      ballSpeed := (brickHit s curTime i j).ballSpeed,
      ballSpeedX := (brickHit s curTime i j).ballSpeedX,
      ballSpeedY := (brickHit s curTime i j).ballSpeedY,
      lastBreakTime := (brickHit s curTime i j).lastBreakTime } := by
  unfold brickHit speedUpdate speedUp; dsimp only; split_ifs <;> rfl

@[simp] theorem brickHit_paddleWidth (s : State) (curTime i j : Nat) :
    (brickHit s curTime i j).paddleWidth = s.paddleWidth := by
  rw [brickHit_frame]

@[simp] theorem brickHit_paddleX (s : State) (curTime i j : Nat) :
    (brickHit s curTime i j).paddleX = s.paddleX := by
  rw [brickHit_frame]

@[simp] theorem brickHit_lives (s : State) (curTime i j : Nat) :
    (brickHit s curTime i j).lives = s.lives := by
  rw [brickHit_frame]

@[simp] theorem brickHit_ballRespawnTimer (s : State) (curTime i j : Nat) :
    (brickHit s curTime i j).ballRespawnTimer = s.ballRespawnTimer := by
  rw [brickHit_frame]

@[simp] theorem brickHit_ballMissed (s : State) (curTime i j : Nat) :
    (brickHit s curTime i j).ballMissed = s.ballMissed := by
  rw [brickHit_frame]

@[simp] theorem brickHit_gamePaused (s : State) (curTime i j : Nat) :
    (brickHit s curTime i j).gamePaused = s.gamePaused := by
  rw [brickHit_frame]

@[simp] theorem brickHit_ballX (s : State) (curTime i j : Nat) :
    (brickHit s curTime i j).ballX = s.ballX := by
  rw [brickHit_frame]

@[simp] theorem brickHit_ballY (s : State) (curTime i j : Nat) :
    (brickHit s curTime i j).ballY = s.ballY := by
  rw [brickHit_frame]

@[simp] theorem brickHit_paddleHitCounter (s : State) (curTime i j : Nat) :
    (brickHit s curTime i j).paddleHitCounter = s.paddleHitCounter := by
  rw [brickHit_frame]

@[simp] theorem brickHit_lastPaddleHitTime (s : State) (curTime i j : Nat) :
    (brickHit s curTime i j).lastPaddleHitTime = s.lastPaddleHitTime := by
  rw [brickHit_frame]

@[simp] theorem brickHit_lineCounter (s : State) (curTime i j : Nat) :
    (brickHit s curTime i j).lineCounter = s.lineCounter := by
  rw [brickHit_frame]

@[simp] theorem brickHit_lastLineTime (s : State) (curTime i j : Nat) :
    (brickHit s curTime i j).lastLineTime = s.lastLineTime := by
  rw [brickHit_frame]

@[simp] theorem brickHit_brickSoundCounter (s : State) (curTime i j : Nat) :
    (brickHit s curTime i j).brickSoundCounter = s.brickSoundCounter := by
  rw [brickHit_frame]

@[simp] theorem brickHit_score (s : State) (curTime i j : Nat) :
    (brickHit s curTime i j).score = s.score := by
  rw [brickHit_frame]

@[simp] theorem brickHit_scoreQueueTimer (s : State) (curTime i j : Nat) :
    (brickHit s curTime i j).scoreQueueTimer = s.scoreQueueTimer := by
  rw [brickHit_frame]

@[simp] theorem brickHit_quit (s : State) (curTime i j : Nat) :
    (brickHit s curTime i j).quit = s.quit := by
  rw [brickHit_frame]

@[simp] theorem brickHit_prevTime (s : State) (curTime i j : Nat) :
    (brickHit s curTime i j).prevTime = s.prevTime := by
  rw [brickHit_frame]

/-- The fields `scoreDrain` can change. -/
theorem scoreDrain_frame (s : State) :
    scoreDrain s =
    { s with
      brickSoundCounter := (scoreDrain s).brickSoundCounter,
      score := (scoreDrain s).score,
      scoreQueue := (scoreDrain s).scoreQueue,
      scoreQueueTimer := (scoreDrain s).scoreQueueTimer } := by
  unfold scoreDrain drainStep; split_ifs <;> rfl

@[simp] theorem scoreDrain_paddleWidth (s : State) :
    (scoreDrain s).paddleWidth = s.paddleWidth := by
  rw [scoreDrain_frame]

@[simp] theorem scoreDrain_paddleX (s : State) :
    (scoreDrain s).paddleX = s.paddleX := by
  rw [scoreDrain_frame]

@[simp] theorem scoreDrain_brickStates (s : State) :
    (scoreDrain s).brickStates = s.brickStates := by
  rw [scoreDrain_frame]

@[simp] theorem scoreDrain_lives (s : State) :
    (scoreDrain s).lives = s.lives := by
  rw [scoreDrain_frame]

@[simp] theorem scoreDrain_ballRespawnTimer (s : State) :
    (scoreDrain s).ballRespawnTimer = s.ballRespawnTimer := by
  rw [scoreDrain_frame]

@[simp] theorem scoreDrain_ballMissed (s : State) :
    (scoreDrain s).ballMissed = s.ballMissed := by
  rw [scoreDrain_frame]

@[simp] theorem scoreDrain_gamePaused (s : State) :
    (scoreDrain s).gamePaused = s.gamePaused := by
  rw [scoreDrain_frame]

@[simp] theorem scoreDrain_ballSpeed (s : State) :
    (scoreDrain s).ballSpeed = s.ballSpeed := by
  rw [scoreDrain_frame]

@[simp] theorem scoreDrain_ballSpeedX (s : State) :
    (scoreDrain s).ballSpeedX = s.ballSpeedX := by
  rw [scoreDrain_frame]

@[simp] theorem scoreDrain_ballSpeedY (s : State) :
    (scoreDrain s).ballSpeedY = s.ballSpeedY := by
  rw [scoreDrain_frame]

@[simp] theorem scoreDrain_lastBreakTime (s : State) :
    (scoreDrain s).lastBreakTime = s.lastBreakTime := by
  rw [scoreDrain_frame]

@[simp] theorem scoreDrain_ballX (s : State) :
    (scoreDrain s).ballX = s.ballX := by
  rw [scoreDrain_frame]

@[simp] theorem scoreDrain_ballY (s : State) :
    (scoreDrain s).ballY = s.ballY := by
  rw [scoreDrain_frame]

@[simp] theorem scoreDrain_paddleHitCounter (s : State) :
    (scoreDrain s).paddleHitCounter = s.paddleHitCounter := by
  rw [scoreDrain_frame]

@[simp] theorem scoreDrain_lastPaddleHitTime (s : State) :
    (scoreDrain s).lastPaddleHitTime = s.lastPaddleHitTime := by
  rw [scoreDrain_frame]

@[simp] theorem scoreDrain_lineCounter (s : State) :
    (scoreDrain s).lineCounter = s.lineCounter := by
  rw [scoreDrain_frame]

@[simp] theorem scoreDrain_lastLineTime (s : State) :
    (scoreDrain s).lastLineTime = s.lastLineTime := by
  rw [scoreDrain_frame]

@[simp] theorem scoreDrain_quit (s : State) :
    (scoreDrain s).quit = s.quit := by
  rw [scoreDrain_frame]

@[simp] theorem scoreDrain_prevTime (s : State) :
    (scoreDrain s).prevTime = s.prevTime := by
  rw [scoreDrain_frame]

/-- The fields `lineStep` can change. -/
theorem lineStep_frame (s : State) (curTime : Nat) :
    lineStep s curTime =
    { s with
      brickStates := (lineStep s curTime).brickStates,
      lineCounter := (lineStep s curTime).lineCounter,
      lastLineTime := (lineStep s curTime).lastLineTime,
      paddleWidth := (lineStep s curTime).paddleWidth } := by
  unfold lineStep shrinkPaddle descendLines; dsimp only; split_ifs <;> rfl

@[simp] theorem lineStep_paddleX (s : State) (curTime : Nat) :
    (lineStep s curTime).paddleX = s.paddleX := by
  rw [lineStep_frame]

@[simp] theorem lineStep_lives (s : State) (curTime : Nat) :
    (lineStep s curTime).lives = s.lives := by
  rw [lineStep_frame]

@[simp] theorem lineStep_ballRespawnTimer (s : State) (curTime : Nat) :
    (lineStep s curTime).ballRespawnTimer = s.ballRespawnTimer := by
  rw [lineStep_frame]

@[simp] theorem lineStep_ballMissed (s : State) (curTime : Nat) :
    (lineStep s curTime).ballMissed = s.ballMissed := by
  rw [lineStep_frame]

@[simp] theorem lineStep_gamePaused (s : State) (curTime : Nat) :
    (lineStep s curTime).gamePaused = s.gamePaused := by
  rw [lineStep_frame]

@[simp] theorem lineStep_ballSpeed (s : State) (curTime : Nat) :
    (lineStep s curTime).ballSpeed = s.ballSpeed := by
  rw [lineStep_frame]

@[simp] theorem lineStep_ballSpeedX (s : State) (curTime : Nat) :
    (lineStep s curTime).ballSpeedX = s.ballSpeedX := by
  rw [lineStep_frame]

@[simp] theorem lineStep_ballSpeedY (s : State) (curTime : Nat) :
    (lineStep s curTime).ballSpeedY = s.ballSpeedY := by
  rw [lineStep_frame]

@[simp] theorem lineStep_lastBreakTime (s : State) (curTime : Nat) :
    (lineStep s curTime).lastBreakTime = s.lastBreakTime := by
  rw [lineStep_frame]

@[simp] theorem lineStep_ballX (s : State) (curTime : Nat) :
    (lineStep s curTime).ballX = s.ballX := by
  rw [lineStep_frame]

@[simp] theorem lineStep_ballY (s : State) (curTime : Nat) :
    (lineStep s curTime).ballY = s.ballY := by
  rw [lineStep_frame]

@[simp] theorem lineStep_paddleHitCounter (s : State) (curTime : Nat) :
    (lineStep s curTime).paddleHitCounter = s.paddleHitCounter := by
  rw [lineStep_frame]

@[simp] theorem lineStep_lastPaddleHitTime (s : State) (curTime : Nat) :
    (lineStep s curTime).lastPaddleHitTime = s.lastPaddleHitTime := by
  rw [lineStep_frame]

@[simp] theorem lineStep_brickSoundCounter (s : State) (curTime : Nat) :
    (lineStep s curTime).brickSoundCounter = s.brickSoundCounter := by
  rw [lineStep_frame]

@[simp] theorem lineStep_score (s : State) (curTime : Nat) :
    (lineStep s curTime).score = s.score := by
  rw [lineStep_frame]

@[simp] theorem lineStep_scoreQueue (s : State) (curTime : Nat) :
    (lineStep s curTime).scoreQueue = s.scoreQueue := by
  rw [lineStep_frame]

@[simp] theorem lineStep_scoreQueueTimer (s : State) (curTime : Nat) :
    (lineStep s curTime).scoreQueueTimer = s.scoreQueueTimer := by
  rw [lineStep_frame]

@[simp] theorem lineStep_quit (s : State) (curTime : Nat) :
    (lineStep s curTime).quit = s.quit := by
  rw [lineStep_frame]

@[simp] theorem lineStep_prevTime (s : State) (curTime : Nat) :
    (lineStep s curTime).prevTime = s.prevTime := by
  rw [lineStep_frame]

/-- The fields `paddleCollisions` can change. -/
theorem paddleCollisions_frame (s : State) (curTime : Nat) :
    paddleCollisions s curTime =
    { s with
      ballSpeedX := (paddleCollisions s curTime).ballSpeedX,
      ballSpeedY := (paddleCollisions s curTime).ballSpeedY,
      paddleHitCounter := (paddleCollisions s curTime).paddleHitCounter,
      lastPaddleHitTime := (paddleCollisions s curTime).lastPaddleHitTime,
      brickStates := (paddleCollisions s curTime).brickStates,
      lineCounter := (paddleCollisions s curTime).lineCounter,
      lastLineTime := (paddleCollisions s curTime).lastLineTime,
      paddleWidth := (paddleCollisions s curTime).paddleWidth } := by
  unfold paddleCollisions lineStep shrinkPaddle descendLines countPaddleHit bouncePaddle; dsimp only; split_ifs <;> rfl

@[simp] theorem paddleCollisions_paddleX (s : State) (curTime : Nat) :
    (paddleCollisions s curTime).paddleX = s.paddleX := by
  rw [paddleCollisions_frame]

@[simp] theorem paddleCollisions_lives (s : State) (curTime : Nat) :
    (paddleCollisions s curTime).lives = s.lives := by
  rw [paddleCollisions_frame]

@[simp] theorem paddleCollisions_ballRespawnTimer (s : State) (curTime : Nat) :
    (paddleCollisions s curTime).ballRespawnTimer = s.ballRespawnTimer := by
  rw [paddleCollisions_frame]

@[simp] theorem paddleCollisions_ballMissed (s : State) (curTime : Nat) :
    (paddleCollisions s curTime).ballMissed = s.ballMissed := by
  rw [paddleCollisions_frame]

@[simp] theorem paddleCollisions_gamePaused (s : State) (curTime : Nat) :
    (paddleCollisions s curTime).gamePaused = s.gamePaused := by
  rw [paddleCollisions_frame]

@[simp] theorem paddleCollisions_ballSpeed (s : State) (curTime : Nat) :
    (paddleCollisions s curTime).ballSpeed = s.ballSpeed := by
  rw [paddleCollisions_frame]

@[simp] theorem paddleCollisions_lastBreakTime (s : State) (curTime : Nat) :
    (paddleCollisions s curTime).lastBreakTime = s.lastBreakTime := by
  rw [paddleCollisions_frame]

@[simp] theorem paddleCollisions_ballX (s : State) (curTime : Nat) :
    (paddleCollisions s curTime).ballX = s.ballX := by
  rw [paddleCollisions_frame]

@[simp] theorem paddleCollisions_ballY (s : State) (curTime : Nat) :
    (paddleCollisions s curTime).ballY = s.ballY := by
  rw [paddleCollisions_frame]

@[simp] theorem paddleCollisions_brickSoundCounter (s : State) (curTime : Nat) :
    (paddleCollisions s curTime).brickSoundCounter = s.brickSoundCounter := by
  rw [paddleCollisions_frame]

@[simp] theorem paddleCollisions_score (s : State) (curTime : Nat) :
    (paddleCollisions s curTime).score = s.score := by
  rw [paddleCollisions_frame]

@[simp] theorem paddleCollisions_scoreQueue (s : State) (curTime : Nat) :
    (paddleCollisions s curTime).scoreQueue = s.scoreQueue := by
  rw [paddleCollisions_frame]

@[simp] theorem paddleCollisions_scoreQueueTimer (s : State) (curTime : Nat) :
    (paddleCollisions s curTime).scoreQueueTimer = s.scoreQueueTimer := by
  rw [paddleCollisions_frame]

@[simp] theorem paddleCollisions_quit (s : State) (curTime : Nat) :
    (paddleCollisions s curTime).quit = s.quit := by
  rw [paddleCollisions_frame]

@[simp] theorem paddleCollisions_prevTime (s : State) (curTime : Nat) :
    (paddleCollisions s curTime).prevTime = s.prevTime := by
  rw [paddleCollisions_frame]

/-- The fields `wallCollisions` can change. -/
theorem wallCollisions_frame (s : State) :
    wallCollisions s =
    { s with
      ballSpeedX := (wallCollisions s).ballSpeedX,
      ballSpeedY := (wallCollisions s).ballSpeedY } := by
  unfold wallCollisions; dsimp only; split_ifs <;> rfl

@[simp] theorem wallCollisions_paddleWidth (s : State) :
    (wallCollisions s).paddleWidth = s.paddleWidth := by
  rw [wallCollisions_frame]

@[simp] theorem wallCollisions_paddleX (s : State) :
    (wallCollisions s).paddleX = s.paddleX := by
  rw [wallCollisions_frame]

@[simp] theorem wallCollisions_brickStates (s : State) :
    (wallCollisions s).brickStates = s.brickStates := by
  rw [wallCollisions_frame]

@[simp] theorem wallCollisions_lives (s : State) :
    (wallCollisions s).lives = s.lives := by
  rw [wallCollisions_frame]

@[simp] theorem wallCollisions_ballRespawnTimer (s : State) :
    (wallCollisions s).ballRespawnTimer = s.ballRespawnTimer := by
  rw [wallCollisions_frame]

@[simp] theorem wallCollisions_ballMissed (s : State) :
    (wallCollisions s).ballMissed = s.ballMissed := by
  rw [wallCollisions_frame]

@[simp] theorem wallCollisions_gamePaused (s : State) :
    (wallCollisions s).gamePaused = s.gamePaused := by
  rw [wallCollisions_frame]

@[simp] theorem wallCollisions_ballSpeed (s : State) :
    (wallCollisions s).ballSpeed = s.ballSpeed := by
  rw [wallCollisions_frame]

@[simp] theorem wallCollisions_lastBreakTime (s : State) :
    (wallCollisions s).lastBreakTime = s.lastBreakTime := by
  rw [wallCollisions_frame]

@[simp] theorem wallCollisions_ballX (s : State) :
    (wallCollisions s).ballX = s.ballX := by
  rw [wallCollisions_frame]

@[simp] theorem wallCollisions_ballY (s : State) :
    (wallCollisions s).ballY = s.ballY := by
  rw [wallCollisions_frame]

@[simp] theorem wallCollisions_paddleHitCounter (s : State) :
    (wallCollisions s).paddleHitCounter = s.paddleHitCounter := by
  rw [wallCollisions_frame]

@[simp] theorem wallCollisions_lastPaddleHitTime (s : State) :
    (wallCollisions s).lastPaddleHitTime = s.lastPaddleHitTime := by
  rw [wallCollisions_frame]

@[simp] theorem wallCollisions_lineCounter (s : State) :
    (wallCollisions s).lineCounter = s.lineCounter := by
  rw [wallCollisions_frame]

@[simp] theorem wallCollisions_lastLineTime (s : State) :
    (wallCollisions s).lastLineTime = s.lastLineTime := by
  rw [wallCollisions_frame]

@[simp] theorem wallCollisions_brickSoundCounter (s : State) :
    (wallCollisions s).brickSoundCounter = s.brickSoundCounter := by
  rw [wallCollisions_frame]

@[simp] theorem wallCollisions_score (s : State) :
    (wallCollisions s).score = s.score := by
  rw [wallCollisions_frame]

@[simp] theorem wallCollisions_scoreQueue (s : State) :
    (wallCollisions s).scoreQueue = s.scoreQueue := by
  rw [wallCollisions_frame]

@[simp] theorem wallCollisions_scoreQueueTimer (s : State) :
    (wallCollisions s).scoreQueueTimer = s.scoreQueueTimer := by
  rw [wallCollisions_frame]

@[simp] theorem wallCollisions_quit (s : State) :
    (wallCollisions s).quit = s.quit := by
  rw [wallCollisions_frame]

@[simp] theorem wallCollisions_prevTime (s : State) :
    (wallCollisions s).prevTime = s.prevTime := by
  rw [wallCollisions_frame]

/-- The fields `moveBall` can change. -/
theorem moveBall_frame (s : State) (delta : ℚ) :
    moveBall s delta =
    { s with
      ballX := (moveBall s delta).ballX,
      ballY := (moveBall s delta).ballY } := by
  rfl

@[simp] theorem moveBall_paddleWidth (s : State) (delta : ℚ) :
    (moveBall s delta).paddleWidth = s.paddleWidth := by
  rw [moveBall_frame]

@[simp] theorem moveBall_paddleX (s : State) (delta : ℚ) :
    (moveBall s delta).paddleX = s.paddleX := by
  rw [moveBall_frame]

@[simp] theorem moveBall_brickStates (s : State) (delta : ℚ) :
    (moveBall s delta).brickStates = s.brickStates := by
  rw [moveBall_frame]

@[simp] theorem moveBall_lives (s : State) (delta : ℚ) :
    (moveBall s delta).lives = s.lives := by
  rw [moveBall_frame]

@[simp] theorem moveBall_ballRespawnTimer (s : State) (delta : ℚ) :
    (moveBall s delta).ballRespawnTimer = s.ballRespawnTimer := by
  rw [moveBall_frame]

@[simp] theorem moveBall_ballMissed (s : State) (delta : ℚ) :
    (moveBall s delta).ballMissed = s.ballMissed := by
  rw [moveBall_frame]

@[simp] theorem moveBall_gamePaused (s : State) (delta : ℚ) :
    (moveBall s delta).gamePaused = s.gamePaused := by
  rw [moveBall_frame]

@[simp] theorem moveBall_ballSpeed (s : State) (delta : ℚ) :
    (moveBall s delta).ballSpeed = s.ballSpeed := by
  rw [moveBall_frame]

@[simp] theorem moveBall_ballSpeedX (s : State) (delta : ℚ) :
    (moveBall s delta).ballSpeedX = s.ballSpeedX := by
  rw [moveBall_frame]

@[simp] theorem moveBall_ballSpeedY (s : State) (delta : ℚ) :
    (moveBall s delta).ballSpeedY = s.ballSpeedY := by
  rw [moveBall_frame]

@[simp] theorem moveBall_lastBreakTime (s : State) (delta : ℚ) :
    (moveBall s delta).lastBreakTime = s.lastBreakTime := by
  rw [moveBall_frame]

@[simp] theorem moveBall_paddleHitCounter (s : State) (delta : ℚ) :
    (moveBall s delta).paddleHitCounter = s.paddleHitCounter := by
  rw [moveBall_frame]

@[simp] theorem moveBall_lastPaddleHitTime (s : State) (delta : ℚ) :
    (moveBall s delta).lastPaddleHitTime = s.lastPaddleHitTime := by
  rw [moveBall_frame]

@[simp] theorem moveBall_lineCounter (s : State) (delta : ℚ) :
    (moveBall s delta).lineCounter = s.lineCounter := by
  rw [moveBall_frame]

@[simp] theorem moveBall_lastLineTime (s : State) (delta : ℚ) :
    (moveBall s delta).lastLineTime = s.lastLineTime := by
  rw [moveBall_frame]

@[simp] theorem moveBall_brickSoundCounter (s : State) (delta : ℚ) :
    (moveBall s delta).brickSoundCounter = s.brickSoundCounter := by
  rw [moveBall_frame]

@[simp] theorem moveBall_score (s : State) (delta : ℚ) :
    (moveBall s delta).score = s.score := by
  rw [moveBall_frame]

@[simp] theorem moveBall_scoreQueue (s : State) (delta : ℚ) :
    (moveBall s delta).scoreQueue = s.scoreQueue := by
  rw [moveBall_frame]

@[simp] theorem moveBall_scoreQueueTimer (s : State) (delta : ℚ) :
    (moveBall s delta).scoreQueueTimer = s.scoreQueueTimer := by
  rw [moveBall_frame]

@[simp] theorem moveBall_quit (s : State) (delta : ℚ) :
    (moveBall s delta).quit = s.quit := by
  rw [moveBall_frame]

@[simp] theorem moveBall_prevTime (s : State) (delta : ℚ) :
    (moveBall s delta).prevTime = s.prevTime := by
  rw [moveBall_frame]

/-! ## The event loop -/

/-- The event loop over an empty queue. -/
theorem pollEvents_nil (s : State) (delta : ℚ) : pollEvents s delta [] = s := rfl

theorem pollEvents_cons (s : State) (delta : ℚ) (e : Event) (es : List Event) :
    pollEvents s delta (e :: es) = pollEvents (handleEvent delta s e) delta es := rfl

/-- Induction over the polled events: a property kept by every handled event holds after
the event loop. -/
theorem pollEvents_induct (delta : ℚ) (P : State → Prop) (events : List Event)
    (hstep : ∀ s e, e ∈ events → P s → P (handleEvent delta s e)) (s : State) (h0 : P s) :
    P (pollEvents s delta events) := by
  induction events generalizing s with
  | nil => exact h0
  | cons e es ih =>
    rw [pollEvents_cons]
    apply ih
    · intro s1 e1 he1 hp
      exact hstep s1 e1 (List.mem_cons_of_mem _ he1) hp
    · exact hstep s e (List.mem_cons_self _ _) h0

/-- An event other than the `R` key changes at most `paddleX`, `gamePaused` and `quit`. -/
theorem handleEvent_frame (delta : ℚ) (s : State) (e : Event) (he : e ≠ Event.keyDown Key.r) :
    handleEvent delta s e =
    { s with
      paddleX := (handleEvent delta s e).paddleX
      gamePaused := (handleEvent delta s e).gamePaused
      quit := (handleEvent delta s e).quit } := by
  cases e with
  | quitEvent => rfl
  | keyDown k => cases k <;> first | rfl | exact absurd rfl he
  | mouseMotion x =>
    unfold handleEvent
    dsimp only
    split_ifs <;> rfl
  | other => rfl

/-- Without an `R` key press the event loop changes at most `paddleX`, `gamePaused` and
`quit`. -/
theorem pollEvents_frame (delta : ℚ) (s : State) (events : List Event)
    (hr : Event.keyDown Key.r ∉ events) :
    pollEvents s delta events =
    { s with
      paddleX := (pollEvents s delta events).paddleX
      gamePaused := (pollEvents s delta events).gamePaused
      quit := (pollEvents s delta events).quit } := by
  have h : ∃ px gp q, pollEvents s delta events =
      { s with paddleX := px, gamePaused := gp, quit := q } := by
    apply pollEvents_induct delta
      (fun s1 => ∃ px gp q, s1 = { s with paddleX := px, gamePaused := gp, quit := q }) events
    · intro s1 e he hp
      obtain ⟨px, gp, q, rfl⟩ := hp
      have hne : e ≠ Event.keyDown Key.r := fun h => hr (h ▸ he)
      rw [handleEvent_frame delta _ e hne]
      exact ⟨_, _, _, rfl⟩
    · exact ⟨s.paddleX, s.gamePaused, s.quit, rfl⟩
  obtain ⟨px, gp, q, h⟩ := h
  rw [h]

/-- The fields no event changes, not even the `R` key. -/
theorem handleEvent_fixed (delta : ℚ) (s : State) (e : Event) :
    (handleEvent delta s e).ballRespawnTimer = s.ballRespawnTimer ∧
    (handleEvent delta s e).lastBreakTime = s.lastBreakTime ∧
    (handleEvent delta s e).lastPaddleHitTime = s.lastPaddleHitTime ∧
    (handleEvent delta s e).lastLineTime = s.lastLineTime ∧
    (handleEvent delta s e).prevTime = s.prevTime := by
  cases e with
  | quitEvent => exact ⟨rfl, rfl, rfl, rfl, rfl⟩
  | keyDown k => cases k <;> exact ⟨rfl, rfl, rfl, rfl, rfl⟩
  | mouseMotion x =>
    unfold handleEvent
    dsimp only
    split_ifs <;> exact ⟨rfl, rfl, rfl, rfl, rfl⟩
  | other => exact ⟨rfl, rfl, rfl, rfl, rfl⟩

theorem pollEvents_fixed (delta : ℚ) (s : State) (events : List Event) :
    (pollEvents s delta events).ballRespawnTimer = s.ballRespawnTimer ∧
    (pollEvents s delta events).lastBreakTime = s.lastBreakTime ∧
    (pollEvents s delta events).lastPaddleHitTime = s.lastPaddleHitTime ∧
    (pollEvents s delta events).lastLineTime = s.lastLineTime ∧
    (pollEvents s delta events).prevTime = s.prevTime := by
  apply pollEvents_induct delta
    (fun s1 => s1.ballRespawnTimer = s.ballRespawnTimer ∧ s1.lastBreakTime = s.lastBreakTime ∧
      s1.lastPaddleHitTime = s.lastPaddleHitTime ∧ s1.lastLineTime = s.lastLineTime ∧
      s1.prevTime = s.prevTime) events
  · intro s1 e _ hp
    obtain ⟨h1, h2, h3, h4, h5⟩ := handleEvent_fixed delta s1 e
    exact ⟨h1.trans hp.1, h2.trans hp.2.1, h3.trans hp.2.2.1, h4.trans hp.2.2.2.1,
      h5.trans hp.2.2.2.2⟩
  · exact ⟨rfl, rfl, rfl, rfl, rfl⟩

/-! ## The brick scan -/

theorem scanCell_done (t i : Nat) (s : State) (j : Nat) :
    scanCell t i (s, true) j = (s, true) := by
  simp [scanCell]

theorem scanCell_miss (t i : Nat) (s : State) (j : Nat) (h : ¬ liveHit s i j) :
    scanCell t i (s, false) j = (s, false) := by
  unfold liveHit at h
  unfold scanCell
  by_cases h1 : s.brickStates.cell i j = 1
  · have h2 : ¬ hitTest s i j := fun h2 => h ⟨h1, h2⟩
    simp [h1, h2]
  · simp [h1]

theorem scanCell_hit (t i : Nat) (s : State) (j : Nat) (h : liveHit s i j) :
    scanCell t i (s, false) j = (brickHit s t i j, true) := by
  unfold liveHit at h
  unfold scanCell
  simp [h.1, h.2]

theorem scanRows_done (t i : Nat) (s : State) (l : List Nat) :
    l.foldl (scanCell t i) (s, true) = (s, true) := by
  induction l with
  | nil => rfl
  | cons j l ih => rw [List.foldl_cons, scanCell_done, ih]

/-- The scan of the first `n` rows of column `i`, entered without a collision: either no
brick of these rows is hit and nothing changes, or the hit brick of lowest row index is
broken. -/
theorem scanRows_cases (t i : Nat) (s : State) (n : Nat) :
    ((List.range n).foldl (scanCell t i) (s, false) = (s, false) ∧
        ∀ j, j < n → ¬ liveHit s i j) ∨
    (∃ j, j < n ∧ liveHit s i j ∧ (∀ k, k < j → ¬ liveHit s i k) ∧
        (List.range n).foldl (scanCell t i) (s, false) = (brickHit s t i j, true)) := by
  induction n with
  | zero =>
    left
    exact ⟨rfl, fun j hj => absurd hj (Nat.not_lt_zero j)⟩
  | succ n ih =>
    rw [List.range_succ, List.foldl_append, List.foldl_cons, List.foldl_nil]
    rcases ih with ⟨heq, hno⟩ | ⟨j, hj, hlive, hfirst, heq⟩
    · rw [heq]
      by_cases hn : liveHit s i n
      · right
        exact ⟨n, Nat.lt_succ_self n, hn, hno, scanCell_hit t i s n hn⟩
      · left
        refine ⟨scanCell_miss t i s n hn, ?_⟩
        intro j hj
        rcases Nat.lt_succ_iff_lt_or_eq.mp hj with h | h
        · exact hno j h
        · rw [h]; exact hn
    · right
      refine ⟨j, Nat.lt_succ_of_lt hj, hlive, hfirst, ?_⟩
      rw [heq, scanCell_done]

theorem scanColumn_done (t : Nat) (s : State) (i : Nat) :
    scanColumn t (s, true) i = (s, true) := by
  simp [scanColumn]

theorem scanColumn_start (t : Nat) (s : State) (i : Nat) :
    scanColumn t (s, false) i = (List.range activeRows).foldl (scanCell t i) (s, false) := by
  simp [scanColumn]

/-- The scan of the first `m` columns: either no brick of these columns is hit and nothing
changes, or the first hit brick in scan order is broken. -/
theorem scanColumns_cases (t : Nat) (s : State) (m : Nat) :
    ((List.range m).foldl (scanColumn t) (s, false) = (s, false) ∧
        ∀ i j, i < m → j < 21 → ¬ liveHit s i j) ∨
    (∃ i j, i < m ∧ j < 21 ∧ liveHit s i j ∧
        (∀ i2 j2, j2 < 21 → scannedBefore i2 j2 i j → ¬ liveHit s i2 j2) ∧
        (List.range m).foldl (scanColumn t) (s, false) = (brickHit s t i j, true)) := by
  induction m with
  | zero =>
    left
    exact ⟨rfl, fun i j hi _ => absurd hi (Nat.not_lt_zero i)⟩
  | succ m ih =>
    rw [List.range_succ, List.foldl_append, List.foldl_cons, List.foldl_nil]
    rcases ih with ⟨heq, hno⟩ | ⟨i, j, hi, hj, hlive, hfirst, heq⟩
    · rw [heq, scanColumn_start]
      rcases scanRows_cases t m s activeRows with ⟨heq2, hno2⟩ | ⟨j, hj, hlive, hfirst, heq2⟩
      · left
        refine ⟨heq2, ?_⟩
        intro i j hi hj
        rcases Nat.lt_succ_iff_lt_or_eq.mp hi with h | h
        · exact hno i j h hj
        · rw [h]; exact hno2 j hj
      · right
        refine ⟨m, j, Nat.lt_succ_self m, hj, hlive, ?_, heq2⟩
        intro i2 j2 hj2 hb
        rcases hb with h | ⟨h1, h2⟩
        · exact hno i2 j2 h hj2
        · rw [h1]; exact hfirst j2 h2
    · right
      refine ⟨i, j, Nat.lt_succ_of_lt hi, hj, hlive, hfirst, ?_⟩
      rw [heq, scanColumn_done]

/-- Within the cooldown the collision block does nothing. -/
theorem brickCollisions_cooldown (s : State) (t : Nat)
    (h : ¬ (((t : ℚ) - s.lastBreakTime) / 1000 > ballCooldown)) :
    brickCollisions s t = s := by
  unfold brickCollisions
  rw [if_neg h]

/-- The collision block either changes nothing or breaks the first hit brick in scan order. -/
theorem brickCollisions_cases (s : State) (t : Nat) :
    brickCollisions s t = s ∨
    (∃ i j, i < 13 ∧ j < 21 ∧ ((t : ℚ) - s.lastBreakTime) / 1000 > ballCooldown ∧
        liveHit s i j ∧
        (∀ i2 j2, j2 < 21 → scannedBefore i2 j2 i j → ¬ liveHit s i2 j2) ∧
        brickCollisions s t = brickHit s t i j) := by
  by_cases h : ((t : ℚ) - s.lastBreakTime) / 1000 > ballCooldown
  · unfold brickCollisions
    rw [if_pos h]
    rcases scanColumns_cases t s bricksWidth with ⟨heq, _⟩ | ⟨i, j, hi, hj, hlive, hfirst, heq⟩
    · left; rw [heq]
    · right
      exact ⟨i, j, hi, hj, h, hlive, hfirst, by rw [heq]⟩
  · left
    exact brickCollisions_cooldown s t h

/-- Past the cooldown, with no hit brick in the active region, the collision block does
nothing. -/
theorem brickCollisions_none (s : State) (t : Nat)
    (hno : ∀ i j, i < 13 → j < 21 → ¬ liveHit s i j) :
    brickCollisions s t = s := by
  rcases brickCollisions_cases s t with h | ⟨i, j, hi, hj, _, hlive, _, _⟩
  · exact h
  · exact absurd hlive (hno i j hi hj)

/-- Past the cooldown the collision block breaks the first hit brick in scan order. -/
theorem brickCollisions_first (s : State) (t : Nat) (i j : Nat)
    (hcool : ((t : ℚ) - s.lastBreakTime) / 1000 > ballCooldown)
    (hi : i < 13) (hj : j < 21) (hlive : liveHit s i j)
    (hfirst : ∀ i2 j2, i2 < 13 → j2 < 21 → scannedBefore i2 j2 i j → ¬ liveHit s i2 j2) :
    brickCollisions s t = brickHit s t i j := by
  unfold brickCollisions
  rw [if_pos hcool]
  rcases scanColumns_cases t s bricksWidth with ⟨_, hno⟩ | ⟨a, b, ha, hb, hlive2, hfirst2, heq⟩
  · exact absurd hlive (hno i j hi hj)
  · rw [heq]
    have ha13 : a < 13 := ha
    have hab : a = i ∧ b = j := by
      by_contra hne
      have hor : scannedBefore a b i j ∨ scannedBefore i j a b := by
        unfold scannedBefore
        omega
      rcases hor with h | h
      · exact hfirst a b ha13 hb h hlive2
      · exact hfirst2 i j hj h hlive
    rw [hab.1, hab.2]

theorem brickHit_brickStates (s : State) (t i j : Nat) :
    (brickHit s t i j).brickStates = setCell s.brickStates i j 0 := by
  unfold brickHit speedUpdate speedUp
  dsimp only
  split_ifs <;> rfl

theorem brickHit_scoreQueue (s : State) (t i j : Nat) :
    (brickHit s t i j).scoreQueue = s.scoreQueue + brickPoints j := by
  unfold brickHit speedUpdate speedUp
  dsimp only
  split_ifs <;> rfl

/-! ## C9: at most one brick per iteration -/

/-- C9: the brick-collision block of one iteration kills at most one brick. If the time since
the last break does not exceed `ballCooldown` (0.05 s) the grid is unchanged; otherwise, if the
live cell `(i, j)` passes the hit test and no cell visited before it in the scan order (columns
0..12 outside, rows 0..20 inside) does, then cell `(i, j)` is set to 0 and every other cell is
unchanged; and if no live cell of the active region passes the test the grid is unchanged. In
every case the new grid is the old one or the old one with one live cell set to 0. -/
theorem brickCollisions_one_brick (s : State) (t : Nat) :
    ((((t : ℚ) - s.lastBreakTime) / 1000 ≤ ballCooldown) →
        (brickCollisions s t).brickStates = s.brickStates) ∧
    ((((t : ℚ) - s.lastBreakTime) / 1000 > ballCooldown) →
        (∀ i j, i < 13 → j < 21 → liveHit s i j →
          (∀ i2 j2, i2 < 13 → j2 < 21 → scannedBefore i2 j2 i j → ¬ liveHit s i2 j2) →
          ((brickCollisions s t).brickStates.cell i j = 0 ∧
           ∀ a b, ¬ (a = i ∧ b = j) →
             (brickCollisions s t).brickStates.cell a b = s.brickStates.cell a b)) ∧
        ((∀ i j, i < 13 → j < 21 → ¬ liveHit s i j) →
          (brickCollisions s t).brickStates = s.brickStates)) ∧
    ((brickCollisions s t).brickStates = s.brickStates ∨
      ∃ i j, i < 13 ∧ j < 21 ∧ s.brickStates.cell i j = 1 ∧
        (brickCollisions s t).brickStates = setCell s.brickStates i j 0) := by
  refine ⟨?_, ?_, ?_⟩
  · intro h
    rw [brickCollisions_cooldown s t (not_lt.mpr h)]
  · intro hcool
    refine ⟨?_, ?_⟩
    · intro i j hi hj hlive hfirst
      rw [brickCollisions_first s t i j hcool hi hj hlive hfirst, brickHit_brickStates]
      refine ⟨by simp, ?_⟩
      intro a b hab
      simp [hab]
    · intro hno
      rw [brickCollisions_none s t hno]
  · rcases brickCollisions_cases s t with h | ⟨i, j, hi, hj, _, hlive, _, heq⟩
    · left; rw [h]
    · right
      exact ⟨i, j, hi, hj, hlive.1, by rw [heq, brickHit_brickStates]⟩

/-- A state with the single live brick `(0, 0)` and the ball just below it, moving up. -/
theorem liveHit_example :
    liveHit { initState 0 with
      brickStates := setCell (Grid.mk (fun _ _ => 0)) 0 0 1
      ballX := 1 / 10
      ballY := 5 / 100
      ballSpeedY := -(1 / 4) } 0 0 := by
  unfold liveHit hitTest
  refine ⟨by simp, ?_, ?_, ?_⟩
  · norm_num [brickCenterX, ballSize, paddleHeight, bricksWidth, bricksHeight, widthPadding,
      heightPadding]
  · norm_num [brickCenterY, ballSize, paddleHeight, bricksWidth, bricksHeight, widthPadding,
      heightPadding, abs_le]
  · norm_num [brickCenterY, bricksHeight, heightPadding, dirOf, negDirOf, floatEq, abs_of_neg,
      abs_of_pos]

/-- Witness for C9: the single live brick `(0, 0)` is hit past the cooldown and is set to 0. -/
theorem brickCollisions_one_brick_witness :
    (brickCollisions { initState 0 with
      brickStates := setCell (Grid.mk (fun _ _ => 0)) 0 0 1
      ballX := 1 / 10
      ballY := 5 / 100
      ballSpeedY := -(1 / 4) } 1000).brickStates.cell 0 0 = 0 :=
  (((brickCollisions_one_brick { initState 0 with
      brickStates := setCell (Grid.mk (fun _ _ => 0)) 0 0 1
      ballX := 1 / 10
      ballY := 5 / 100
      ballSpeedY := -(1 / 4) } 1000).2.1
    (by norm_num [initState, ballCooldown])).1 0 0 (by decide) (by decide) liveHit_example
    (by
      intro i2 j2 _ _ h
      unfold scannedBefore at h
      omega)).1

/-! Fields left unchanged by `brickCollisions`. -/

@[simp] theorem brickCollisions_paddleWidth (s : State) (curTime : Nat) :
    (brickCollisions s curTime).paddleWidth = s.paddleWidth := by
  rcases brickCollisions_cases s curTime with h | ⟨i, j, _, _, _, _, _, h⟩ <;> rw [h]
  exact brickHit_paddleWidth s curTime i j

@[simp] theorem brickCollisions_paddleX (s : State) (curTime : Nat) :
    (brickCollisions s curTime).paddleX = s.paddleX := by
  rcases brickCollisions_cases s curTime with h | ⟨i, j, _, _, _, _, _, h⟩ <;> rw [h]
  exact brickHit_paddleX s curTime i j

@[simp] theorem brickCollisions_lives (s : State) (curTime : Nat) :
    (brickCollisions s curTime).lives = s.lives := by
  rcases brickCollisions_cases s curTime with h | ⟨i, j, _, _, _, _, _, h⟩ <;> rw [h]
  exact brickHit_lives s curTime i j

@[simp] theorem brickCollisions_ballRespawnTimer (s : State) (curTime : Nat) :
    (brickCollisions s curTime).ballRespawnTimer = s.ballRespawnTimer := by
  rcases brickCollisions_cases s curTime with h | ⟨i, j, _, _, _, _, _, h⟩ <;> rw [h]
  exact brickHit_ballRespawnTimer s curTime i j

@[simp] theorem brickCollisions_ballMissed (s : State) (curTime : Nat) :
    (brickCollisions s curTime).ballMissed = s.ballMissed := by
  rcases brickCollisions_cases s curTime with h | ⟨i, j, _, _, _, _, _, h⟩ <;> rw [h]
  exact brickHit_ballMissed s curTime i j

@[simp] theorem brickCollisions_gamePaused (s : State) (curTime : Nat) :
    (brickCollisions s curTime).gamePaused = s.gamePaused := by
  rcases brickCollisions_cases s curTime with h | ⟨i, j, _, _, _, _, _, h⟩ <;> rw [h]
  exact brickHit_gamePaused s curTime i j

@[simp] theorem brickCollisions_ballX (s : State) (curTime : Nat) :
    (brickCollisions s curTime).ballX = s.ballX := by
  rcases brickCollisions_cases s curTime with h | ⟨i, j, _, _, _, _, _, h⟩ <;> rw [h]
  exact brickHit_ballX s curTime i j

@[simp] theorem brickCollisions_ballY (s : State) (curTime : Nat) :
    (brickCollisions s curTime).ballY = s.ballY := by
  rcases brickCollisions_cases s curTime with h | ⟨i, j, _, _, _, _, _, h⟩ <;> rw [h]
  exact brickHit_ballY s curTime i j

@[simp] theorem brickCollisions_paddleHitCounter (s : State) (curTime : Nat) :
    (brickCollisions s curTime).paddleHitCounter = s.paddleHitCounter := by
  rcases brickCollisions_cases s curTime with h | ⟨i, j, _, _, _, _, _, h⟩ <;> rw [h]
  exact brickHit_paddleHitCounter s curTime i j

@[simp] theorem brickCollisions_lastPaddleHitTime (s : State) (curTime : Nat) :
    (brickCollisions s curTime).lastPaddleHitTime = s.lastPaddleHitTime := by
  rcases brickCollisions_cases s curTime with h | ⟨i, j, _, _, _, _, _, h⟩ <;> rw [h]
  exact brickHit_lastPaddleHitTime s curTime i j

@[simp] theorem brickCollisions_lineCounter (s : State) (curTime : Nat) :
    (brickCollisions s curTime).lineCounter = s.lineCounter := by
  rcases brickCollisions_cases s curTime with h | ⟨i, j, _, _, _, _, _, h⟩ <;> rw [h]
  exact brickHit_lineCounter s curTime i j

@[simp] theorem brickCollisions_lastLineTime (s : State) (curTime : Nat) :
    (brickCollisions s curTime).lastLineTime = s.lastLineTime := by
  rcases brickCollisions_cases s curTime with h | ⟨i, j, _, _, _, _, _, h⟩ <;> rw [h]
  exact brickHit_lastLineTime s curTime i j

@[simp] theorem brickCollisions_brickSoundCounter (s : State) (curTime : Nat) :
    (brickCollisions s curTime).brickSoundCounter = s.brickSoundCounter := by
  rcases brickCollisions_cases s curTime with h | ⟨i, j, _, _, _, _, _, h⟩ <;> rw [h]
  exact brickHit_brickSoundCounter s curTime i j

@[simp] theorem brickCollisions_score (s : State) (curTime : Nat) :
    (brickCollisions s curTime).score = s.score := by
  rcases brickCollisions_cases s curTime with h | ⟨i, j, _, _, _, _, _, h⟩ <;> rw [h]
  exact brickHit_score s curTime i j

@[simp] theorem brickCollisions_scoreQueueTimer (s : State) (curTime : Nat) :
    (brickCollisions s curTime).scoreQueueTimer = s.scoreQueueTimer := by
  rcases brickCollisions_cases s curTime with h | ⟨i, j, _, _, _, _, _, h⟩ <;> rw [h]
  exact brickHit_scoreQueueTimer s curTime i j

@[simp] theorem brickCollisions_quit (s : State) (curTime : Nat) :
    (brickCollisions s curTime).quit = s.quit := by
  rcases brickCollisions_cases s curTime with h | ⟨i, j, _, _, _, _, _, h⟩ <;> rw [h]
  exact brickHit_quit s curTime i j

@[simp] theorem brickCollisions_prevTime (s : State) (curTime : Nat) :
    (brickCollisions s curTime).prevTime = s.prevTime := by
  rcases brickCollisions_cases s curTime with h | ⟨i, j, _, _, _, _, _, h⟩ <;> rw [h]
  exact brickHit_prevTime s curTime i j

/-! ## C3, C10, C4: the brick-hit update and the paddle width -/

/-- The three ways an iteration of the loop can go: skipped (`delta <= 0`), stopped after the
events (paused), or run in full. -/
theorem tick_cases (s : State) (t : Nat) (delta : ℚ) (events : List Event) :
    (delta ≤ 0 ∧ tick s t delta events = s) ∨
    (0 < delta ∧ (pollEvents s delta events).gamePaused = true ∧
      tick s t delta events = pollEvents s delta events) ∨
    (0 < delta ∧ (pollEvents s delta events).gamePaused = false ∧
      tick s t delta events = simulate (pollEvents s delta events) t delta) := by
  unfold tick
  by_cases hd : delta ≤ 0
  · left
    exact ⟨hd, by rw [if_pos hd]⟩
  · right
    have hpos : 0 < delta := not_le.mp hd
    rw [if_neg hd]
    dsimp only
    by_cases hp : (pollEvents s delta events).gamePaused = true
    · left
      exact ⟨hpos, hp, by rw [if_pos hp]⟩
    · right
      exact ⟨hpos, by simpa using hp, by rw [if_neg hp]⟩

/-- C3: for every state with `ballSpeed > 0`, every score and every brick `(i, j)`, the speed
budget `ballSpeed` after the brick-hit update is at least its value before the hit. -/
theorem brickHit_speed_ratchet (s : State) (t i j : Nat) (h : s.ballSpeed > 0) :
    (brickHit s t i j).ballSpeed ≥ s.ballSpeed := by
  have _ := h
  unfold brickHit speedUpdate speedUp
  dsimp only
  split_ifs with h1 h2 h3
  · exact le_of_lt h1.2
  · exact le_of_lt h2.2
  · exact le_of_lt h3.2
  · exact le_refl _

/-- Witness for C3: a hit in row 0 right after a reset raises the budget from 0.5 to 1.3. -/
theorem brickHit_speed_ratchet_witness :
    (resetGame (initState 0)).ballSpeed > 0 ∧
    (brickHit (resetGame (initState 0)) 0 0 0).ballSpeed ≥ (resetGame (initState 0)).ballSpeed :=
  ⟨by norm_num [resetGame, ballSpeedStart],
   brickHit_speed_ratchet (resetGame (initState 0)) 0 0 0
     (by norm_num [resetGame, ballSpeedStart])⟩

/-- C10: a brick hit in row `j` (below 21) adds to `scoreQueue` exactly 7 for rows 0..3, 5 for
rows 4..7, 3 for rows 8..11 and 1 for the other rows, and sets the cell of the hit brick to 0. -/
theorem brickHit_points (s : State) (t i j : Nat) (hj : j < 21) :
    (j ≤ 3 → (brickHit s t i j).scoreQueue = s.scoreQueue + 7) ∧
    (4 ≤ j → j ≤ 7 → (brickHit s t i j).scoreQueue = s.scoreQueue + 5) ∧
    (8 ≤ j → j ≤ 11 → (brickHit s t i j).scoreQueue = s.scoreQueue + 3) ∧
    (12 ≤ j → (brickHit s t i j).scoreQueue = s.scoreQueue + 1) ∧
    (brickHit s t i j).brickStates.cell i j = 0 := by
  have _ := hj
  rw [brickHit_scoreQueue, brickHit_brickStates]
  unfold brickPoints
  refine ⟨?_, ?_, ?_, ?_, by simp⟩
  · intro h
    have h1 : j < 4 := by omega
    simp [h1]
  · intro h h2
    have h1 : ¬ j < 4 := by omega
    have h3 : j < 8 := by omega
    simp [h1, h3]
  · intro h h2
    have h1 : ¬ j < 4 := by omega
    have h3 : ¬ j < 8 := by omega
    have h4 : j < 12 := by omega
    simp [h1, h3, h4]
  · intro h
    have h1 : ¬ j < 4 := by omega
    have h3 : ¬ j < 8 := by omega
    have h4 : ¬ j < 12 := by omega
    simp [h1, h3, h4]

/-- Witness for C10: a hit in row 5 of the reset grid queues 5 points. -/
theorem brickHit_points_witness :
    (5 < 21 ∧ 4 ≤ 5 ∧ 5 ≤ 7) ∧
    (brickHit (resetGame (initState 0)) 0 2 5).scoreQueue
      = (resetGame (initState 0)).scoreQueue + 5 :=
  ⟨by decide,
   (brickHit_points (resetGame (initState 0)) 0 2 5 (by decide)).2.1 (by decide) (by decide)⟩

theorem shrinkPaddle_paddleWidth_le (s : State) :
    (shrinkPaddle s).paddleWidth ≤ s.paddleWidth := by
  unfold shrinkPaddle
  split_ifs with h1 h2 h3
  · exact le_of_lt h1.2
  · exact le_of_lt h2.2
  · exact le_of_lt h3.2
  · exact le_refl _

theorem lineStep_paddleWidth_le (s : State) (t : Nat) :
    (lineStep s t).paddleWidth ≤ s.paddleWidth := by
  unfold lineStep
  exact shrinkPaddle_paddleWidth_le _

theorem paddleCollisions_paddleWidth_le (s : State) (t : Nat) :
    (paddleCollisions s t).paddleWidth ≤ s.paddleWidth := by
  unfold paddleCollisions
  dsimp only
  split_ifs
  · refine le_trans (lineStep_paddleWidth_le _ t) ?_
    unfold countPaddleHit bouncePaddle
    dsimp only
    split_ifs <;> exact le_refl _
  · unfold countPaddleHit bouncePaddle
    dsimp only
    split_ifs <;> exact le_refl _
  · exact le_refl _

theorem simulate_paddleWidth_le (s : State) (t : Nat) (delta : ℚ) :
    (simulate s t delta).paddleWidth ≤ s.paddleWidth := by
  unfold simulate beforeCollisions
  dsimp only
  rw [moveBall_paddleWidth, wallCollisions_paddleWidth]
  refine le_trans (paddleCollisions_paddleWidth_le _ t) ?_
  simp

/-- C4: the paddle-shrink step leaves `paddleWidth` at most its value before the step (also as
part of the whole line-descent block), the simulation part of an iteration never increases
`paddleWidth`, and an iteration whose events hold no `R` key press (no `resetGame`) never
increases it. -/
theorem paddleWidth_never_grows (s : State) :
    (shrinkPaddle s).paddleWidth ≤ s.paddleWidth ∧
    (∀ t, (lineStep s t).paddleWidth ≤ s.paddleWidth) ∧
    (∀ t delta, (simulate s t delta).paddleWidth ≤ s.paddleWidth) ∧
    (∀ t delta events, Event.keyDown Key.r ∉ events →
      (tick s t delta events).paddleWidth ≤ s.paddleWidth) := by
  refine ⟨shrinkPaddle_paddleWidth_le s, lineStep_paddleWidth_le s, simulate_paddleWidth_le s, ?_⟩
  intro t delta events hr
  have hp : (pollEvents s delta events).paddleWidth = s.paddleWidth := by
    rw [pollEvents_frame delta s events hr]
  rcases tick_cases s t delta events with ⟨_, h⟩ | ⟨_, _, h⟩ | ⟨_, _, h⟩
  · rw [h]
  · rw [h, hp]
  · rw [h]
    exact le_trans (simulate_paddleWidth_le _ t delta) (le_of_eq hp)

/-! ## C8: the drain interval and the end of the game -/

theorem missRespawn_lives_eq (s : State) (delta : ℚ) :
    (missRespawn s delta).lives =
      if s.ballMissed = false ∧ s.ballY > 1 ∧ s.lives > 0 then s.lives - 1 else s.lives := by
  unfold missRespawn
  dsimp only
  by_cases hm : s.ballMissed = true
  · simp only [hm, if_true]
    split_ifs <;> simp_all
  · have hm2 : s.ballMissed = false := by simpa using hm
    simp only [hm2]
    by_cases h : s.ballY > 1 ∧ s.lives > 0
    · simp [h]
    · simp [h]

theorem simulate_lives (s : State) (t : Nat) (delta : ℚ) :
    (simulate s t delta).lives = (missRespawn s delta).lives := by
  unfold simulate beforeCollisions
  dsimp only
  rw [moveBall_lives, wallCollisions_lives, paddleCollisions_lives, scoreDrain_lives,
    brickCollisions_lives, missRespawn_lives_eq, missRespawn_lives_eq]
  simp

theorem drainStep_scoreQueueTimer (s : State) :
    (drainStep s).scoreQueueTimer = if s.lives > 0 then 1 / 10 else 6 / 100 := by
  unfold drainStep scoreQueueInterval
  dsimp only
  by_cases h : s.lives ≤ 0
  · have h2 : ¬ s.lives > 0 := not_lt.mpr h
    rw [if_pos h, if_neg h2]
    norm_num
  · have h2 : s.lives > 0 := not_le.mp h
    rw [if_neg h, if_pos h2]
    norm_num

theorem scoreDrain_fires (s : State) (h1 : s.scoreQueue > 0) (h2 : s.scoreQueueTimer ≤ 0) :
    scoreDrain s = drainStep s := by
  unfold scoreDrain
  rw [if_pos ⟨h1, h2⟩]

/-- C8: whenever a drain step happens (`scoreQueue > 0` and `scoreQueueTimer <= 0`), the timer
is set to 1/10 s if `lives > 0` and to 0.06 s, which is 60% of `scoreQueueInterval`, if
`lives <= 0`; and from a state with `lives = 0` an iteration with no `R` key press among its
events keeps `lives = 0`, whatever the ball position. -/
theorem drain_interval_and_lives_zero (s : State) :
    (s.scoreQueue > 0 → s.scoreQueueTimer ≤ 0 →
      ((s.lives > 0 → (scoreDrain s).scoreQueueTimer = 1 / 10) ∧
       (s.lives ≤ 0 → (scoreDrain s).scoreQueueTimer = 6 / 100 ∧
          (scoreDrain s).scoreQueueTimer = (60 / 100) * scoreQueueInterval))) ∧
    (∀ t delta events, s.lives = 0 → Event.keyDown Key.r ∉ events →
      (tick s t delta events).lives = 0) := by
  refine ⟨?_, ?_⟩
  · intro h1 h2
    rw [scoreDrain_fires s h1 h2, drainStep_scoreQueueTimer]
    refine ⟨?_, ?_⟩
    · intro h
      rw [if_pos h]
    · intro h
      rw [if_neg (not_lt.mpr h)]
      exact ⟨rfl, by norm_num [scoreQueueInterval]⟩
  · intro t delta events h0 hr
    have hp : (pollEvents s delta events).lives = 0 := by
      rw [pollEvents_frame delta s events hr]
      exact h0
    rcases tick_cases s t delta events with ⟨_, h⟩ | ⟨_, _, h⟩ | ⟨_, _, h⟩
    · rw [h, h0]
    · rw [h, hp]
    · rw [h, simulate_lives, missRespawn_lives_eq, hp]
      simp

/-- Witness for C8: with no life left and the ball below the field, an iteration keeps
`lives = 0`. -/
theorem drain_interval_and_lives_zero_witness :
    ({ resetGame (initState 0) with lives := 0, ballY := 11 / 10 } : State).lives = 0 ∧
    Event.keyDown Key.r ∉ [Event.mouseMotion 3] ∧
    (tick { resetGame (initState 0) with lives := 0, ballY := 11 / 10 } 20 (2 / 100)
      [Event.mouseMotion 3]).lives = 0 :=
  ⟨rfl, by decide,
   (drain_interval_and_lives_zero
      { resetGame (initState 0) with lives := 0, ballY := 11 / 10 }).2 20 (2 / 100)
      [Event.mouseMotion 3] rfl (by decide)⟩

/-! ## C5: conservation of the score queue -/

theorem scoreDrain_cases (s : State) :
    (scoreDrain s = s ∧ ¬ (s.scoreQueue > 0 ∧ s.scoreQueueTimer ≤ 0)) ∨
    (s.scoreQueue > 0 ∧ s.scoreQueueTimer ≤ 0 ∧ scoreDrain s = drainStep s ∧
      (scoreDrain s).score = s.score + 1 ∧ (scoreDrain s).scoreQueue = s.scoreQueue - 1) := by
  by_cases h : s.scoreQueue > 0 ∧ s.scoreQueueTimer ≤ 0
  · right
    have he : scoreDrain s = drainStep s := scoreDrain_fires s h.1 h.2
    exact ⟨h.1, h.2, he, by rw [he]; rfl, by rw [he]; rfl⟩
  · left
    refine ⟨?_, h⟩
    unfold scoreDrain
    rw [if_neg h]

theorem scoreDrain_sum (s : State) :
    (scoreDrain s).score + (scoreDrain s).scoreQueue = s.score + s.scoreQueue := by
  rcases scoreDrain_cases s with ⟨h, _⟩ | ⟨_, _, _, h1, h2⟩
  · rw [h]
  · rw [h1, h2]; ring

theorem scoreDrain_score_le (s : State) : s.score ≤ (scoreDrain s).score := by
  rcases scoreDrain_cases s with ⟨h, _⟩ | ⟨_, _, _, h1, _⟩
  · rw [h]
  · rw [h1]; omega

theorem scoreDrain_scoreQueue_nonneg (s : State) (h : 0 ≤ s.scoreQueue) :
    0 ≤ (scoreDrain s).scoreQueue := by
  rcases scoreDrain_cases s with ⟨h1, _⟩ | ⟨hpos, _, _, _, h2⟩
  · rw [h1]; exact h
  · rw [h2]; omega

theorem brickPoints_pos (j : Nat) : 0 < brickPoints j := by
  unfold brickPoints
  split_ifs <;> decide

theorem brickCollisions_scoreQueue_le (s : State) (t : Nat) :
    s.scoreQueue ≤ (brickCollisions s t).scoreQueue := by
  rcases brickCollisions_cases s t with h | ⟨i, j, _, _, _, _, _, h⟩
  · rw [h]
  · rw [h, brickHit_scoreQueue]
    have := brickPoints_pos j
    omega

theorem beforeCollisions_score (s : State) (delta : ℚ) :
    (beforeCollisions s delta).score = s.score := by
  simp [beforeCollisions]

theorem beforeCollisions_scoreQueue (s : State) (delta : ℚ) :
    (beforeCollisions s delta).scoreQueue = s.scoreQueue := by
  simp [beforeCollisions]

theorem simulate_score (s : State) (t : Nat) (delta : ℚ) :
    (simulate s t delta).score =
      (scoreDrain (brickCollisions (beforeCollisions s delta) t)).score := by
  simp [simulate]

theorem simulate_scoreQueue (s : State) (t : Nat) (delta : ℚ) :
    (simulate s t delta).scoreQueue =
      (scoreDrain (brickCollisions (beforeCollisions s delta) t)).scoreQueue := by
  simp [simulate]

/-- The simulation part of an iteration keeps `score + scoreQueue`, up to the points of the
brick it breaks. -/
theorem simulate_sum (s : State) (t : Nat) (delta : ℚ) :
    ((simulate s t delta).score + (simulate s t delta).scoreQueue = s.score + s.scoreQueue ∧
      brickCollisions (beforeCollisions s delta) t = beforeCollisions s delta) ∨
    (∃ i j, i < 13 ∧ j < 21 ∧ liveHit (beforeCollisions s delta) i j ∧
      brickCollisions (beforeCollisions s delta) t = brickHit (beforeCollisions s delta) t i j ∧
      (simulate s t delta).score + (simulate s t delta).scoreQueue
        = s.score + s.scoreQueue + brickPoints j) := by
  rw [simulate_score, simulate_scoreQueue, scoreDrain_sum]
  rcases brickCollisions_cases (beforeCollisions s delta) t with h | ⟨i, j, hi, hj, _, hl, _, h⟩
  · left
    rw [h, beforeCollisions_score, beforeCollisions_scoreQueue]
    exact ⟨rfl, rfl⟩
  · right
    refine ⟨i, j, hi, hj, hl, h, ?_⟩
    rw [h, brickHit_score, brickHit_scoreQueue, beforeCollisions_score,
      beforeCollisions_scoreQueue]
    ring

theorem simulate_score_le (s : State) (t : Nat) (delta : ℚ) :
    s.score ≤ (simulate s t delta).score := by
  rw [simulate_score]
  refine le_trans ?_ (scoreDrain_score_le _)
  rw [brickCollisions_score, beforeCollisions_score]

theorem simulate_scoreQueue_nonneg (s : State) (t : Nat) (delta : ℚ) (h : 0 ≤ s.scoreQueue) :
    0 ≤ (simulate s t delta).scoreQueue := by
  rw [simulate_scoreQueue]
  apply scoreDrain_scoreQueue_nonneg
  refine le_trans ?_ (brickCollisions_scoreQueue_le _ t)
  rw [beforeCollisions_scoreQueue]
  exact h

theorem handleEvent_scoreQueue_nonneg (delta : ℚ) (s : State) (e : Event)
    (h : 0 ≤ s.scoreQueue) : 0 ≤ (handleEvent delta s e).scoreQueue := by
  by_cases he : e = Event.keyDown Key.r
  · rw [he]
    exact le_refl _
  · rw [handleEvent_frame delta s e he]
    exact h

theorem tick_scoreQueue_nonneg (s : State) (t : Nat) (delta : ℚ) (events : List Event)
    (h : 0 ≤ s.scoreQueue) : 0 ≤ (tick s t delta events).scoreQueue := by
  have hp : 0 ≤ (pollEvents s delta events).scoreQueue :=
    pollEvents_induct delta (fun s1 => 0 ≤ s1.scoreQueue) events
      (fun s1 e _ h1 => handleEvent_scoreQueue_nonneg delta s1 e h1) s h
  rcases tick_cases s t delta events with ⟨_, h1⟩ | ⟨_, _, h1⟩ | ⟨_, _, h1⟩
  · rw [h1]; exact h
  · rw [h1]; exact hp
  · rw [h1]; exact simulate_scoreQueue_nonneg _ t delta hp

theorem reachable_scoreQueue_nonneg (s : State) (h : Reachable s) : 0 ≤ s.scoreQueue := by
  induction h with
  | reset s0 => exact le_refl _
  | step s0 t delta events _ ih => exact tick_scoreQueue_nonneg s0 t delta events ih

theorem drainStep_iterate (q : Nat) (s : State) :
    (drainStep^[q] s).score = s.score + (q : Int) ∧
    (drainStep^[q] s).scoreQueue = s.scoreQueue - (q : Int) := by
  induction q with
  | zero => simp
  | succ q ih =>
    rw [Function.iterate_succ_apply']
    have h1 : (drainStep (drainStep^[q] s)).score = (drainStep^[q] s).score + 1 := rfl
    have h2 : (drainStep (drainStep^[q] s)).scoreQueue = (drainStep^[q] s).scoreQueue - 1 := rfl
    rw [h1, h2, ih.1, ih.2]
    push_cast
    constructor <;> ring

/-- C5: score-queue conservation. (1) In an iteration with no `R` key press, `score +
scoreQueue` after the iteration is its value before plus the points of the brick broken in
the iteration: either the sum is unchanged and no brick is broken (the iteration is skipped,
paused, or its collision block changes nothing), or the collision block breaks one live brick
`(i, j)` and the sum grows by the points of row `j`. (2) The drain statement either does
nothing, or (only when `scoreQueue > 0`) adds exactly 1 to `score` and takes exactly 1 from
`scoreQueue`. (3) `scoreQueue >= 0` is kept by every iteration and holds in every state of a
game; `score` does not decrease in an iteration with no `R` key press. (4) From a queue of `q`
points, `q` drain steps are each enabled by `scoreQueue > 0`, raise `score` by exactly `q` and
empty the queue, after which the drain statement does nothing. -/
theorem score_queue_conservation :
    (∀ (s : State) (t : Nat) (delta : ℚ) (events : List Event),
      Event.keyDown Key.r ∉ events →
      (((tick s t delta events).score + (tick s t delta events).scoreQueue
            = s.score + s.scoreQueue ∧
          (delta ≤ 0 ∨ (pollEvents s delta events).gamePaused = true ∨
            brickCollisions (beforeCollisions (pollEvents s delta events) delta) t
              = beforeCollisions (pollEvents s delta events) delta)) ∨
        (∃ i j, i < 13 ∧ j < 21 ∧ 0 < delta ∧ (pollEvents s delta events).gamePaused = false ∧
          liveHit (beforeCollisions (pollEvents s delta events) delta) i j ∧
          brickCollisions (beforeCollisions (pollEvents s delta events) delta) t
            = brickHit (beforeCollisions (pollEvents s delta events) delta) t i j ∧
          (tick s t delta events).score + (tick s t delta events).scoreQueue
            = s.score + s.scoreQueue + brickPoints j))) ∧
    (∀ s : State,
      (scoreDrain s = s ∧ ¬ (s.scoreQueue > 0 ∧ s.scoreQueueTimer ≤ 0)) ∨
      (s.scoreQueue > 0 ∧ s.scoreQueueTimer ≤ 0 ∧ (scoreDrain s).score = s.score + 1 ∧
        (scoreDrain s).scoreQueue = s.scoreQueue - 1)) ∧
    (∀ (s : State) (t : Nat) (delta : ℚ) (events : List Event),
      0 ≤ s.scoreQueue → 0 ≤ (tick s t delta events).scoreQueue) ∧
    (∀ s : State, Reachable s → 0 ≤ s.scoreQueue) ∧
    (∀ (s : State) (t : Nat) (delta : ℚ) (events : List Event),
      Event.keyDown Key.r ∉ events → s.score ≤ (tick s t delta events).score) ∧
    (∀ (s : State) (q : Nat), s.scoreQueue = (q : Int) →
      (drainStep^[q] s).score = s.score + (q : Int) ∧
      (drainStep^[q] s).scoreQueue = 0 ∧
      (∀ k, k < q → (drainStep^[k] s).scoreQueue > 0) ∧
      scoreDrain (drainStep^[q] s) = drainStep^[q] s) := by
  refine ⟨?_, ?_, tick_scoreQueue_nonneg, reachable_scoreQueue_nonneg, ?_, ?_⟩
  · intro s t delta events hr
    have hs : (pollEvents s delta events).score = s.score := by
      rw [pollEvents_frame delta s events hr]
    have hq : (pollEvents s delta events).scoreQueue = s.scoreQueue := by
      rw [pollEvents_frame delta s events hr]
    rcases tick_cases s t delta events with ⟨hd, h⟩ | ⟨_, hp, h⟩ | ⟨hd, hp, h⟩
    · left
      rw [h]
      exact ⟨rfl, Or.inl hd⟩
    · left
      rw [h, hs, hq]
      exact ⟨rfl, Or.inr (Or.inl hp)⟩
    · rw [h]
      rcases simulate_sum (pollEvents s delta events) t delta with
        ⟨h1, h2⟩ | ⟨i, j, hi, hj, hl, h2, h1⟩
      · left
        rw [h1, hs, hq]
        exact ⟨rfl, Or.inr (Or.inr h2)⟩
      · right
        refine ⟨i, j, hi, hj, hd, hp, hl, h2, ?_⟩
        rw [h1, hs, hq]
  · intro s
    rcases scoreDrain_cases s with h | ⟨h1, h2, _, h3, h4⟩
    · exact Or.inl h
    · exact Or.inr ⟨h1, h2, h3, h4⟩
  · intro s t delta events hr
    have hs : (pollEvents s delta events).score = s.score := by
      rw [pollEvents_frame delta s events hr]
    rcases tick_cases s t delta events with ⟨_, h⟩ | ⟨_, _, h⟩ | ⟨_, _, h⟩
    · rw [h]
    · rw [h, hs]
    · rw [h]
      exact le_trans (le_of_eq hs.symm) (simulate_score_le _ t delta)
  · intro s q hq
    refine ⟨(drainStep_iterate q s).1, ?_, ?_, ?_⟩
    · rw [(drainStep_iterate q s).2, hq]
      ring
    · intro k hk
      rw [(drainStep_iterate k s).2, hq]
      omega
    · have h0 : (drainStep^[q] s).scoreQueue = 0 := by
        rw [(drainStep_iterate q s).2, hq]
        ring
      unfold scoreDrain
      rw [if_neg]
      rw [h0]
      intro h
      exact absurd h.1 (lt_irrefl 0)

/-! ## Misses and lives -/

/-- A ball without vertical velocity hits no brick: the direction test compares NaN. -/
theorem hitTest_still (s : State) (i j : Nat) (h : s.ballSpeedY = 0) : ¬ hitTest s i j := by
  unfold hitTest
  rw [h]
  intro hh
  have h3 := hh.2.2
  simp [dirOf, floatEq] at h3

theorem brickCollisions_still (s : State) (t : Nat) (h : s.ballSpeedY = 0) :
    brickCollisions s t = s :=
  brickCollisions_none s t (fun i j _ _ hl => hitTest_still s i j h hl.2)

/-- A ball below the field does not touch the paddle. -/
theorem paddleTest_below (s : State) (h : s.ballY > 1) : ¬ paddleTest s := by
  unfold paddleTest
  intro hh
  have h2 := (abs_le.mp hh.2).2
  norm_num [paddleCenterY, ballSize, paddleHeight, bricksHeight, widthPadding, heightPadding]
    at h2
  linarith

theorem paddleCollisions_below (s : State) (t : Nat) (h : s.ballY > 1) :
    paddleCollisions s t = s := by
  unfold paddleCollisions
  rw [if_neg (paddleTest_below s h)]

theorem wallCollisions_still (s : State) (hx : s.ballSpeedX = 0) (hy : s.ballSpeedY = 0) :
    (wallCollisions s).ballSpeedX = 0 ∧ (wallCollisions s).ballSpeedY = 0 := by
  unfold wallCollisions
  dsimp only
  split_ifs <;> simp [hx, hy]

/-- Once the miss / respawn statement leaves the ball below the field without velocity, the
rest of the iteration does not move it and changes neither `ballMissed` nor `lives`. -/
theorem simulate_still (s : State) (t : Nat) (delta : ℚ)
    (hy : (beforeCollisions s delta).ballY > 1)
    (hvx : (beforeCollisions s delta).ballSpeedX = 0)
    (hvy : (beforeCollisions s delta).ballSpeedY = 0) :
    (simulate s t delta).ballY = (beforeCollisions s delta).ballY ∧
    (simulate s t delta).ballSpeedX = 0 ∧
    (simulate s t delta).ballSpeedY = 0 ∧
    (simulate s t delta).ballMissed = (beforeCollisions s delta).ballMissed ∧
    (simulate s t delta).lives = (beforeCollisions s delta).lives := by
  have hd : ((scoreDrain (beforeCollisions s delta)).ballY > 1) := by
    rw [scoreDrain_ballY]; exact hy
  have hw := wallCollisions_still (scoreDrain (beforeCollisions s delta))
    (by rw [scoreDrain_ballSpeedX]; exact hvx) (by rw [scoreDrain_ballSpeedY]; exact hvy)
  unfold simulate
  dsimp only
  rw [brickCollisions_still _ t hvy, paddleCollisions_below _ t hd]
  refine ⟨?_, hw.1, hw.2, ?_, ?_⟩
  · show (wallCollisions _).ballY + (wallCollisions _).ballSpeedY * delta = _
    rw [hw.2, wallCollisions_ballY, scoreDrain_ballY]
    ring
  · show (moveBall (wallCollisions _) delta).ballMissed = _
    rw [moveBall_ballMissed, wallCollisions_ballMissed, scoreDrain_ballMissed]
  · show (moveBall (wallCollisions _) delta).lives = _
    rw [moveBall_lives, wallCollisions_lives, scoreDrain_lives]

theorem missRespawn_miss (s : State) (delta : ℚ)
    (hm : s.ballMissed = false) (hy : s.ballY > 1) (hl : s.lives > 0) :
    missRespawn s delta =
    { s with
      lives := s.lives - 1
      ballMissed := decide (s.lives - 1 > 0)
      ballSpeedX := 0
      ballSpeedY := 0
      ballRespawnTimer := 0 } := by
  unfold missRespawn
  dsimp only
  have hm2 : ¬ s.ballMissed = true := by simp [hm]
  rw [if_neg hm2, if_pos ⟨hy, hl⟩]

/-- The miss / respawn statement on a pending miss: the ball keeps waiting, or it is put back
at `y = 0.7`. -/
theorem missRespawn_pending (s : State) (delta : ℚ) (h : MissPending s) :
    MissPending (missRespawn s delta) ∨ (missRespawn s delta).ballY = 7 / 10 := by
  obtain ⟨hy, hvx, hvy, hml⟩ := h
  unfold missRespawn
  dsimp only
  by_cases hm : s.ballMissed = true
  · rw [if_pos hm]
    by_cases ht : s.ballRespawnTimer + delta ≥ ballRespawnTime
    · right
      rw [if_pos ht]
    · left
      rw [if_neg ht]
      exact ⟨hy, hvx, hvy, Or.inl hm⟩
  · rw [if_neg hm]
    have hl : s.lives = 0 := by
      rcases hml with h | h
      · exact absurd h hm
      · exact h
    have hc : ¬ (s.ballY > 1 ∧ s.lives > 0) := by
      rw [hl]
      intro hh
      exact absurd hh.2 (lt_irrefl 0)
    rw [if_neg hc]
    left
    exact ⟨hy, hvx, hvy, Or.inr hl⟩

/-- The event loop leaves the ball height, the ball velocity, `ballMissed` and `lives` alone,
unless `resetGame` ran, which leaves a fresh ball at `y = 0.7` and 5 lives. -/
theorem pollEvents_ball_cases (delta : ℚ) (s : State) (events : List Event) :
    ((pollEvents s delta events).ballY = s.ballY ∧
      (pollEvents s delta events).ballSpeedX = s.ballSpeedX ∧
      (pollEvents s delta events).ballSpeedY = s.ballSpeedY ∧
      (pollEvents s delta events).ballMissed = s.ballMissed ∧
      (pollEvents s delta events).lives = s.lives) ∨
    ((pollEvents s delta events).ballY = 7 / 10 ∧
      (pollEvents s delta events).ballMissed = false ∧
      (pollEvents s delta events).lives = 5) := by
  apply pollEvents_induct delta
    (fun s1 => (s1.ballY = s.ballY ∧ s1.ballSpeedX = s.ballSpeedX ∧
        s1.ballSpeedY = s.ballSpeedY ∧ s1.ballMissed = s.ballMissed ∧ s1.lives = s.lives) ∨
      (s1.ballY = 7 / 10 ∧ s1.ballMissed = false ∧ s1.lives = 5)) events
  · intro s1 e _ hp
    by_cases he : e = Event.keyDown Key.r
    · right
      rw [he]
      exact ⟨rfl, rfl, rfl⟩
    · rw [handleEvent_frame delta s1 e he]
      exact hp
  · left
    exact ⟨rfl, rfl, rfl, rfl, rfl⟩

theorem beforeCollisions_lives (s : State) (delta : ℚ) :
    (beforeCollisions s delta).lives =
      if s.ballMissed = false ∧ s.ballY > 1 ∧ s.lives > 0 then s.lives - 1 else s.lives := by
  unfold beforeCollisions
  rw [missRespawn_lives_eq]
  simp

/-- The lives stay between 0 and 5 in an iteration. -/
theorem tick_lives_range (s : State) (t : Nat) (delta : ℚ) (events : List Event)
    (h : 0 ≤ s.lives ∧ s.lives ≤ 5) :
    0 ≤ (tick s t delta events).lives ∧ (tick s t delta events).lives ≤ 5 := by
  have hp : 0 ≤ (pollEvents s delta events).lives ∧ (pollEvents s delta events).lives ≤ 5 := by
    rcases pollEvents_ball_cases delta s events with h1 | h1
    · rw [h1.2.2.2.2]; exact h
    · rw [h1.2.2]; decide
  rcases tick_cases s t delta events with ⟨_, h1⟩ | ⟨_, _, h1⟩ | ⟨_, _, h1⟩
  · rw [h1]; exact h
  · rw [h1]; exact hp
  · rw [h1, simulate_lives, missRespawn_lives_eq]
    split_ifs with hc
    · omega
    · exact hp

theorem reachable_lives_range (s : State) (h : Reachable s) : 0 ≤ s.lives ∧ s.lives ≤ 5 := by
  induction h with
  | reset s0 =>
    show (0 : Int) ≤ 5 ∧ (5 : Int) ≤ 5
    decide
  | step s0 t delta events _ ih => exact tick_lives_range s0 t delta events ih

/-! ## C6: a life is lost at most once per miss -/

theorem missRespawn_idle (s : State) (delta : ℚ)
    (hm : s.ballMissed = false) (hc : ¬ (s.ballY > 1 ∧ s.lives > 0)) :
    missRespawn s delta = s := by
  unfold missRespawn
  dsimp only
  have hm2 : ¬ s.ballMissed = true := by simp [hm]
  rw [if_neg hm2, if_neg hc]

/-- The iteration in which a life is taken ends with the miss pending. -/
theorem simulate_miss_pending (p : State) (t : Nat) (delta : ℚ)
    (hm : p.ballMissed = false) (hy : p.ballY > 1) (hl : p.lives > 0) :
    MissPending (simulate p t delta) ∧ (simulate p t delta).lives = p.lives - 1 := by
  have hb : beforeCollisions p delta =
      { tickTimers p delta with
        lives := p.lives - 1
        ballMissed := decide (p.lives - 1 > 0)
        ballSpeedX := 0
        ballSpeedY := 0
        ballRespawnTimer := 0 } := by
    unfold beforeCollisions
    rw [missRespawn_miss (tickTimers p delta) delta (by simpa using hm) (by simpa using hy)
      (by simpa using hl)]
    simp
  have hby : (beforeCollisions p delta).ballY = p.ballY := by
    rw [hb]; exact tickTimers_ballY p delta
  have hs := simulate_still p t delta (by rw [hby]; exact hy) (by rw [hb]) (by rw [hb])
  obtain ⟨h1, h2, h3, h4, h5⟩ := hs
  have hbl : (beforeCollisions p delta).lives = p.lives - 1 := by rw [hb]
  have hbm : (beforeCollisions p delta).ballMissed = decide (p.lives - 1 > 0) := by rw [hb]
  refine ⟨⟨?_, h2, h3, ?_⟩, by rw [h5, hbl]⟩
  · rw [h1, hby]; exact hy
  · rw [h4, h5, hbm, hbl]
    by_cases hp : p.lives - 1 > 0
    · left; simp [hp]
    · right; omega

/-- An iteration run on a pending miss takes no life and keeps the miss pending, unless the
miss / respawn statement puts the ball back at `y = 0.7`. -/
theorem simulate_pending (p : State) (t : Nat) (delta : ℚ) (h : MissPending p) :
    (simulate p t delta).lives = p.lives ∧
    (MissPending (simulate p t delta) ∨ (beforeCollisions p delta).ballY = 7 / 10) := by
  have hl : (simulate p t delta).lives = p.lives := by
    rw [simulate_lives, missRespawn_lives_eq]
    have hc : ¬ (p.ballMissed = false ∧ p.ballY > 1 ∧ p.lives > 0) := by
      intro hh
      rcases h.2.2.2 with h1 | h1
      · rw [h1] at hh; exact absurd hh.1 (by decide)
      · rw [h1] at hh; exact absurd hh.2.2 (lt_irrefl 0)
    rw [if_neg hc]
  refine ⟨hl, ?_⟩
  have ht : MissPending (tickTimers p delta) := by
    unfold MissPending
    rw [tickTimers_ballY, tickTimers_ballSpeedX, tickTimers_ballSpeedY, tickTimers_ballMissed,
      tickTimers_lives]
    exact h
  rcases missRespawn_pending (tickTimers p delta) delta ht with hb | hb
  · left
    have hb2 : MissPending (beforeCollisions p delta) := hb
    obtain ⟨h1, h2, h3, h4, h5⟩ := simulate_still p t delta hb2.1 hb2.2.1 hb2.2.2.1
    exact ⟨by rw [h1]; exact hb2.1, h2, h3, by rw [h4, h5]; exact hb2.2.2.2⟩
  · right
    exact hb

/-- C6: (1) every state of a game has `0 <= lives <= 5`. (2) An iteration from a state of a
game takes at most one life, and when it takes one the ball was not in the missed state,
`ballY > 1.0` and `lives > 0` held, exactly one life is taken, and the iteration ends with the
miss pending: the ball below the field, motionless, and `ballMissed` true or `lives = 0`.
(3) From a state of a game with the miss pending, an iteration takes no life, and the miss is
still pending after it unless the ball has been put back at `y = 0.7` during it (by
`resetGame` while paused, or by the miss / respawn statement of an iteration that ran). -/
theorem lives_lost_once_per_miss :
    (∀ s : State, Reachable s → 0 ≤ s.lives ∧ s.lives ≤ 5) ∧
    (∀ (s : State) (t : Nat) (delta : ℚ) (events : List Event), Reachable s →
      (s.lives - 1 ≤ (tick s t delta events).lives ∧
       ((tick s t delta events).lives < s.lives →
          (s.ballMissed = false ∧ s.ballY > 1 ∧ s.lives > 0 ∧
           (tick s t delta events).lives = s.lives - 1 ∧
           MissPending (tick s t delta events))))) ∧
    (∀ (s : State) (t : Nat) (delta : ℚ) (events : List Event), Reachable s → MissPending s →
      (s.lives ≤ (tick s t delta events).lives ∧
       (MissPending (tick s t delta events) ∨
        (tick s t delta events).ballY = 7 / 10 ∨
        (0 < delta ∧ (pollEvents s delta events).gamePaused = false ∧
          (beforeCollisions (pollEvents s delta events) delta).ballY = 7 / 10)))) := by
  refine ⟨reachable_lives_range, ?_, ?_⟩
  · intro s t delta events hr
    have hrange := reachable_lives_range s hr
    rcases tick_cases s t delta events with ⟨_, h⟩ | ⟨_, _, h⟩ | ⟨_, _, h⟩
    · rw [h]
      exact ⟨by omega, fun hh => absurd hh (lt_irrefl _)⟩
    · rw [h]
      rcases pollEvents_ball_cases delta s events with hp | hp
      · rw [hp.2.2.2.2]
        exact ⟨by omega, fun hh => absurd hh (lt_irrefl _)⟩
      · rw [hp.2.2]
        exact ⟨by omega, fun hh => by omega⟩
    · rw [h]
      rcases pollEvents_ball_cases delta s events with hp | hp
      · obtain ⟨hy, _, _, hm, hl⟩ := hp
        by_cases hc : s.ballMissed = false ∧ s.ballY > 1 ∧ s.lives > 0
        · obtain ⟨hpend, hlives⟩ := simulate_miss_pending (pollEvents s delta events) t delta
            (by rw [hm]; exact hc.1) (by rw [hy]; exact hc.2.1) (by rw [hl]; exact hc.2.2)
          rw [hlives, hl]
          exact ⟨le_refl _, fun _ => ⟨hc.1, hc.2.1, hc.2.2, rfl, hpend⟩⟩
        · have hlives : (simulate (pollEvents s delta events) t delta).lives = s.lives := by
            rw [simulate_lives, missRespawn_lives_eq, hm, hy, hl, if_neg hc]
          rw [hlives]
          exact ⟨by omega, fun hh => absurd hh (lt_irrefl _)⟩
      · have hlives : (simulate (pollEvents s delta events) t delta).lives = 5 := by
          rw [simulate_lives, missRespawn_lives_eq, hp.1, hp.2.1, hp.2.2]
          norm_num
        rw [hlives]
        exact ⟨by omega, fun hh => by omega⟩
  · intro s t delta events hr hpend
    have hrange := reachable_lives_range s hr
    rcases tick_cases s t delta events with ⟨_, h⟩ | ⟨_, _, h⟩ | ⟨hd, hpause, h⟩
    · rw [h]
      exact ⟨le_refl _, Or.inl hpend⟩
    · rw [h]
      rcases pollEvents_ball_cases delta s events with hp | hp
      · obtain ⟨hy, hvx, hvy, hm, hl⟩ := hp
        refine ⟨le_of_eq hl.symm, Or.inl ?_⟩
        unfold MissPending
        rw [hy, hvx, hvy, hm, hl]
        exact hpend
      · rw [hp.2.2]
        exact ⟨hrange.2, Or.inr (Or.inl hp.1)⟩
    · rw [h]
      rcases pollEvents_ball_cases delta s events with hp | hp
      · obtain ⟨hy, hvx, hvy, hm, hl⟩ := hp
        have hpp : MissPending (pollEvents s delta events) := by
          unfold MissPending
          rw [hy, hvx, hvy, hm, hl]
          exact hpend
        obtain ⟨h1, h2⟩ := simulate_pending (pollEvents s delta events) t delta hpp
        rw [h1, hl]
        refine ⟨le_refl _, ?_⟩
        rcases h2 with h2 | h2
        · exact Or.inl h2
        · exact Or.inr (Or.inr ⟨hd, hpause, h2⟩)
      · have hlives : (simulate (pollEvents s delta events) t delta).lives = 5 := by
          rw [simulate_lives, missRespawn_lives_eq, hp.1, hp.2.1, hp.2.2]
          norm_num
        rw [hlives]
        refine ⟨hrange.2, Or.inr (Or.inr ⟨hd, hpause, ?_⟩)⟩
        unfold beforeCollisions
        rw [missRespawn_idle _ delta (by simpa using hp.2.1)
          (by
            rw [tickTimers_ballY, hp.1]
            intro hh
            norm_num at hh)]
        rw [tickTimers_ballY]
        exact hp.1

/-! ## The paddle block and the line schedule -/

theorem lineStep_lastLineTime (s : State) (t : Nat) : (lineStep s t).lastLineTime = (t : ℚ) := by
  unfold lineStep shrinkPaddle
  dsimp only
  split_ifs <;> rfl

theorem countPaddleHit_pos (s : State) (t : Nat)
    (h : ((t : ℚ) - s.lastPaddleHitTime) / 1000 > lineCooldown) :
    countPaddleHit s t =
      { s with paddleHitCounter := s.paddleHitCounter + 1, lastPaddleHitTime := (t : ℚ) } := by
  unfold countPaddleHit
  rw [if_pos h]

theorem countPaddleHit_neg (s : State) (t : Nat)
    (h : ¬ ((t : ℚ) - s.lastPaddleHitTime) / 1000 > lineCooldown) :
    countPaddleHit s t = s := by
  unfold countPaddleHit
  rw [if_neg h]

/-- The paddle block leaves the counter alone or, on a paddle contact past the hit cooldown,
adds one to it. -/
theorem paddleCollisions_counter (q : State) (t : Nat) :
    (paddleCollisions q t).paddleHitCounter =
      if paddleTest q ∧ ((t : ℚ) - q.lastPaddleHitTime) / 1000 > lineCooldown
      then q.paddleHitCounter + 1 else q.paddleHitCounter := by
  by_cases hp : paddleTest q
  · by_cases hc : ((t : ℚ) - q.lastPaddleHitTime) / 1000 > lineCooldown
    · have hcond : paddleTest q ∧ ((t : ℚ) - q.lastPaddleHitTime) / 1000 > lineCooldown :=
        ⟨hp, hc⟩
      rw [if_pos hcond]
      unfold paddleCollisions
      dsimp only
      rw [if_pos hp, countPaddleHit_pos (bouncePaddle q) t hc]
      split_ifs
      · rw [lineStep_paddleHitCounter]; rfl
      · rfl
    · have hn : ¬ (paddleTest q ∧ ((t : ℚ) - q.lastPaddleHitTime) / 1000 > lineCooldown) :=
        fun h => hc h.2
      rw [if_neg hn]
      unfold paddleCollisions
      dsimp only
      rw [if_pos hp, countPaddleHit_neg (bouncePaddle q) t hc]
      split_ifs
      · rw [lineStep_paddleHitCounter]; rfl
      · rfl
  · have hn : ¬ (paddleTest q ∧ ((t : ℚ) - q.lastPaddleHitTime) / 1000 > lineCooldown) :=
      fun h => hp h.1
    rw [if_neg hn]
    unfold paddleCollisions
    rw [if_neg hp]

/-- The paddle block in which the counter goes from 8 to 9, with the line cooldown over,
makes one descent. -/
theorem paddleCollisions_ninth (q : State) (t : Nat) (h8 : q.paddleHitCounter = 8)
    (h9 : (paddleCollisions q t).paddleHitCounter = 9)
    (hline : ((t : ℚ) - q.lastLineTime) / 1000 > lineCooldown) :
    ((t : ℚ) - q.lastPaddleHitTime) / 1000 > lineCooldown ∧
    (paddleCollisions q t).lineCounter = q.lineCounter + 1 ∧
    (paddleCollisions q t).brickStates = descendGrid q.lineCounter q.brickStates ∧
    (paddleCollisions q t).lastLineTime = (t : ℚ) ∧
    (paddleCollisions q t).lastPaddleHitTime = (t : ℚ) := by
  rw [paddleCollisions_counter, h8] at h9
  by_cases hc : paddleTest q ∧ ((t : ℚ) - q.lastPaddleHitTime) / 1000 > lineCooldown
  · obtain ⟨hp, hc2⟩ := hc
    refine ⟨hc2, ?_⟩
    have h1 : countPaddleHit (bouncePaddle q) t =
        { bouncePaddle q with
          paddleHitCounter := q.paddleHitCounter + 1, lastPaddleHitTime := (t : ℚ) } :=
      countPaddleHit_pos (bouncePaddle q) t hc2
    have hdue : lineDue (q.paddleHitCounter + 1) := by
      rw [h8]
      left
      rfl
    have heq : paddleCollisions q t =
        lineStep { bouncePaddle q with
          paddleHitCounter := q.paddleHitCounter + 1, lastPaddleHitTime := (t : ℚ) } t := by
      unfold paddleCollisions
      dsimp only
      rw [if_pos hp, h1, if_pos ⟨hline, hdue⟩]
    rw [heq, lineStep_lineCounter, lineStep_brickStates, lineStep_lastLineTime,
      lineStep_lastPaddleHitTime]
    exact ⟨rfl, rfl, rfl, rfl⟩
  · rw [if_neg hc] at h9
    exact absurd h9 (by decide)

/-- While the counter stays at 9 after the descent of the ninth hit, the paddle block makes no
further descent. -/
theorem paddleCollisions_ninth_done (q : State) (t : Nat) (h : NinthLineDone q)
    (h9 : (paddleCollisions q t).paddleHitCounter = 9) :
    (paddleCollisions q t).lineCounter = q.lineCounter ∧
    (paddleCollisions q t).brickStates = q.brickStates ∧
    (paddleCollisions q t).lastLineTime = q.lastLineTime ∧
    (paddleCollisions q t).lastPaddleHitTime = q.lastPaddleHitTime := by
  obtain ⟨hq9, htimes⟩ := h
  rw [paddleCollisions_counter, hq9] at h9
  by_cases hp : paddleTest q
  · have hc : ¬ ((t : ℚ) - q.lastPaddleHitTime) / 1000 > lineCooldown := by
      intro hc
      rw [if_pos ⟨hp, hc⟩] at h9
      exact absurd h9 (by decide)
    have hl : ¬ (((t : ℚ) - (bouncePaddle q).lastLineTime) / 1000 > lineCooldown ∧
        lineDue (bouncePaddle q).paddleHitCounter) := by
      intro hh
      apply hc
      have h1 : (bouncePaddle q).lastLineTime = q.lastPaddleHitTime := htimes
      rw [← h1]
      exact hh.1
    have heq : paddleCollisions q t = bouncePaddle q := by
      unfold paddleCollisions
      dsimp only
      rw [if_pos hp, countPaddleHit_neg (bouncePaddle q) t hc, if_neg hl]
    rw [heq]
    exact ⟨rfl, rfl, rfl, rfl⟩
  · have heq : paddleCollisions q t = q := by
      unfold paddleCollisions
      rw [if_neg hp]
    rw [heq]
    exact ⟨rfl, rfl, rfl, rfl⟩

theorem beforePaddle_fields (p : State) (t : Nat) (delta : ℚ) :
    (beforePaddle p t delta).paddleHitCounter = p.paddleHitCounter ∧
    (beforePaddle p t delta).lineCounter = p.lineCounter ∧
    (beforePaddle p t delta).lastLineTime = p.lastLineTime ∧
    (beforePaddle p t delta).lastPaddleHitTime = p.lastPaddleHitTime := by
  simp [beforePaddle, beforeCollisions]

theorem simulate_line_fields (p : State) (t : Nat) (delta : ℚ) :
    (simulate p t delta).paddleHitCounter
      = (paddleCollisions (beforePaddle p t delta) t).paddleHitCounter ∧
    (simulate p t delta).lineCounter
      = (paddleCollisions (beforePaddle p t delta) t).lineCounter ∧
    (simulate p t delta).brickStates
      = (paddleCollisions (beforePaddle p t delta) t).brickStates ∧
    (simulate p t delta).lastLineTime
      = (paddleCollisions (beforePaddle p t delta) t).lastLineTime ∧
    (simulate p t delta).lastPaddleHitTime
      = (paddleCollisions (beforePaddle p t delta) t).lastPaddleHitTime := by
  simp [simulate, beforePaddle]

/-- The event loop leaves the hit counter, the line counter and the grid alone, unless
`resetGame` ran, after which the hit counter is 0. -/
theorem pollEvents_counter_cases (delta : ℚ) (s : State) (events : List Event) :
    ((pollEvents s delta events).paddleHitCounter = s.paddleHitCounter ∧
      (pollEvents s delta events).lineCounter = s.lineCounter ∧
      (pollEvents s delta events).brickStates = s.brickStates) ∨
    (pollEvents s delta events).paddleHitCounter = 0 := by
  apply pollEvents_induct delta
    (fun s1 => (s1.paddleHitCounter = s.paddleHitCounter ∧ s1.lineCounter = s.lineCounter ∧
        s1.brickStates = s.brickStates) ∨ s1.paddleHitCounter = 0) events
  · intro s1 e _ hp
    by_cases he : e = Event.keyDown Key.r
    · right
      rw [he]
      rfl
    · rw [handleEvent_frame delta s1 e he]
      exact hp
  · left
    exact ⟨rfl, rfl, rfl⟩

theorem simulate_counter_after_reset (p : State) (t : Nat) (delta : ℚ)
    (h0 : p.paddleHitCounter = 0) :
    (simulate p t delta).paddleHitCounter = 0 ∨ (simulate p t delta).paddleHitCounter = 1 := by
  rw [(simulate_line_fields p t delta).1, paddleCollisions_counter,
    (beforePaddle_fields p t delta).1, h0]
  split_ifs
  · right; rfl
  · left; rfl

/-! ## C7: the ninth paddle hit -/

/-- C7: (1) the iteration in which `paddleHitCounter` goes from 8 to 9, with the line cooldown
over at its clock reading (the hit cooldown is then over too), makes exactly one line descent:
`lineCounter` grows by exactly 1, every row 1..20 of the active columns is the row above of the
grid the paddle block started from, row 0 is the injected row, and afterwards the last descent
is as recent as the last counted hit. (2) From such a state, every iteration after which
`paddleHitCounter` is still 9 makes no descent: `lineCounter` is unchanged, the grid is the one
before the iteration or the one left by the brick scan, and the state is again of that kind (a
paddle contact past the cooldown raises the counter to 10 before the schedule is tested). -/
theorem ninth_hit_one_descent :
    (∀ (s : State) (t : Nat) (delta : ℚ) (events : List Event),
      s.paddleHitCounter = 8 → (tick s t delta events).paddleHitCounter = 9 →
      ((t : ℚ) - s.lastLineTime) / 1000 > lineCooldown →
      (((t : ℚ) - s.lastPaddleHitTime) / 1000 > lineCooldown ∧
       (tick s t delta events).lineCounter = s.lineCounter + 1 ∧
       (∀ i r, i < 13 → 1 ≤ r → r ≤ 20 →
          (tick s t delta events).brickStates.cell i r
            = (beforePaddle (pollEvents s delta events) t delta).brickStates.cell i (r - 1)) ∧
       (∀ i, i < 13 →
          (tick s t delta events).brickStates.cell i 0 = newRowValue s.lineCounter) ∧
       NinthLineDone (tick s t delta events))) ∧
    (∀ (s : State) (t : Nat) (delta : ℚ) (events : List Event),
      NinthLineDone s → (tick s t delta events).paddleHitCounter = 9 →
      ((tick s t delta events).lineCounter = s.lineCounter ∧
       ((tick s t delta events).brickStates = s.brickStates ∨
        (tick s t delta events).brickStates
          = (beforePaddle (pollEvents s delta events) t delta).brickStates) ∧
       NinthLineDone (tick s t delta events))) := by
  refine ⟨?_, ?_⟩
  · intro s t delta events h8 h9 hline
    obtain ⟨_, _, hfp, hfl, _⟩ := pollEvents_fixed delta s events
    rcases tick_cases s t delta events with ⟨_, h⟩ | ⟨_, _, h⟩ | ⟨_, _, h⟩
    · rw [h, h8] at h9
      exact absurd h9 (by decide)
    · rw [h] at h9
      rcases pollEvents_counter_cases delta s events with hp | hp
      · rw [hp.1, h8] at h9
        exact absurd h9 (by decide)
      · rw [hp] at h9
        exact absurd h9 (by decide)
    · rw [h] at h9 ⊢
      rcases pollEvents_counter_cases delta s events with hp | hp
      · obtain ⟨hc, hl, _⟩ := hp
        obtain ⟨b1, b2, b3, b4⟩ := beforePaddle_fields (pollEvents s delta events) t delta
        obtain ⟨s1, s2, s3, s4, s5⟩ := simulate_line_fields (pollEvents s delta events) t delta
        rw [s1] at h9
        obtain ⟨n1, n2, n3, n4, n5⟩ :=
          paddleCollisions_ninth (beforePaddle (pollEvents s delta events) t delta) t
            (by rw [b1, hc, h8]) h9 (by rw [b3, hfl]; exact hline)
        rw [b4, hfp] at n1
        rw [b2, hl] at n2 n3
        refine ⟨n1, by rw [s2, n2], ?_, ?_, ⟨by rw [s1]; exact h9, by rw [s4, s5, n4, n5]⟩⟩
        · intro i r hi h1 h20
          have hr : r < 21 := by omega
          have hr0 : r > 0 := by omega
          rw [s3, n3, descendGrid_cell]
          simp [hi, hr, hr0]
        · intro i hi
          rw [s3, n3, descendGrid_cell]
          simp [hi]
      · rcases simulate_counter_after_reset (pollEvents s delta events) t delta hp with h0 | h0
        · rw [h0] at h9
          exact absurd h9 (by decide)
        · rw [h0] at h9
          exact absurd h9 (by decide)
  · intro s t delta events hdone h9
    obtain ⟨_, _, hfp, hfl, _⟩ := pollEvents_fixed delta s events
    rcases tick_cases s t delta events with ⟨_, h⟩ | ⟨_, _, h⟩ | ⟨_, _, h⟩
    · rw [h]
      exact ⟨rfl, Or.inl rfl, hdone⟩
    · rw [h] at h9 ⊢
      rcases pollEvents_counter_cases delta s events with hp | hp
      · exact ⟨hp.2.1, Or.inl hp.2.2, ⟨h9, by rw [hfp, hfl]; exact hdone.2⟩⟩
      · rw [hp] at h9
        exact absurd h9 (by decide)
    · rw [h] at h9 ⊢
      rcases pollEvents_counter_cases delta s events with hp | hp
      · obtain ⟨hc, hl, _⟩ := hp
        obtain ⟨b1, b2, b3, b4⟩ := beforePaddle_fields (pollEvents s delta events) t delta
        obtain ⟨s1, s2, s3, s4, s5⟩ := simulate_line_fields (pollEvents s delta events) t delta
        rw [s1] at h9
        have hq : NinthLineDone (beforePaddle (pollEvents s delta events) t delta) :=
          ⟨by rw [b1, hc]; exact hdone.1, by rw [b3, b4, hfp, hfl]; exact hdone.2⟩
        obtain ⟨n1, n2, n3, n4⟩ :=
          paddleCollisions_ninth_done (beforePaddle (pollEvents s delta events) t delta) t hq h9
        refine ⟨by rw [s2, n1, b2, hl], Or.inr (by rw [s3, n2]), ⟨by rw [s1]; exact h9, ?_⟩⟩
        rw [s4, s5, n3, n4]
        exact hq.2
      · rcases simulate_counter_after_reset (pollEvents s delta events) t delta hp with h0 | h0
        · rw [h0] at h9
          exact absurd h9 (by decide)
        · rw [h0] at h9
          exact absurd h9 (by decide)

theorem eightHitsState_before :
    beforeCollisions eightHitsState (2 / 100) = eightHitsState := by
  have ht : tickTimers eightHitsState (2 / 100) = eightHitsState := by
    unfold tickTimers
    rw [if_neg]
    norm_num [eightHitsState, resetGame]
  unfold beforeCollisions
  rw [ht, missRespawn_idle _ _ rfl (by norm_num [eightHitsState, resetGame])]

/-- The iteration at clock reading 1000 from `eightHitsState` counts the ninth hit. -/
theorem eightHitsState_ninth :
    (tick eightHitsState 1000 (2 / 100) []).paddleHitCounter = 9 := by
  have htick : tick eightHitsState 1000 (2 / 100) [] = simulate eightHitsState 1000 (2 / 100) := by
    unfold tick
    rw [if_neg (by norm_num)]
    rfl
  rw [htick, (simulate_line_fields _ _ _).1, paddleCollisions_counter, if_pos]
  · rw [(beforePaddle_fields _ _ _).1]
    rfl
  · refine ⟨?_, ?_⟩
    · unfold paddleTest beforePaddle
      rw [scoreDrain_ballX, scoreDrain_paddleX, scoreDrain_paddleWidth, scoreDrain_ballY,
        brickCollisions_ballX, brickCollisions_paddleX, brickCollisions_paddleWidth,
        brickCollisions_ballY, eightHitsState_before]
      norm_num [eightHitsState, resetGame, paddleCenterY, paddleHeight, ballSize,
        paddleWidthStart, bricksWidth, bricksHeight, widthPadding, heightPadding]
    · rw [(beforePaddle_fields _ _ _).2.2.2]
      norm_num [eightHitsState, resetGame, initState, lineCooldown]

/-- Witness for C7: from `eightHitsState` the iteration at clock reading 1000 counts the ninth
hit and adds exactly one to `lineCounter`. -/
theorem ninth_hit_one_descent_witness :
    (eightHitsState.paddleHitCounter = 8 ∧
      (tick eightHitsState 1000 (2 / 100) []).paddleHitCounter = 9 ∧
      (((1000 : Nat) : ℚ) - eightHitsState.lastLineTime) / 1000 > lineCooldown) ∧
    (tick eightHitsState 1000 (2 / 100) []).lineCounter = eightHitsState.lineCounter + 1 :=
  ⟨⟨rfl, eightHitsState_ninth, by norm_num [eightHitsState, resetGame, initState, lineCooldown]⟩,
   (ninth_hit_one_descent.1 eightHitsState 1000 (2 / 100) [] rfl eightHitsState_ninth
      (by norm_num [eightHitsState, resetGame, initState, lineCooldown])).2.1⟩

/-! ## The velocity after a paddle hit -/

theorem div_abs_neg_iff (x : ℚ) : x / |x| < 0 ↔ x < 0 := by
  rcases lt_trichotomy x 0 with h | h | h
  · have h1 : |x| = -x := abs_of_neg h
    have hx : x ≠ 0 := ne_of_lt h
    rw [h1, div_neg, div_self hx]
    constructor
    · intro _; exact h
    · intro _; norm_num
  · rw [h]
    simp
  · have h1 : |x| = x := abs_of_pos h
    have hx : x ≠ 0 := ne_of_gt h
    rw [h1, div_self hx]
    constructor
    · intro h2; norm_num at h2
    · intro h2; exact absurd h2 (not_lt.mpr (le_of_lt h))

/-- The clamp of the paddle block stays within 0.3 and 0.8. -/
theorem paddle_clamp_bounds (x : ℚ) :
    3 / 10 ≤ max (min x (8 / 10)) (3 / 10) ∧ max (min x (8 / 10)) (3 / 10) ≤ 8 / 10 := by
  refine ⟨le_max_right _ _, max_le (min_le_right _ _) (by norm_num)⟩

/-- The velocity after the paddle block on a paddle contact is the one `bouncePaddle` sets. -/
theorem paddleCollisions_velocity (s : State) (t : Nat) (h : paddleTest s) :
    (paddleCollisions s t).ballSpeedX = (bouncePaddle s).ballSpeedX ∧
    (paddleCollisions s t).ballSpeedY = (bouncePaddle s).ballSpeedY := by
  unfold paddleCollisions
  dsimp only
  rw [if_pos h]
  unfold countPaddleHit
  split_ifs <;> simp

theorem bouncePaddle_ballSpeedX (s : State) :
    (bouncePaddle s).ballSpeedX =
      if s.ballX < s.paddleX
      then -(max (min (|s.ballX - s.paddleX| / s.paddleWidth) (8 / 10)) (3 / 10)) * s.ballSpeed
      else max (min (|s.ballX - s.paddleX| / s.paddleWidth) (8 / 10)) (3 / 10) * s.ballSpeed := by
  unfold bouncePaddle
  dsimp only
  by_cases h : s.ballX < s.paddleX
  · have h2 : (s.ballX - s.paddleX) / |s.ballX - s.paddleX| < 0 :=
      (div_abs_neg_iff _).mpr (by linarith)
    rw [if_pos h, if_pos h2]
  · have h2 : ¬ (s.ballX - s.paddleX) / |s.ballX - s.paddleX| < 0 := by
      rw [div_abs_neg_iff]
      intro h3
      exact h (by linarith)
    rw [if_neg h, if_neg h2]

theorem bouncePaddle_ballSpeedY (s : State) :
    (bouncePaddle s).ballSpeedY = -(abs (s.ballSpeed - abs (bouncePaddle s).ballSpeedX)) := rfl

/-- The velocity `bouncePaddle` sets, for a speed budget that is not negative. -/
theorem bouncePaddle_speed (s : State) (hs : s.ballSpeed ≥ 0) :
    |(bouncePaddle s).ballSpeedX|
      = max (min (|s.ballX - s.paddleX| / s.paddleWidth) (8 / 10)) (3 / 10) * s.ballSpeed ∧
    (bouncePaddle s).ballSpeedY = -(s.ballSpeed - |(bouncePaddle s).ballSpeedX|) ∧
    (bouncePaddle s).ballSpeedY ≤ -(2 / 10 * s.ballSpeed) ∧
    |(bouncePaddle s).ballSpeedX| + |(bouncePaddle s).ballSpeedY| = s.ballSpeed := by
  obtain ⟨hlo, hhi⟩ := paddle_clamp_bounds (|s.ballX - s.paddleX| / s.paddleWidth)
  generalize hf : max (min (|s.ballX - s.paddleX| / s.paddleWidth) (8 / 10)) (3 / 10) = f
    at hlo hhi
  have hfs : 0 ≤ f * s.ballSpeed := mul_nonneg (by linarith) hs
  have habs : |(bouncePaddle s).ballSpeedX| = f * s.ballSpeed := by
    rw [bouncePaddle_ballSpeedX, hf]
    split_ifs
    · rw [neg_mul, abs_neg, abs_of_nonneg hfs]
    · rw [abs_of_nonneg hfs]
  have hrest : 0 ≤ s.ballSpeed - f * s.ballSpeed := by nlinarith
  have hy : (bouncePaddle s).ballSpeedY = -(s.ballSpeed - f * s.ballSpeed) := by
    rw [bouncePaddle_ballSpeedY, habs, abs_of_nonneg hrest]
  refine ⟨habs, by rw [hy, habs], ?_, ?_⟩
  · rw [hy]; nlinarith
  · rw [hy, habs, abs_neg, abs_of_nonneg hrest]; ring

/-- The velocity after a paddle hit, for any state with `ballSpeed >= 0` and
`paddleWidth > 0`: the new
horizontal speed has magnitude `clamp(|ballX - paddleX| / paddleWidth, 0.3, 0.8) * ballSpeed`,
is not positive when `ballX < paddleX` and not negative otherwise, and for `ballSpeed > 0` it
is negative exactly when `ballX < paddleX` and positive otherwise; the new vertical speed is
`-(ballSpeed - |new horizontal speed|)`, which is at most 0, and after the hit
`|ballSpeedX| + |ballSpeedY| = ballSpeed`, the budget itself being unchanged. -/
theorem paddle_hit_velocity (s : State) (t : Nat) (hit : paddleTest s)
    (hs : s.ballSpeed ≥ 0) (hw : s.paddleWidth > 0) :
    |(paddleCollisions s t).ballSpeedX|
      = max (min (|s.ballX - s.paddleX| / s.paddleWidth) (8 / 10)) (3 / 10) * s.ballSpeed ∧
    (s.ballX < s.paddleX → (paddleCollisions s t).ballSpeedX ≤ 0) ∧
    (¬ s.ballX < s.paddleX → 0 ≤ (paddleCollisions s t).ballSpeedX) ∧
    (s.ballSpeed > 0 →
      (((paddleCollisions s t).ballSpeedX < 0 ↔ s.ballX < s.paddleX) ∧
       (0 < (paddleCollisions s t).ballSpeedX ↔ ¬ s.ballX < s.paddleX))) ∧
    (paddleCollisions s t).ballSpeedY
      = -(s.ballSpeed - |(paddleCollisions s t).ballSpeedX|) ∧
    (paddleCollisions s t).ballSpeedY ≤ 0 ∧
    |(paddleCollisions s t).ballSpeedX| + |(paddleCollisions s t).ballSpeedY| = s.ballSpeed ∧
    (paddleCollisions s t).ballSpeed = s.ballSpeed := by
  have _ := hw
  obtain ⟨hvx, hvy⟩ := paddleCollisions_velocity s t hit
  obtain ⟨h1, h2, h3, h4⟩ := bouncePaddle_speed s hs
  obtain ⟨hlo, _⟩ := paddle_clamp_bounds (|s.ballX - s.paddleX| / s.paddleWidth)
  rw [hvx, hvy]
  have hx := bouncePaddle_ballSpeedX s
  generalize hf : max (min (|s.ballX - s.paddleX| / s.paddleWidth) (8 / 10)) (3 / 10) = f
    at hlo hx h1
  have hfs : 0 ≤ f * s.ballSpeed := mul_nonneg (by linarith) hs
  refine ⟨h1, ?_, ?_, ?_, h2, by linarith, h4, paddleCollisions_ballSpeed s t⟩
  · intro hlt
    rw [hx, if_pos hlt]
    linarith
  · intro hge
    rw [hx, if_neg hge]
    exact hfs
  · intro hpos
    have hfp : 0 < f * s.ballSpeed := mul_pos (by linarith) hpos
    by_cases hlt : s.ballX < s.paddleX
    · rw [hx, if_pos hlt]
      refine ⟨⟨fun _ => hlt, fun _ => by linarith⟩, ⟨fun h => by linarith, fun h => absurd hlt h⟩⟩
    · rw [hx, if_neg hlt]
      refine ⟨⟨fun h => by linarith, fun h => absurd h hlt⟩, ⟨fun _ => hlt, fun _ => hfp⟩⟩

/-! ## C12: the paddle width follows the line counter -/

theorem paddleWidthStart_eq : paddleWidthStart = 1 / 10 := by
  norm_num [paddleWidthStart, bricksWidth, widthPadding]

/-- The line-descent block keeps the paddle width in step with the line counter. -/
theorem lineStep_widthAtLine (s : State) (t : Nat)
    (h : s.paddleWidth = widthAtLine s.lineCounter) :
    (lineStep s t).paddleWidth = widthAtLine (s.lineCounter + 1) := by
  have hw : (lineStep s t).paddleWidth =
      if s.lineCounter + 1 > 99 ∧ s.paddleWidth > paddleWidthStart * (85 / 100) then
        paddleWidthStart * (85 / 100)
      else if s.lineCounter + 1 > 199 ∧ s.paddleWidth > paddleWidthStart * (75 / 100) then
        paddleWidthStart * (75 / 100)
      else if s.lineCounter + 1 > 299 ∧ s.paddleWidth > paddleWidthStart * (5 / 10) then
        paddleWidthStart * (5 / 10)
      else s.paddleWidth := by
    unfold lineStep shrinkPaddle descendLines
    dsimp only
    split_ifs <;> rfl
  rw [hw, h]
  unfold widthAtLine
  rw [paddleWidthStart_eq]
  by_cases h1 : s.lineCounter ≤ 98
  · have a1 : s.lineCounter ≤ 99 := by omega
    have a2 : s.lineCounter + 1 ≤ 99 := by omega
    have a3 : ¬ s.lineCounter + 1 > 99 := by omega
    have a4 : ¬ s.lineCounter + 1 > 199 := by omega
    have a5 : ¬ s.lineCounter + 1 > 299 := by omega
    simp only [a1, a2, a3, a4, a5, if_true, false_and, if_false]
  · by_cases h2 : s.lineCounter = 99
    · rw [h2]
      norm_num
    · by_cases h3 : s.lineCounter ≤ 198
      · have a1 : ¬ s.lineCounter ≤ 99 := by omega
        have a2 : s.lineCounter ≤ 199 := by omega
        have a3 : ¬ s.lineCounter + 1 ≤ 99 := by omega
        have a4 : s.lineCounter + 1 ≤ 199 := by omega
        have a5 : ¬ s.lineCounter + 1 > 199 := by omega
        have a6 : ¬ s.lineCounter + 1 > 299 := by omega
        simp only [a1, a2, a3, a4, a5, a6, if_true, if_false, false_and, gt_iff_lt, lt_irrefl,
          and_false]
      · by_cases h4 : s.lineCounter = 199
        · rw [h4]
          norm_num
        · by_cases h5 : s.lineCounter ≤ 298
          · have a1 : ¬ s.lineCounter ≤ 99 := by omega
            have a2 : ¬ s.lineCounter ≤ 199 := by omega
            have a3 : s.lineCounter ≤ 299 := by omega
            have a4 : ¬ s.lineCounter + 1 ≤ 99 := by omega
            have a5 : ¬ s.lineCounter + 1 ≤ 199 := by omega
            have a6 : s.lineCounter + 1 ≤ 299 := by omega
            have a7 : ¬ s.lineCounter + 1 > 299 := by omega
            simp only [a1, a2, a3, a4, a5, a6, a7, if_true, if_false, false_and]
            norm_num
          · by_cases h6 : s.lineCounter = 299
            · rw [h6]
              norm_num
            · have a1 : ¬ s.lineCounter ≤ 99 := by omega
              have a2 : ¬ s.lineCounter ≤ 199 := by omega
              have a3 : ¬ s.lineCounter ≤ 299 := by omega
              have a4 : ¬ s.lineCounter + 1 ≤ 99 := by omega
              have a5 : ¬ s.lineCounter + 1 ≤ 199 := by omega
              have a6 : ¬ s.lineCounter + 1 ≤ 299 := by omega
              simp only [a1, a2, a3, a4, a5, a6, if_false]
              norm_num

/-- The paddle block leaves the paddle width and the line counter alone, or runs the
line-descent block on a state with the same width and counter. -/
theorem paddleCollisions_line_cases (s : State) (t : Nat) :
    ((paddleCollisions s t).paddleWidth = s.paddleWidth ∧
      (paddleCollisions s t).lineCounter = s.lineCounter) ∨
    (∃ s1 : State, s1.paddleWidth = s.paddleWidth ∧ s1.lineCounter = s.lineCounter ∧
      paddleCollisions s t = lineStep s1 t) := by
  unfold paddleCollisions
  dsimp only
  by_cases hp : paddleTest s
  · rw [if_pos hp]
    have h1 : (countPaddleHit (bouncePaddle s) t).paddleWidth = s.paddleWidth := by
      unfold countPaddleHit; split_ifs <;> rfl
    have h2 : (countPaddleHit (bouncePaddle s) t).lineCounter = s.lineCounter := by
      unfold countPaddleHit; split_ifs <;> rfl
    split_ifs
    · right
      exact ⟨_, h1, h2, rfl⟩
    · left
      exact ⟨h1, h2⟩
  · rw [if_neg hp]
    left
    exact ⟨rfl, rfl⟩

theorem simulate_widthAtLine (s : State) (t : Nat) (delta : ℚ)
    (h : s.paddleWidth = widthAtLine s.lineCounter) :
    (simulate s t delta).paddleWidth = widthAtLine (simulate s t delta).lineCounter := by
  have hq : (beforePaddle s t delta).paddleWidth
      = widthAtLine (beforePaddle s t delta).lineCounter := by
    simp [beforePaddle, beforeCollisions, h]
  have e1 : (simulate s t delta).paddleWidth
      = (paddleCollisions (beforePaddle s t delta) t).paddleWidth := by
    simp [simulate, beforePaddle]
  rw [e1, (simulate_line_fields s t delta).2.1]
  rcases paddleCollisions_line_cases (beforePaddle s t delta) t with ⟨h1, h2⟩ | ⟨s1, h1, h2, h3⟩
  · rw [h1, h2, hq]
  · rw [h3, lineStep_lineCounter, lineStep_widthAtLine s1 t (by rw [h1, h2, hq])]

theorem handleEvent_widthAtLine (delta : ℚ) (s : State) (e : Event)
    (h : s.paddleWidth = widthAtLine s.lineCounter) :
    (handleEvent delta s e).paddleWidth = widthAtLine (handleEvent delta s e).lineCounter := by
  by_cases he : e = Event.keyDown Key.r
  · rw [he]
    show paddleWidthStart = widthAtLine 0
    unfold widthAtLine
    norm_num
  · rw [handleEvent_frame delta s e he]
    exact h

theorem tick_widthAtLine (s : State) (t : Nat) (delta : ℚ) (events : List Event)
    (h : s.paddleWidth = widthAtLine s.lineCounter) :
    (tick s t delta events).paddleWidth = widthAtLine (tick s t delta events).lineCounter := by
  have hp := pollEvents_induct delta (fun s1 => s1.paddleWidth = widthAtLine s1.lineCounter)
    events (fun s1 e _ h1 => handleEvent_widthAtLine delta s1 e h1) s h
  rcases tick_cases s t delta events with ⟨_, h1⟩ | ⟨_, _, h1⟩ | ⟨_, _, h1⟩
  · rw [h1]; exact h
  · rw [h1]; exact hp
  · rw [h1]; exact simulate_widthAtLine _ t delta hp

theorem reachable_widthAtLine (s : State) (h : Reachable s) :
    s.paddleWidth = widthAtLine s.lineCounter := by
  induction h with
  | reset s0 =>
    show paddleWidthStart = widthAtLine 0
    unfold widthAtLine
    norm_num
  | step s0 t delta events _ ih => exact tick_widthAtLine s0 t delta events ih

/-- C12: in every state of a game, so in particular after every line descent, the paddle
width is determined by the line counter `k`: `paddleWidthStart` for `k <= 99`, 85% of it for
`100 <= k <= 199`, 75% for `200 <= k <= 299` and 50% for `k >= 300`; and the line-descent
block run from a state of a game with counter `k` gives the width that belongs to `k + 1`, so
each step is taken in the descent at which the counter reaches 100, 200 and 300. -/
theorem paddleWidth_by_lineCounter (s : State) (h : Reachable s) :
    (s.lineCounter ≤ 99 → s.paddleWidth = paddleWidthStart) ∧
    (100 ≤ s.lineCounter → s.lineCounter ≤ 199 →
      s.paddleWidth = 85 / 100 * paddleWidthStart) ∧
    (200 ≤ s.lineCounter → s.lineCounter ≤ 299 →
      s.paddleWidth = 75 / 100 * paddleWidthStart) ∧
    (300 ≤ s.lineCounter → s.paddleWidth = 5 / 10 * paddleWidthStart) ∧
    (∀ t, (lineStep s t).lineCounter = s.lineCounter + 1 ∧
      (s.lineCounter + 1 ≤ 99 → (lineStep s t).paddleWidth = paddleWidthStart) ∧
      (s.lineCounter + 1 = 100 → (lineStep s t).paddleWidth = 85 / 100 * paddleWidthStart ∧
        s.paddleWidth = paddleWidthStart) ∧
      (s.lineCounter + 1 = 200 → (lineStep s t).paddleWidth = 75 / 100 * paddleWidthStart ∧
        s.paddleWidth = 85 / 100 * paddleWidthStart) ∧
      (s.lineCounter + 1 = 300 → (lineStep s t).paddleWidth = 5 / 10 * paddleWidthStart ∧
        s.paddleWidth = 75 / 100 * paddleWidthStart)) := by
  have hw := reachable_widthAtLine s h
  refine ⟨?_, ?_, ?_, ?_, ?_⟩
  · intro h1
    rw [hw]; unfold widthAtLine
    rw [if_pos h1]
  · intro h1 h2
    rw [hw]; unfold widthAtLine
    rw [if_neg (by omega), if_pos h2]; ring
  · intro h1 h2
    rw [hw]; unfold widthAtLine
    rw [if_neg (by omega), if_neg (by omega), if_pos h2]; ring
  · intro h1
    rw [hw]; unfold widthAtLine
    rw [if_neg (by omega), if_neg (by omega), if_neg (by omega)]; ring
  · intro t
    have hl := lineStep_widthAtLine s t hw
    refine ⟨lineStep_lineCounter s t, ?_, ?_, ?_, ?_⟩
    · intro h1
      rw [hl]; unfold widthAtLine
      rw [if_pos h1]
    · intro h1
      rw [hl, hw, h1]
      have h2 : s.lineCounter = 99 := by omega
      rw [h2]; unfold widthAtLine
      constructor <;> norm_num [mul_comm]
    · intro h1
      rw [hl, hw, h1]
      have h2 : s.lineCounter = 199 := by omega
      rw [h2]; unfold widthAtLine
      constructor <;> norm_num [mul_comm]
    · intro h1
      rw [hl, hw, h1]
      have h2 : s.lineCounter = 299 := by omega
      rw [h2]; unfold widthAtLine
      constructor <;> norm_num [mul_comm]

/-! ## C13: the paddle stays between the walls -/

/-- The clamp of the mouse-motion statement puts the paddle between the walls, for a paddle
no wider than at the start. -/
theorem mouse_clamp_inside (w x y : ℚ) (hw : w ≤ paddleWidthStart)
    (hx : x = max (min (1 - w / 2 - 1 / ((bricksWidth : ℚ) + (widthPadding : ℚ))) y)
      (w / 2 + 1 / ((bricksWidth : ℚ) + (widthPadding : ℚ)))) :
    x - w / 2 ≥ 1 / 15 ∧ x + w / 2 ≤ 14 / 15 := by
  rw [paddleWidthStart_eq] at hw
  have h15 : ((bricksWidth : ℚ) + (widthPadding : ℚ)) = 15 := by
    norm_num [bricksWidth, widthPadding]
  rw [h15] at hx
  have hlo : w / 2 + 1 / 15 ≤ x := by rw [hx]; exact le_max_right _ _
  have hhi : x ≤ 1 - w / 2 - 1 / 15 := by
    rw [hx]
    exact max_le (min_le_left _ _) (by linarith)
  constructor <;> linarith

theorem handleEvent_paddleInside (delta : ℚ) (s : State) (e : Event)
    (h : PaddleInside s ∧ s.paddleWidth ≤ paddleWidthStart) :
    PaddleInside (handleEvent delta s e) ∧
      (handleEvent delta s e).paddleWidth ≤ paddleWidthStart := by
  cases e with
  | quitEvent => exact h
  | keyDown k =>
    cases k
    case r =>
      refine ⟨?_, le_refl _⟩
      show (5 / 10 : ℚ) - paddleWidthStart / 2 ≥ 1 / 15 ∧
        (5 / 10 : ℚ) + paddleWidthStart / 2 ≤ 14 / 15
      rw [paddleWidthStart_eq]
      norm_num
    all_goals exact h
  | mouseMotion x =>
    unfold handleEvent
    dsimp only
    split_ifs
    · exact ⟨mouse_clamp_inside s.paddleWidth _ _ h.2 rfl, h.2⟩
    · exact h
  | other => exact h

theorem simulate_paddleX (s : State) (t : Nat) (delta : ℚ) :
    (simulate s t delta).paddleX = s.paddleX := by
  simp [simulate, beforeCollisions]

theorem simulate_paddleInside (s : State) (t : Nat) (delta : ℚ)
    (h : PaddleInside s ∧ s.paddleWidth ≤ paddleWidthStart) :
    PaddleInside (simulate s t delta) ∧ (simulate s t delta).paddleWidth ≤ paddleWidthStart := by
  have hw := simulate_paddleWidth_le s t delta
  obtain ⟨⟨h1, h2⟩, h3⟩ := h
  refine ⟨⟨?_, ?_⟩, le_trans hw h3⟩
  · rw [simulate_paddleX]; linarith
  · rw [simulate_paddleX]; linarith

theorem tick_paddleInside (s : State) (t : Nat) (delta : ℚ) (events : List Event)
    (h : PaddleInside s ∧ s.paddleWidth ≤ paddleWidthStart) :
    PaddleInside (tick s t delta events) ∧
      (tick s t delta events).paddleWidth ≤ paddleWidthStart := by
  have hp := pollEvents_induct delta
    (fun s1 => PaddleInside s1 ∧ s1.paddleWidth ≤ paddleWidthStart)
    events (fun s1 e _ h1 => handleEvent_paddleInside delta s1 e h1) s h
  rcases tick_cases s t delta events with ⟨_, h1⟩ | ⟨_, _, h1⟩ | ⟨_, _, h1⟩
  · rw [h1]; exact h
  · rw [h1]; exact hp
  · rw [h1]; exact simulate_paddleInside _ t delta hp

theorem reachable_paddleInside (s : State) (h : Reachable s) :
    PaddleInside s ∧ s.paddleWidth ≤ paddleWidthStart := by
  induction h with
  | reset s0 =>
    refine ⟨?_, le_refl _⟩
    show (5 / 10 : ℚ) - paddleWidthStart / 2 ≥ 1 / 15 ∧
      (5 / 10 : ℚ) + paddleWidthStart / 2 ≤ 14 / 15
    rw [paddleWidthStart_eq]
    norm_num
  | step s0 t delta events _ ih => exact tick_paddleInside s0 t delta events ih

/-- C13: in every state of a game (reached through iterations with any clock reading, any
`delta`, so also any `delta` in (0, 0.02], and any events: mouse motion with any signed
`xrel`, pause, reset; with line descents and paddle shrinking), both paddle edges lie between
the side walls: `paddleX - paddleWidth / 2 >= 1/15` and `paddleX + paddleWidth / 2 <= 14/15`;
and a mouse-motion event alone already puts them there when the paddle is no wider than at
the start. -/
theorem paddle_stays_inside (s : State) (h : Reachable s) :
    (s.paddleX - s.paddleWidth / 2 ≥ 1 / 15 ∧ s.paddleX + s.paddleWidth / 2 ≤ 14 / 15) ∧
    (∀ (xrel : Int) (delta : ℚ),
      (handleEvent delta s (Event.mouseMotion xrel)).paddleX
          - (handleEvent delta s (Event.mouseMotion xrel)).paddleWidth / 2 ≥ 1 / 15 ∧
      (handleEvent delta s (Event.mouseMotion xrel)).paddleX
          + (handleEvent delta s (Event.mouseMotion xrel)).paddleWidth / 2 ≤ 14 / 15) :=
  ⟨(reachable_paddleInside s h).1,
   fun xrel delta =>
     (handleEvent_paddleInside delta s (Event.mouseMotion xrel) (reachable_paddleInside s h)).1⟩

/-- Witness for C13: after a large mouse motion to the right from the reset state the paddle
is still inside. -/
theorem paddle_stays_inside_witness :
    Reachable (tick (resetGame (initState 0)) 20 (2 / 100) [Event.mouseMotion 5000]) ∧
    (tick (resetGame (initState 0)) 20 (2 / 100) [Event.mouseMotion 5000]).paddleX
      + (tick (resetGame (initState 0)) 20 (2 / 100) [Event.mouseMotion 5000]).paddleWidth / 2
      ≤ 14 / 15 :=
  ⟨Reachable.step _ 20 (2 / 100) [Event.mouseMotion 5000] (Reachable.reset (initState 0)),
   (paddle_stays_inside _
     (Reachable.step _ 20 (2 / 100) [Event.mouseMotion 5000]
       (Reachable.reset (initState 0)))).1.2⟩

/-! ## C14: what resetGame reinitializes -/

theorem Grid.eq_of_cells (g h : Grid) (hc : ∀ i j, g.cell i j = h.cell i j) : g = h := by
  cases g with
  | mk f =>
    cases h with
    | mk k =>
      have : f = k := funext (fun i => funext (fun j => hc i j))
      rw [this]

theorem resetGame_eq_of_rest (a b : State)
    (h1 : a.gamePaused = b.gamePaused) (h2 : a.ballRespawnTimer = b.ballRespawnTimer)
    (h3 : a.lastBreakTime = b.lastBreakTime) (h4 : a.lastPaddleHitTime = b.lastPaddleHitTime)
    (h5 : a.lastLineTime = b.lastLineTime) (h6 : a.quit = b.quit)
    (h7 : a.prevTime = b.prevTime)
    (h8 : ∀ i j, ¬ (i < 13 ∧ j < 21) → a.brickStates.cell i j = b.brickStates.cell i j) :
    resetGame a = resetGame b := by
  have hg : resetBricks a.brickStates = resetBricks b.brickStates := by
    apply Grid.eq_of_cells
    intro i j
    have ha := resetGame_cell a i j
    have hb := resetGame_cell b i j
    change (resetBricks a.brickStates).cell i j = _ at ha
    change (resetBricks b.brickStates).cell i j = _ at hb
    rw [ha, hb]
    by_cases hc : i < 13 ∧ j < 21
    · rw [if_pos hc, if_pos hc]
    · rw [if_neg hc, if_neg hc]
      exact h8 i j hc
  unfold resetGame
  rw [hg, h1, h2, h3, h4, h5, h6, h7]

/-- C14, as stated, fails: `resetGame` from the initial state and from a paused state with a
running respawn timer and later cooldown timestamps gives two different states, and the
paused flag, the respawn timer and the three timestamps do not hold their initial values. -/
theorem resetGame_not_whole_state_counterexample :
    resetGame (initState 0) ≠ resetGame pausedLateState ∧
    (resetGame pausedLateState).gamePaused = true ∧
    (resetGame pausedLateState).ballRespawnTimer = 1 / 2 ∧
    (resetGame pausedLateState).lastBreakTime = 5000 ∧
    (resetGame pausedLateState).lastPaddleHitTime = 5000 ∧
    (resetGame pausedLateState).lastLineTime = 5000 := by
  refine ⟨?_, rfl, rfl, rfl, rfl, rfl⟩
  intro h
  have h2 : (resetGame (initState 0)).gamePaused = (resetGame pausedLateState).gamePaused :=
    congrArg State.gamePaused h
  exact absurd h2 (by decide)

/-- C14 (amended): from any state `resetGame` gives their initial values to the cells of the
active region (stripes: 1 when `row % 8 < 4`, else 0), the ball position, velocity and speed
budget, the paddle position and width, lives, score, score queue and its timer, the hit, line
and sound counters and the missed flag, so two states after `resetGame` agree on all of these;
it leaves the paused flag, the respawn timer, the three cooldown timestamps and the cells
outside the active region as they were, and two prior states that agree on those (and on the
locals `quit` and `prevTime` of the loop) give equal states. -/
theorem resetGame_reinitializes (a b : State) :
    ((resetGame a).lives = 5 ∧ (resetGame a).ballMissed = false ∧
      (resetGame a).ballSpeed = ballSpeedStart ∧ (resetGame a).ballSpeedX = 0 ∧
      (resetGame a).ballSpeedY = ballSpeedStart / 2 ∧ (resetGame a).ballX = 1 / 2 ∧
      (resetGame a).ballY = 7 / 10 ∧ (resetGame a).paddleX = 1 / 2 ∧
      (resetGame a).paddleWidth = paddleWidthStart ∧ (resetGame a).paddleHitCounter = 0 ∧
      (resetGame a).lineCounter = 0 ∧ (resetGame a).brickSoundCounter = 0 ∧
      (resetGame a).score = 0 ∧ (resetGame a).scoreQueue = 0 ∧
      (resetGame a).scoreQueueTimer = 0 ∧
      (∀ i j, i < 13 → j < 21 →
        (resetGame a).brickStates.cell i j = if j % 8 < 4 then 1 else 0)) ∧
    ((resetGame a).lives = (resetGame b).lives ∧
      (resetGame a).ballMissed = (resetGame b).ballMissed ∧
      (resetGame a).ballSpeed = (resetGame b).ballSpeed ∧
      (resetGame a).ballSpeedX = (resetGame b).ballSpeedX ∧
      (resetGame a).ballSpeedY = (resetGame b).ballSpeedY ∧
      (resetGame a).ballX = (resetGame b).ballX ∧ (resetGame a).ballY = (resetGame b).ballY ∧
      (resetGame a).paddleX = (resetGame b).paddleX ∧
      (resetGame a).paddleWidth = (resetGame b).paddleWidth ∧
      (resetGame a).paddleHitCounter = (resetGame b).paddleHitCounter ∧
      (resetGame a).lineCounter = (resetGame b).lineCounter ∧
      (resetGame a).brickSoundCounter = (resetGame b).brickSoundCounter ∧
      (resetGame a).score = (resetGame b).score ∧
      (resetGame a).scoreQueue = (resetGame b).scoreQueue ∧
      (resetGame a).scoreQueueTimer = (resetGame b).scoreQueueTimer ∧
      (∀ i j, i < 13 → j < 21 →
        (resetGame a).brickStates.cell i j = (resetGame b).brickStates.cell i j)) ∧
    ((resetGame a).gamePaused = a.gamePaused ∧
      (resetGame a).ballRespawnTimer = a.ballRespawnTimer ∧
      (resetGame a).lastBreakTime = a.lastBreakTime ∧
      (resetGame a).lastPaddleHitTime = a.lastPaddleHitTime ∧
      (resetGame a).lastLineTime = a.lastLineTime ∧
      (∀ i j, ¬ (i < 13 ∧ j < 21) →
        (resetGame a).brickStates.cell i j = a.brickStates.cell i j)) ∧
    (a.gamePaused = b.gamePaused → a.ballRespawnTimer = b.ballRespawnTimer →
      a.lastBreakTime = b.lastBreakTime → a.lastPaddleHitTime = b.lastPaddleHitTime →
      a.lastLineTime = b.lastLineTime → a.quit = b.quit → a.prevTime = b.prevTime →
      (∀ i j, ¬ (i < 13 ∧ j < 21) → a.brickStates.cell i j = b.brickStates.cell i j) →
      resetGame a = resetGame b) := by
  have hcell : ∀ (s : State) i j, i < 13 → j < 21 →
      (resetGame s).brickStates.cell i j = if j % 8 < 4 then 1 else 0 := by
    intro s i j hi hj
    rw [resetGame_cell, if_pos ⟨hi, hj⟩]
  refine ⟨⟨rfl, rfl, rfl, rfl, rfl, ?_, rfl, ?_, rfl, rfl, rfl, rfl, rfl, rfl, rfl, hcell a⟩,
    ⟨rfl, rfl, rfl, rfl, rfl, rfl, rfl, rfl, rfl, rfl, rfl, rfl, rfl, rfl, rfl, ?_⟩,
    ⟨rfl, rfl, rfl, rfl, rfl, ?_⟩, resetGame_eq_of_rest a b⟩
  · show (5 / 10 : ℚ) = 1 / 2
    norm_num
  · show (5 / 10 : ℚ) = 1 / 2
    norm_num
  · intro i j hi hj
    rw [hcell a i j hi hj, hcell b i j hi hj]
  · intro i j hc
    rw [resetGame_cell, if_neg hc]

/-- Witness for C14 (amended): two states that differ only where `resetGame` writes are equal
after it. -/
theorem resetGame_reinitializes_witness :
    resetGame (initState 0) = resetGame { initState 0 with lives := 2, score := 40 } :=
  (resetGame_reinitializes (initState 0) { initState 0 with lives := 2, score := 40 }).2.2.2
    rfl rfl rfl rfl rfl rfl rfl (fun _ _ _ => rfl)

/-! ## C15: the brick scan comes before the score drain -/

theorem oneBrickState_liveHit : liveHit oneBrickState 0 0 := liveHit_example

theorem oneBrickState_before : beforeCollisions oneBrickState (2 / 100) = oneBrickState := by
  have ht : tickTimers oneBrickState (2 / 100) = oneBrickState := by
    unfold tickTimers
    rw [if_neg]
    norm_num [oneBrickState, initState]
  unfold beforeCollisions
  rw [ht, missRespawn_idle _ _ rfl (by norm_num [oneBrickState, initState])]

theorem oneBrickState_scan :
    brickCollisions oneBrickState 1000 = brickHit oneBrickState 1000 0 0 := by
  apply brickCollisions_first oneBrickState 1000 0 0
  · norm_num [oneBrickState, initState, ballCooldown]
  · decide
  · decide
  · exact oneBrickState_liveHit
  · intro i2 j2 _ _ h
    unfold scannedBefore at h
    omega

theorem oneBrickState_tick_score : (tick oneBrickState 1000 (2 / 100) []).score = 1 := by
  have htick : tick oneBrickState 1000 (2 / 100) [] = simulate oneBrickState 1000 (2 / 100) := by
    unfold tick
    rw [if_neg (by norm_num)]
    rfl
  rw [htick, simulate_score, oneBrickState_before, oneBrickState_scan]
  have hq : (brickHit oneBrickState 1000 0 0).scoreQueue > 0 := by
    rw [brickHit_scoreQueue]
    have := brickPoints_pos 0
    have h0 : oneBrickState.scoreQueue = 0 := rfl
    omega
  have ht : (brickHit oneBrickState 1000 0 0).scoreQueueTimer ≤ 0 := by
    rw [brickHit_scoreQueueTimer]
    exact le_of_eq rfl
  rw [scoreDrain_fires _ hq ht]
  show (brickHit oneBrickState 1000 0 0).score + 1 = 1
  rw [brickHit_score]
  rfl

/-- C15, as stated, fails: the iteration at clock reading 1000 from `oneBrickState` starts with
`scoreQueue = 0` and `score = 0`, breaks the brick `(0, 0)` in its brick scan and ends with
`score = 1`: a point queued by the brick is added to the score in the same iteration. -/
theorem drain_before_scan_counterexample :
    oneBrickState.scoreQueue = 0 ∧ oneBrickState.score = 0 ∧
    brickCollisions (beforeCollisions oneBrickState (2 / 100)) 1000
      = brickHit (beforeCollisions oneBrickState (2 / 100)) 1000 0 0 ∧
    (tick oneBrickState 1000 (2 / 100) []).score = 1 ∧
    (tick oneBrickState 1000 (2 / 100) []).score ≠ oneBrickState.score := by
  refine ⟨rfl, rfl, ?_, oneBrickState_tick_score, ?_⟩
  · rw [oneBrickState_before]
    exact oneBrickState_scan
  · rw [oneBrickState_tick_score]
    show (1 : Int) ≠ 0
    decide

/-- C15 (amended): within one iteration the brick scan is performed before the score-queue
drain (order: events with pause and reset, timer, miss / respawn, brick scan, score-queue
drain, paddle block, wall block, integration); so a point queued by a brick broken in an
iteration can be added to `score` in that same iteration: if `scoreQueue = 0` before an
iteration with no `R` key press, `score` is unchanged or grows by exactly 1; it is unchanged
when no brick is broken (iteration skipped, paused, or scan without effect), and it grows by
exactly 1 when the scan breaks a brick and the drain timer, after its decrement, is `<= 0`. -/
theorem scan_then_drain :
    (∀ (s : State) (t : Nat) (delta : ℚ),
      simulate s t delta =
        { moveBall (wallCollisions (paddleCollisions (scoreDrain (brickCollisions
            (missRespawn (tickTimers s delta) delta) t)) t)) delta with prevTime := t }) ∧
    (∀ (s : State) (t : Nat) (delta : ℚ) (events : List Event),
      Event.keyDown Key.r ∉ events → s.scoreQueue = 0 →
      (((tick s t delta events).score = s.score ∨
          (tick s t delta events).score = s.score + 1) ∧
       ((delta ≤ 0 ∨ (pollEvents s delta events).gamePaused = true ∨
          brickCollisions (beforeCollisions (pollEvents s delta events) delta) t
            = beforeCollisions (pollEvents s delta events) delta) →
          (tick s t delta events).score = s.score) ∧
       (∀ i j, 0 < delta → (pollEvents s delta events).gamePaused = false →
          brickCollisions (beforeCollisions (pollEvents s delta events) delta) t
            = brickHit (beforeCollisions (pollEvents s delta events) delta) t i j →
          (beforeCollisions (pollEvents s delta events) delta).scoreQueueTimer ≤ 0 →
          (tick s t delta events).score = s.score + 1))) := by
  refine ⟨fun s t delta => rfl, ?_⟩
  intro s t delta events hr hq0
  have hs : (pollEvents s delta events).score = s.score := by
    rw [pollEvents_frame delta s events hr]
  have hq : (pollEvents s delta events).scoreQueue = 0 := by
    rw [pollEvents_frame delta s events hr]
    exact hq0
  have hbs : (beforeCollisions (pollEvents s delta events) delta).score = s.score := by
    rw [beforeCollisions_score, hs]
  have hbq : (beforeCollisions (pollEvents s delta events) delta).scoreQueue = 0 := by
    rw [beforeCollisions_scoreQueue, hq]
  rcases tick_cases s t delta events with ⟨hd, h⟩ | ⟨hd, hp, h⟩ | ⟨hd, hp, h⟩
  · rw [h]
    refine ⟨Or.inl rfl, fun _ => rfl, ?_⟩
    intro i j hpos
    exact absurd hpos (not_lt.mpr hd)
  · rw [h, hs]
    refine ⟨Or.inl rfl, fun _ => rfl, ?_⟩
    intro i j _ hnp
    rw [hp] at hnp
    exact absurd hnp (by decide)
  · rw [h, simulate_score]
    refine ⟨?_, ?_, ?_⟩
    · rcases scoreDrain_cases
        (brickCollisions (beforeCollisions (pollEvents s delta events) delta) t) with
        ⟨h1, _⟩ | ⟨_, _, _, h1, _⟩
      · left
        rw [h1, brickCollisions_score, hbs]
      · right
        rw [h1, brickCollisions_score, hbs]
    · intro hno
      rcases hno with h1 | h1 | h1
      · exact absurd hd (not_lt.mpr h1)
      · rw [hp] at h1
        exact absurd h1 (by decide)
      · rw [h1]
        rcases scoreDrain_cases (beforeCollisions (pollEvents s delta events) delta) with
          ⟨h2, _⟩ | ⟨h2, _⟩
        · rw [h2, hbs]
        · rw [hbq] at h2
          exact absurd h2 (lt_irrefl 0)
    · intro i j _ _ hhit htimer
      rw [hhit]
      have hq2 : (brickHit (beforeCollisions (pollEvents s delta events) delta) t i j).scoreQueue
          > 0 := by
        rw [brickHit_scoreQueue, hbq]
        have := brickPoints_pos j
        omega
      have ht2 :
          (brickHit (beforeCollisions (pollEvents s delta events) delta) t i j).scoreQueueTimer
            ≤ 0 := by
        rw [brickHit_scoreQueueTimer]
        exact htimer
      rw [scoreDrain_fires _ hq2 ht2]
      show (brickHit (beforeCollisions (pollEvents s delta events) delta) t i j).score + 1 = _
      rw [brickHit_score, hbs]

/-! ## C16: the respawn transition -/

theorem missRespawn_respawn (s : State) (delta : ℚ) (hm : s.ballMissed = true)
    (ht : s.ballRespawnTimer + delta ≥ ballRespawnTime) :
    missRespawn s delta =
    { s with
      ballRespawnTimer := s.ballRespawnTimer + delta
      ballMissed := false
      ballSpeed := ballSpeedStart
      ballSpeedX := 0
      ballSpeedY := ballSpeedStart / 2
      ballX := s.paddleX
      ballY := 7 / 10 } := by
  unfold missRespawn
  dsimp only
  rw [if_pos hm, if_pos ht]

theorem missRespawn_wait (s : State) (delta : ℚ) (hm : s.ballMissed = true)
    (ht : ¬ s.ballRespawnTimer + delta ≥ ballRespawnTime) :
    missRespawn s delta = { s with ballRespawnTimer := s.ballRespawnTimer + delta } := by
  unfold missRespawn
  dsimp only
  rw [if_pos hm, if_neg ht]

theorem simulate_respawn_fields (s : State) (t : Nat) (delta : ℚ) :
    (simulate s t delta).ballMissed = (missRespawn s delta).ballMissed ∧
    (simulate s t delta).ballRespawnTimer = (missRespawn s delta).ballRespawnTimer := by
  have h1 : (missRespawn (tickTimers s delta) delta).ballMissed
      = (missRespawn s delta).ballMissed := by
    unfold missRespawn
    dsimp only
    rw [tickTimers_ballMissed, tickTimers_ballRespawnTimer, tickTimers_ballY, tickTimers_lives]
    split_ifs <;> simp
  have h2 : (missRespawn (tickTimers s delta) delta).ballRespawnTimer
      = (missRespawn s delta).ballRespawnTimer := by
    unfold missRespawn
    dsimp only
    rw [tickTimers_ballMissed, tickTimers_ballRespawnTimer, tickTimers_ballY, tickTimers_lives]
    split_ifs <;> simp
  simp [simulate, beforeCollisions, h1, h2]

/-- While the accumulated `delta` stays below the respawn time, an iteration without reset
keeps the ball in the missed state. -/
theorem tick_keeps_missed (s : State) (t : Nat) (delta : ℚ) (events : List Event) (c : ℚ)
    (hm : s.ballMissed = true) (htimer : s.ballRespawnTimer ≤ c) (hd : 0 < delta)
    (hr : Event.keyDown Key.r ∉ events) (hc : c + delta < 1) :
    (tick s t delta events).ballMissed = true ∧
    (tick s t delta events).ballRespawnTimer ≤ c + delta := by
  have hpm : (pollEvents s delta events).ballMissed = true := by
    rw [pollEvents_frame delta s events hr]
    exact hm
  have hpt : (pollEvents s delta events).ballRespawnTimer = s.ballRespawnTimer :=
    (pollEvents_fixed delta s events).1
  rcases tick_cases s t delta events with ⟨h0, _⟩ | ⟨_, _, h⟩ | ⟨_, _, h⟩
  · exact absurd hd (not_lt.mpr h0)
  · rw [h, hpm, hpt]
    exact ⟨rfl, by linarith⟩
  · obtain ⟨e1, e2⟩ := simulate_respawn_fields (pollEvents s delta events) t delta
    have hw : ¬ (pollEvents s delta events).ballRespawnTimer + delta ≥ ballRespawnTime := by
      rw [hpt]
      unfold ballRespawnTime
      intro hh
      linarith
    rw [h, e1, e2, missRespawn_wait _ delta hpm hw]
    refine ⟨hpm, ?_⟩
    show (pollEvents s delta events).ballRespawnTimer + delta ≤ c + delta
    rw [hpt]
    linarith

theorem ticks_cons (s : State) (x : Nat × ℚ × List Event) (rest : List (Nat × ℚ × List Event)) :
    ticks s (x :: rest) = ticks (tick s x.1 x.2.1 x.2.2) rest := rfl

theorem ticks_keep_missed (inputs : List (Nat × ℚ × List Event)) (s : State) (c : ℚ)
    (hm : s.ballMissed = true) (htimer : s.ballRespawnTimer ≤ c)
    (hin : ∀ x ∈ inputs, 0 < x.2.1 ∧ x.2.1 ≤ 2 / 100 ∧ Event.keyDown Key.r ∉ x.2.2)
    (hsum : c + (inputs.map (fun x => x.2.1)).sum < 1) :
    (ticks s inputs).ballMissed = true ∧
    (ticks s inputs).ballRespawnTimer ≤ c + (inputs.map (fun x => x.2.1)).sum := by
  induction inputs generalizing s c with
  | nil =>
    simp only [List.map_nil, List.sum_nil, add_zero]
    exact ⟨hm, htimer⟩
  | cons x rest ih =>
    rw [ticks_cons]
    simp only [List.map_cons, List.sum_cons] at hsum ⊢
    obtain ⟨hx1, _, hx3⟩ := hin x (List.mem_cons_self _ _)
    have hrest : ∀ y ∈ rest, 0 < y.2.1 ∧ y.2.1 ≤ 2 / 100 ∧ Event.keyDown Key.r ∉ y.2.2 :=
      fun y hy => hin y (List.mem_cons_of_mem _ hy)
    have hnn : 0 ≤ (rest.map (fun x => x.2.1)).sum := by
      apply List.sum_nonneg
      intro d hd
      obtain ⟨y, hy, rfl⟩ := List.mem_map.mp hd
      exact le_of_lt (hrest y hy).1
    obtain ⟨t1, t2⟩ := tick_keeps_missed s x.1 x.2.1 x.2.2 c hm htimer hx1 hx3 (by linarith)
    have := ih (tick s x.1 x.2.1 x.2.2) (c + x.2.1) t1 t2 hrest (by linarith)
    refine ⟨this.1, ?_⟩
    linarith [this.2]

/-- C16: the respawn transition. (1) With `ballMissed` true the miss / respawn statement adds
`delta` to the respawn timer; if the timer is then `>= 1.0` it sets `ballMissed` to false,
`ballX` to the current `paddleX`, `ballY` to 0.7, `ballSpeedX` to 0, `ballSpeedY` to
`ballSpeedStart / 2` and `ballSpeed` to `ballSpeedStart`; if it is still `< 1.0` the ball
position, the velocity, the speed budget and `lives` are unchanged and `ballMissed` stays
true; `lives` is unchanged in both cases. (2) An iteration that runs (`delta > 0`, not paused,
no `R` key press) from a state with `ballMissed` true ends with the timer advanced by
`delta`. (3) From a miss (`ballMissed` true, timer 0), after iterations with `0 < delta <=
0.02` and no `R` key press whose `delta`s add up to less than 1.0, `ballMissed` is still true:
the respawn has not occurred. -/
theorem respawn_transition :
    (∀ (s : State) (delta : ℚ), s.ballMissed = true →
      ((missRespawn s delta).ballRespawnTimer = s.ballRespawnTimer + delta ∧
       (missRespawn s delta).lives = s.lives ∧
       (s.ballRespawnTimer + delta ≥ 1 →
          ((missRespawn s delta).ballMissed = false ∧
           (missRespawn s delta).ballX = s.paddleX ∧
           (missRespawn s delta).ballY = 7 / 10 ∧
           (missRespawn s delta).ballSpeedX = 0 ∧
           (missRespawn s delta).ballSpeedY = ballSpeedStart / 2 ∧
           (missRespawn s delta).ballSpeed = ballSpeedStart)) ∧
       (s.ballRespawnTimer + delta < 1 →
          ((missRespawn s delta).ballMissed = true ∧
           (missRespawn s delta).ballX = s.ballX ∧
           (missRespawn s delta).ballY = s.ballY ∧
           (missRespawn s delta).ballSpeedX = s.ballSpeedX ∧
           (missRespawn s delta).ballSpeedY = s.ballSpeedY ∧
           (missRespawn s delta).ballSpeed = s.ballSpeed)))) ∧
    (∀ (s : State) (t : Nat) (delta : ℚ) (events : List Event), s.ballMissed = true →
      0 < delta → Event.keyDown Key.r ∉ events →
      (pollEvents s delta events).gamePaused = false →
      (tick s t delta events).ballRespawnTimer = s.ballRespawnTimer + delta) ∧
    (∀ (s : State) (inputs : List (Nat × ℚ × List Event)),
      s.ballMissed = true → s.ballRespawnTimer = 0 →
      (∀ x ∈ inputs, 0 < x.2.1 ∧ x.2.1 ≤ 2 / 100 ∧ Event.keyDown Key.r ∉ x.2.2) →
      (inputs.map (fun x => x.2.1)).sum < 1 →
      (ticks s inputs).ballMissed = true) := by
  refine ⟨?_, ?_, ?_⟩
  · intro s delta hm
    have hl : (missRespawn s delta).lives = s.lives := by
      rw [missRespawn_lives_eq, hm]
      simp
    by_cases ht : s.ballRespawnTimer + delta ≥ ballRespawnTime
    · rw [missRespawn_respawn s delta hm ht]
      refine ⟨rfl, rfl, fun _ => ⟨rfl, rfl, rfl, rfl, rfl, rfl⟩, ?_⟩
      intro hlt
      unfold ballRespawnTime at ht
      linarith
    · rw [missRespawn_wait s delta hm ht]
      refine ⟨rfl, rfl, ?_, fun _ => ⟨hm, rfl, rfl, rfl, rfl, rfl⟩⟩
      intro hge
      exact absurd hge ht
  · intro s t delta events hm hd hr hp
    have hpm : (pollEvents s delta events).ballMissed = true := by
      rw [pollEvents_frame delta s events hr]
      exact hm
    have hpt : (pollEvents s delta events).ballRespawnTimer = s.ballRespawnTimer :=
      (pollEvents_fixed delta s events).1
    rcases tick_cases s t delta events with ⟨h0, _⟩ | ⟨_, hp2, _⟩ | ⟨_, _, h⟩
    · exact absurd hd (not_lt.mpr h0)
    · rw [hp] at hp2
      exact absurd hp2 (by decide)
    · rw [h, (simulate_respawn_fields _ t delta).2]
      by_cases ht : (pollEvents s delta events).ballRespawnTimer + delta ≥ ballRespawnTime
      · rw [missRespawn_respawn _ delta hpm ht]
        show (pollEvents s delta events).ballRespawnTimer + delta = _
        rw [hpt]
      · rw [missRespawn_wait _ delta hpm ht]
        show (pollEvents s delta events).ballRespawnTimer + delta = _
        rw [hpt]
  · intro s inputs hm h0 hin hsum
    exact (ticks_keep_missed inputs s 0 hm (le_of_eq h0) hin (by linarith)).1

/-- Witness for C16: two iterations of 0.02 s after a miss do not respawn the ball. -/
theorem respawn_transition_witness :
    ({ resetGame (initState 0) with ballMissed := true } : State).ballMissed = true ∧
    (ticks { resetGame (initState 0) with ballMissed := true }
      [(20, 2 / 100, []), (40, 2 / 100, [Event.mouseMotion 4])]).ballMissed = true :=
  ⟨rfl,
   respawn_transition.2.2 { resetGame (initState 0) with ballMissed := true }
     [(20, 2 / 100, []), (40, 2 / 100, [Event.mouseMotion 4])] rfl rfl
     (by
       intro x hx
       simp only [List.mem_cons, List.mem_singleton, List.not_mem_nil, or_false] at hx
       rcases hx with rfl | rfl
       · refine ⟨by norm_num, by norm_num, by decide⟩
       · refine ⟨by norm_num, by norm_num, by decide⟩)
     (by norm_num)⟩

/-! ## C17: the speed bands of a brick hit -/

theorem speedBase_bounds (score : Int) : 1 ≤ speedBase score ∧ speedBase score ≤ 3 / 2 := by
  unfold speedBase BALL_SPEED_MULT_CAP
  refine ⟨le_min (le_max_left _ _) (by norm_num), ?_⟩
  refine le_trans (min_le_right _ _) (by norm_num)

/-- The speed and velocity a brick hit leaves: a speed-up to a value `v` above the old budget,
with the velocity rescaled and the vertical part flipped, or the old budget with the vertical
part flipped. -/
theorem brickHit_velocity_cases (s : State) (t i j : Nat) :
    (∃ v : ℚ, s.ballSpeed < v ∧ (brickHit s t i j).ballSpeed = v ∧
      (brickHit s t i j).ballSpeedY = s.ballSpeedY * (-v / s.ballSpeed) ∧
      (brickHit s t i j).ballSpeedX = s.ballSpeedX * (v / s.ballSpeed)) ∨
    ((brickHit s t i j).ballSpeed = s.ballSpeed ∧
      (brickHit s t i j).ballSpeedY = s.ballSpeedY * (-1) ∧
      (brickHit s t i j).ballSpeedX = s.ballSpeedX) := by
  unfold brickHit speedUpdate speedUp
  dsimp only
  split_ifs with h1 h2 h3
  · left; exact ⟨_, h1.2, rfl, rfl, rfl⟩
  · left; exact ⟨_, h2.2, rfl, rfl, rfl⟩
  · left; exact ⟨_, h3.2, rfl, rfl, rfl⟩
  · right; exact ⟨rfl, rfl, rfl⟩

/-- The speed budget after a brick hit, by row band. -/
theorem brickHit_ballSpeed_band (s : State) (t i j : Nat) :
    (brickHit s t i j).ballSpeed =
      if j < 4 then max s.ballSpeed (13 / 10 * speedBase s.score)
      else if j < 8 then max s.ballSpeed (11 / 10 * speedBase s.score)
      else if j < 16 then max s.ballSpeed (8 / 10 * speedBase s.score)
      else s.ballSpeed := by
  obtain ⟨hb, _⟩ := speedBase_bounds s.score
  have hspeed : (brickHit s t i j).ballSpeed =
      if j < 4 ∧ s.ballSpeed < 13 / 10 * speedBase s.score then 13 / 10 * speedBase s.score
      else if j < 8 ∧ s.ballSpeed < 11 / 10 * speedBase s.score then
        11 / 10 * speedBase s.score
      else if j < 16 ∧ s.ballSpeed < 8 / 10 * speedBase s.score then
        8 / 10 * speedBase s.score
      else s.ballSpeed := by
    unfold brickHit speedUpdate speedUp
    dsimp only
    split_ifs <;> rfl
  rw [hspeed]
  generalize speedBase s.score = b at hb
  by_cases j4 : j < 4
  · have j8 : j < 8 := by omega
    have j16 : j < 16 := by omega
    rw [if_pos j4]
    by_cases c1 : s.ballSpeed < 13 / 10 * b
    · rw [if_pos ⟨j4, c1⟩, max_eq_right (le_of_lt c1)]
    · have c2 : ¬ (j < 8 ∧ s.ballSpeed < 11 / 10 * b) := fun h => c1 (by linarith [h.2])
      have c3 : ¬ (j < 16 ∧ s.ballSpeed < 8 / 10 * b) := fun h => c1 (by linarith [h.2])
      rw [if_neg (fun h => c1 h.2), if_neg c2, if_neg c3, max_eq_left (not_lt.mp c1)]
  · rw [if_neg j4, if_neg (fun h => j4 h.1)]
    by_cases j8 : j < 8
    · rw [if_pos j8]
      by_cases c1 : s.ballSpeed < 11 / 10 * b
      · rw [if_pos ⟨j8, c1⟩, max_eq_right (le_of_lt c1)]
      · have c3 : ¬ (j < 16 ∧ s.ballSpeed < 8 / 10 * b) := fun h => c1 (by linarith [h.2])
        rw [if_neg (fun h => c1 h.2), if_neg c3, max_eq_left (not_lt.mp c1)]
    · rw [if_neg j8, if_neg (fun h => j8 h.1)]
      by_cases j16 : j < 16
      · rw [if_pos j16]
        by_cases c1 : s.ballSpeed < 8 / 10 * b
        · rw [if_pos ⟨j16, c1⟩, max_eq_right (le_of_lt c1)]
        · rw [if_neg (fun h => c1 h.2), max_eq_left (not_lt.mp c1)]
      · rw [if_neg j16, if_neg (fun h => j16 h.1)]

/-- The velocity after a brick hit, for a positive old speed budget: both parts are scaled by
new budget over old budget and the vertical part is negated. -/
theorem brickHit_rescale (s : State) (t i j : Nat) (hs : s.ballSpeed > 0) :
    s.ballSpeed ≤ (brickHit s t i j).ballSpeed ∧
    (brickHit s t i j).ballSpeedY
      = -s.ballSpeedY * ((brickHit s t i j).ballSpeed / s.ballSpeed) ∧
    (brickHit s t i j).ballSpeedX
      = s.ballSpeedX * ((brickHit s t i j).ballSpeed / s.ballSpeed) := by
  have hne : s.ballSpeed ≠ 0 := ne_of_gt hs
  rcases brickHit_velocity_cases s t i j with ⟨v, hv, h1, h2, h3⟩ | ⟨h1, h2, h3⟩
  · rw [h1, h2, h3]
    exact ⟨le_of_lt hv, by ring, rfl⟩
  · rw [h1, h2, h3, div_self hne]
    exact ⟨le_refl _, by ring, by ring⟩

/-- C17: for a brick hit in row `j` with old speed budget `s > 0` and baseline
`b = clamp(1 + (score - 1000) / 2000, 1.0, 1.5)`, the new budget `s'` is `max(s, 1.3 b)` for
rows 0..3, `max(s, 1.1 b)` for rows 4..7, `max(s, 0.8 b)` for rows 8..15 and `s` from row 16
on; the velocity is rescaled as `ballSpeedY' = -ballSpeedY * s'/s` and
`ballSpeedX' = ballSpeedX * s'/s`, so the vertical direction flips, the horizontal direction
is kept and the ratio `|vx| : |vy|` is unchanged. -/
theorem brickHit_speed_bands (s : State) (t i j : Nat) (hs : s.ballSpeed > 0) :
    (j ≤ 3 → (brickHit s t i j).ballSpeed = max s.ballSpeed
      (13 / 10 * min (max 1 (1 + ((s.score - 1000 : Int) : ℚ) / 2000)) (15 / 10))) ∧
    (4 ≤ j → j ≤ 7 → (brickHit s t i j).ballSpeed = max s.ballSpeed
      (11 / 10 * min (max 1 (1 + ((s.score - 1000 : Int) : ℚ) / 2000)) (15 / 10))) ∧
    (8 ≤ j → j ≤ 15 → (brickHit s t i j).ballSpeed = max s.ballSpeed
      (8 / 10 * min (max 1 (1 + ((s.score - 1000 : Int) : ℚ) / 2000)) (15 / 10))) ∧
    (16 ≤ j → (brickHit s t i j).ballSpeed = s.ballSpeed) ∧
    (brickHit s t i j).ballSpeedY
      = -s.ballSpeedY * ((brickHit s t i j).ballSpeed / s.ballSpeed) ∧
    (brickHit s t i j).ballSpeedX
      = s.ballSpeedX * ((brickHit s t i j).ballSpeed / s.ballSpeed) ∧
    (0 < s.ballSpeedY → (brickHit s t i j).ballSpeedY < 0) ∧
    (s.ballSpeedY < 0 → 0 < (brickHit s t i j).ballSpeedY) ∧
    (0 < s.ballSpeedX → 0 < (brickHit s t i j).ballSpeedX) ∧
    (s.ballSpeedX < 0 → (brickHit s t i j).ballSpeedX < 0) ∧
    (s.ballSpeedX = 0 → (brickHit s t i j).ballSpeedX = 0) ∧
    |(brickHit s t i j).ballSpeedX| * |s.ballSpeedY|
      = |s.ballSpeedX| * |(brickHit s t i j).ballSpeedY| := by
  have hband := brickHit_ballSpeed_band s t i j
  have hbase : speedBase s.score
      = min (max 1 (1 + ((s.score - 1000 : Int) : ℚ) / 2000)) (15 / 10) := rfl
  obtain ⟨hle, hy, hx⟩ := brickHit_rescale s t i j hs
  have hr : 0 < (brickHit s t i j).ballSpeed / s.ballSpeed := div_pos (lt_of_lt_of_le hs hle) hs
  refine ⟨?_, ?_, ?_, ?_, hy, hx, ?_, ?_, ?_, ?_, ?_, ?_⟩
  · intro h
    rw [hband, if_pos (by omega), hbase]
  · intro h1 h2
    rw [hband, if_neg (by omega), if_pos (by omega), hbase]
  · intro h1 h2
    rw [hband, if_neg (by omega), if_neg (by omega), if_pos (by omega), hbase]
  · intro h
    rw [hband, if_neg (by omega), if_neg (by omega), if_neg (by omega)]
  · intro h
    rw [hy]
    nlinarith [mul_pos h hr]
  · intro h
    rw [hy]
    nlinarith [mul_pos (neg_pos.mpr h) hr]
  · intro h
    rw [hx]
    exact mul_pos h hr
  · intro h
    rw [hx]
    nlinarith [mul_pos (neg_pos.mpr h) hr]
  · intro h
    rw [hx, h, zero_mul]
  · rw [hx, hy, abs_mul, abs_mul, abs_neg]
    ring

/-- Witness for C17: a hit in row 2 right after a reset gives the budget `max(0.5, 1.3 b)`. -/
theorem brickHit_speed_bands_witness :
    ((resetGame (initState 0)).ballSpeed > 0 ∧ 2 ≤ 3) ∧
    (brickHit (resetGame (initState 0)) 0 5 2).ballSpeed = max (resetGame (initState 0)).ballSpeed
      (13 / 10 * min (max 1 (1 + (((resetGame (initState 0)).score - 1000 : Int) : ℚ) / 2000))
        (15 / 10)) :=
  ⟨⟨by norm_num [resetGame, ballSpeedStart], by decide⟩,
   (brickHit_speed_bands (resetGame (initState 0)) 0 5 2
      (by norm_num [resetGame, ballSpeedStart])).1 (by decide)⟩

/-! ## C18: the speed budget bounds the velocity -/

theorem ballSpeedStart_eq : ballSpeedStart = 1 / 2 := by
  norm_num [ballSpeedStart]

theorem SpeedBounded.pos {s : State} (h : SpeedBounded s) : 0 < s.ballSpeed := by
  have h1 := h.1
  rw [ballSpeedStart_eq] at h1
  linarith

/-- The speed bound depends only on the speed budget and the velocity. -/
theorem speedBounded_congr (s s2 : State) (h1 : s2.ballSpeed = s.ballSpeed)
    (h2 : s2.ballSpeedX = s.ballSpeedX) (h3 : s2.ballSpeedY = s.ballSpeedY)
    (h : SpeedBounded s) : SpeedBounded s2 := by
  unfold SpeedBounded at *
  rw [h1, h2, h3]
  exact h

theorem stillOnlyBelow_congr (s s2 : State) (h3 : s2.ballSpeedY = s.ballSpeedY)
    (h4 : s2.ballY = s.ballY) (h : StillOnlyBelow s) : StillOnlyBelow s2 := by
  unfold StillOnlyBelow at *
  rw [h3, h4]
  exact h

theorem fresh_ball_speedBounded (s : State) (h1 : s.ballSpeed = ballSpeedStart)
    (h2 : s.ballSpeedX = 0) (h3 : s.ballSpeedY = ballSpeedStart / 2) : SpeedBounded s := by
  unfold SpeedBounded
  rw [h1, h2, h3, ballSpeedStart_eq]
  exact ⟨le_refl _, by norm_num [abs_of_pos]⟩

theorem fresh_ball_stillOnlyBelow (s : State) (h3 : s.ballSpeedY = ballSpeedStart / 2) :
    StillOnlyBelow s := by
  unfold StillOnlyBelow
  rw [h3, ballSpeedStart_eq]
  intro h
  norm_num at h

theorem missRespawn_speedBounded (s : State) (delta : ℚ) (h : SpeedBounded s) :
    SpeedBounded (missRespawn s delta) := by
  by_cases hm : s.ballMissed = true
  · by_cases ht : s.ballRespawnTimer + delta ≥ ballRespawnTime
    · rw [missRespawn_respawn s delta hm ht]
      exact fresh_ball_speedBounded _ rfl rfl rfl
    · rw [missRespawn_wait s delta hm ht]
      exact h
  · have hm2 : s.ballMissed = false := by simpa using hm
    by_cases hc : s.ballY > 1 ∧ s.lives > 0
    · rw [missRespawn_miss s delta hm2 hc.1 hc.2]
      refine ⟨h.1, ?_⟩
      show |(0 : ℚ)| + |(0 : ℚ)| ≤ s.ballSpeed
      rw [abs_zero, add_zero]
      exact le_of_lt h.pos
    · rw [missRespawn_idle s delta hm2 hc]
      exact h

theorem missRespawn_stillOnlyBelow (s : State) (delta : ℚ) (h : StillOnlyBelow s) :
    StillOnlyBelow (missRespawn s delta) := by
  by_cases hm : s.ballMissed = true
  · by_cases ht : s.ballRespawnTimer + delta ≥ ballRespawnTime
    · rw [missRespawn_respawn s delta hm ht]
      exact fresh_ball_stillOnlyBelow _ rfl
    · rw [missRespawn_wait s delta hm ht]
      exact h
  · have hm2 : s.ballMissed = false := by simpa using hm
    by_cases hc : s.ballY > 1 ∧ s.lives > 0
    · rw [missRespawn_miss s delta hm2 hc.1 hc.2]
      exact fun _ => hc.1
    · rw [missRespawn_idle s delta hm2 hc]
      exact h

theorem brickHit_speedBounded (s : State) (t i j : Nat) (h : SpeedBounded s) :
    SpeedBounded (brickHit s t i j) := by
  have hpos := h.pos
  obtain ⟨h1, h2⟩ := h
  unfold SpeedBounded
  rcases brickHit_velocity_cases s t i j with ⟨v, hv, e1, e2, e3⟩ | ⟨e1, e2, e3⟩
  · have hr : 0 < v / s.ballSpeed := div_pos (lt_trans hpos hv) hpos
    have hne : s.ballSpeed ≠ 0 := ne_of_gt hpos
    rw [e1, e2, e3]
    refine ⟨le_trans h1 (le_of_lt hv), ?_⟩
    have ey : |s.ballSpeedY * (-v / s.ballSpeed)| = |s.ballSpeedY| * (v / s.ballSpeed) := by
      rw [neg_div, mul_neg, abs_neg, abs_mul, abs_of_pos hr]
    have ex : |s.ballSpeedX * (v / s.ballSpeed)| = |s.ballSpeedX| * (v / s.ballSpeed) := by
      rw [abs_mul, abs_of_pos hr]
    rw [ey, ex, ← add_mul]
    calc (|s.ballSpeedX| + |s.ballSpeedY|) * (v / s.ballSpeed)
        ≤ s.ballSpeed * (v / s.ballSpeed) := mul_le_mul_of_nonneg_right h2 (le_of_lt hr)
      _ = v := by field_simp
  · rw [e1, e2, e3, mul_neg, mul_one, abs_neg]
    exact ⟨h1, h2⟩

theorem brickHit_stillOnlyBelow (s : State) (t i j : Nat) (hs : SpeedBounded s)
    (h : StillOnlyBelow s) : StillOnlyBelow (brickHit s t i j) := by
  have hpos := hs.pos
  unfold StillOnlyBelow
  rw [brickHit_ballY]
  intro h0
  apply h
  rcases brickHit_velocity_cases s t i j with ⟨v, hv, _, e2, _⟩ | ⟨_, e2, _⟩
  · have hr : 0 < v / s.ballSpeed := div_pos (lt_trans hpos hv) hpos
    have hq : -v / s.ballSpeed ≠ 0 := by
      rw [neg_div]
      exact neg_ne_zero.mpr (ne_of_gt hr)
    rw [e2] at h0
    rcases mul_eq_zero.mp h0 with h4 | h4
    · exact h4
    · exact absurd h4 hq
  · rw [e2] at h0
    linarith

theorem paddleCollisions_speedBounded (s : State) (t : Nat) (h : SpeedBounded s) :
    SpeedBounded (paddleCollisions s t) := by
  by_cases hp : paddleTest s
  · obtain ⟨e1, e2⟩ := paddleCollisions_velocity s t hp
    obtain ⟨_, _, _, b4⟩ := bouncePaddle_speed s (le_of_lt h.pos)
    unfold SpeedBounded
    rw [e1, e2, paddleCollisions_ballSpeed]
    exact ⟨h.1, le_of_eq b4⟩
  · have he : paddleCollisions s t = s := by
      unfold paddleCollisions
      rw [if_neg hp]
    rw [he]
    exact h

theorem paddleCollisions_stillOnlyBelow (s : State) (t : Nat) (hs : SpeedBounded s)
    (h : StillOnlyBelow s) : StillOnlyBelow (paddleCollisions s t) := by
  by_cases hp : paddleTest s
  · obtain ⟨_, e2⟩ := paddleCollisions_velocity s t hp
    obtain ⟨_, _, b3, _⟩ := bouncePaddle_speed s (le_of_lt hs.pos)
    have hpos := hs.pos
    unfold StillOnlyBelow
    rw [e2]
    intro h0
    rw [h0] at b3
    linarith
  · have he : paddleCollisions s t = s := by
      unfold paddleCollisions
      rw [if_neg hp]
    rw [he]
    exact h

theorem wallCollisions_abs (s : State) :
    |(wallCollisions s).ballSpeedX| = |s.ballSpeedX| ∧
    |(wallCollisions s).ballSpeedY| = |s.ballSpeedY| := by
  unfold wallCollisions
  dsimp only
  split_ifs <;> simp

theorem wallCollisions_speedBounded (s : State) (h : SpeedBounded s) :
    SpeedBounded (wallCollisions s) := by
  obtain ⟨a1, a2⟩ := wallCollisions_abs s
  unfold SpeedBounded
  rw [a1, a2, wallCollisions_ballSpeed]
  exact h

theorem wallCollisions_stillOnlyBelow (s : State) (h : StillOnlyBelow s) :
    StillOnlyBelow (wallCollisions s) := by
  obtain ⟨_, a2⟩ := wallCollisions_abs s
  unfold StillOnlyBelow
  rw [wallCollisions_ballY]
  intro h0
  apply h
  rw [h0, abs_zero] at a2
  exact abs_eq_zero.mp a2.symm

theorem moveBall_stillOnlyBelow (s : State) (delta : ℚ) (h : StillOnlyBelow s) :
    StillOnlyBelow (moveBall s delta) := by
  intro h0
  have hy : s.ballSpeedY = 0 := h0
  show s.ballY + s.ballSpeedY * delta > 1
  rw [hy, zero_mul, add_zero]
  exact h hy

theorem brickCollisions_ballInv (s : State) (t : Nat) (h : SpeedBounded s ∧ StillOnlyBelow s) :
    SpeedBounded (brickCollisions s t) ∧ StillOnlyBelow (brickCollisions s t) := by
  rcases brickCollisions_cases s t with h1 | ⟨i, j, _, _, _, _, _, h1⟩
  · rw [h1]; exact h
  · rw [h1]; exact ⟨brickHit_speedBounded s t i j h.1, brickHit_stillOnlyBelow s t i j h.1 h.2⟩

theorem beforeCollisions_ballInv (s : State) (delta : ℚ)
    (h : SpeedBounded s ∧ StillOnlyBelow s) :
    SpeedBounded (beforeCollisions s delta) ∧ StillOnlyBelow (beforeCollisions s delta) := by
  unfold beforeCollisions
  exact ⟨missRespawn_speedBounded _ delta
      (speedBounded_congr s (tickTimers s delta) (tickTimers_ballSpeed s delta)
        (tickTimers_ballSpeedX s delta) (tickTimers_ballSpeedY s delta) h.1),
    missRespawn_stillOnlyBelow _ delta
      (stillOnlyBelow_congr s (tickTimers s delta) (tickTimers_ballSpeedY s delta)
        (tickTimers_ballY s delta) h.2)⟩

theorem simulate_ballInv (s : State) (t : Nat) (delta : ℚ)
    (h : SpeedBounded s ∧ StillOnlyBelow s) :
    SpeedBounded (simulate s t delta) ∧ StillOnlyBelow (simulate s t delta) := by
  have h1 := brickCollisions_ballInv _ t (beforeCollisions_ballInv s delta h)
  have h2 : SpeedBounded (scoreDrain (brickCollisions (beforeCollisions s delta) t)) :=
    speedBounded_congr _ _ (scoreDrain_ballSpeed _) (scoreDrain_ballSpeedX _)
      (scoreDrain_ballSpeedY _) h1.1
  have h3 : StillOnlyBelow (scoreDrain (brickCollisions (beforeCollisions s delta) t)) :=
    stillOnlyBelow_congr _ _ (scoreDrain_ballSpeedY _) (scoreDrain_ballY _) h1.2
  have h4 := paddleCollisions_speedBounded _ t h2
  have h5 := paddleCollisions_stillOnlyBelow _ t h2 h3
  have h6 := wallCollisions_speedBounded _ h4
  have h7 := wallCollisions_stillOnlyBelow _ h5
  exact ⟨h6, moveBall_stillOnlyBelow _ delta h7⟩

theorem handleEvent_ballInv (delta : ℚ) (s : State) (e : Event)
    (h : SpeedBounded s ∧ StillOnlyBelow s) :
    SpeedBounded (handleEvent delta s e) ∧ StillOnlyBelow (handleEvent delta s e) := by
  by_cases he : e = Event.keyDown Key.r
  · rw [he]
    exact ⟨fresh_ball_speedBounded (resetGame s) rfl rfl rfl,
      fresh_ball_stillOnlyBelow (resetGame s) rfl⟩
  · rw [handleEvent_frame delta s e he]
    exact h

theorem pollEvents_ballInv (s : State) (delta : ℚ) (events : List Event)
    (h : SpeedBounded s ∧ StillOnlyBelow s) :
    SpeedBounded (pollEvents s delta events) ∧ StillOnlyBelow (pollEvents s delta events) :=
  pollEvents_induct delta (fun s1 => SpeedBounded s1 ∧ StillOnlyBelow s1) events
    (fun s1 e _ h1 => handleEvent_ballInv delta s1 e h1) s h

theorem tick_ballInv (s : State) (t : Nat) (delta : ℚ) (events : List Event)
    (h : SpeedBounded s ∧ StillOnlyBelow s) :
    SpeedBounded (tick s t delta events) ∧ StillOnlyBelow (tick s t delta events) := by
  have hp := pollEvents_ballInv s delta events h
  rcases tick_cases s t delta events with ⟨_, h1⟩ | ⟨_, _, h1⟩ | ⟨_, _, h1⟩
  · rw [h1]; exact h
  · rw [h1]; exact hp
  · rw [h1]; exact simulate_ballInv _ t delta hp

theorem reachable_ballInv (s : State) (h : Reachable s) :
    SpeedBounded s ∧ StillOnlyBelow s := by
  induction h with
  | reset s0 =>
    exact ⟨fresh_ball_speedBounded (resetGame s0) rfl rfl rfl,
      fresh_ball_stillOnlyBelow (resetGame s0) rfl⟩
  | step s0 t delta events _ ih => exact tick_ballInv s0 t delta events ih

/-- C18: in every state of a game the speed budget bounds the ball speed:
`ballSpeed >= ballSpeedStart > 0` and `|ballSpeedX| + |ballSpeedY| <= ballSpeed`; the bound is
kept by `resetGame`, by the miss / respawn statement (miss, respawn), by a brick hit, by the
paddle block and by the wall block; and after a paddle hit it holds with equality. -/
theorem speed_budget_bounds_velocity :
    (∀ s : State, Reachable s →
      (ballSpeedStart ≤ s.ballSpeed ∧ 0 < ballSpeedStart ∧
       |s.ballSpeedX| + |s.ballSpeedY| ≤ s.ballSpeed)) ∧
    (∀ s : State, SpeedBounded (resetGame s)) ∧
    (∀ (s : State) (delta : ℚ), SpeedBounded s → SpeedBounded (missRespawn s delta)) ∧
    (∀ (s : State) (t i j : Nat), SpeedBounded s → SpeedBounded (brickHit s t i j)) ∧
    (∀ (s : State) (t : Nat), SpeedBounded s → SpeedBounded (paddleCollisions s t)) ∧
    (∀ s : State, SpeedBounded s → SpeedBounded (wallCollisions s)) ∧
    (∀ (s : State) (t : Nat), SpeedBounded s → paddleTest s →
      |(paddleCollisions s t).ballSpeedX| + |(paddleCollisions s t).ballSpeedY|
        = (paddleCollisions s t).ballSpeed) := by
  refine ⟨?_, fun s => fresh_ball_speedBounded (resetGame s) rfl rfl rfl,
    missRespawn_speedBounded, brickHit_speedBounded, paddleCollisions_speedBounded,
    wallCollisions_speedBounded, ?_⟩
  · intro s hr
    obtain ⟨h1, h2⟩ := (reachable_ballInv s hr).1
    exact ⟨h1, by rw [ballSpeedStart_eq]; norm_num, h2⟩
  · intro s t hs hp
    obtain ⟨e1, e2⟩ := paddleCollisions_velocity s t hp
    obtain ⟨_, _, _, b4⟩ := bouncePaddle_speed s (le_of_lt hs.pos)
    rw [e1, e2, paddleCollisions_ballSpeed, b4]

/-! ## C20: a ball without vertical velocity lies below the field -/

/-- A ball below the field is out of the vertical reach of every brick row. -/
theorem brick_rows_far_below (s : State) (j : Nat) (hy : s.ballY > 1) (hj : j < 21) :
    ¬ |s.ballY - brickCenterY j|
        ≤ (ballSize + 1 / ((bricksHeight : ℚ) + (heightPadding : ℚ))) / 2 := by
  intro h
  have h2 := (abs_le.mp h).2
  have hjq : (j : ℚ) ≤ 20 := by exact_mod_cast (by omega : j ≤ 20)
  have hc : brickCenterY j ≤ 215 / 360 := by
    unfold brickCenterY
    norm_num [bricksHeight, heightPadding]
    linarith
  have hr : (ballSize + 1 / ((bricksHeight : ℚ) + (heightPadding : ℚ))) / 2 = 1 / 45 := by
    norm_num [ballSize, paddleHeight, bricksHeight, heightPadding]
  rw [hr] at h2
  linarith

theorem hitTest_below (s : State) (i j : Nat) (hy : s.ballY > 1) (hj : j < 21) :
    ¬ hitTest s i j := by
  unfold hitTest
  intro h
  exact brick_rows_far_below s j hy hj h.2.1

/-- C20: in every state of a game (iterations with any `delta`, so also `0 < delta <= 0.02`)
`ballSpeedY = 0` only if `ballY > 1.0`, so a ball inside the field has a non-zero vertical
velocity; a ball at `ballY > 1.0` passes the hit test of no brick of rows 0..20 and is not in
contact with the paddle; and in the state on which the brick scan of an iteration runs,
whenever the vertical distance test of a brick of rows 0..20 holds (the test evaluated before
the direction test `ballSpeedY / |ballSpeedY|`), `ballSpeedY` is not 0. -/
theorem still_ball_only_below :
    (∀ s : State, Reachable s →
      ((s.ballSpeedY = 0 → s.ballY > 1) ∧ (s.ballY ≤ 1 → s.ballSpeedY ≠ 0))) ∧
    (∀ s : State, s.ballY > 1 → ((∀ i j, j < 21 → ¬ hitTest s i j) ∧ ¬ paddleTest s)) ∧
    (∀ (s : State) (delta : ℚ) (events : List Event), Reachable s →
      0 < delta → delta ≤ 2 / 100 →
      ∀ j, j < 21 →
        |(beforeCollisions (pollEvents s delta events) delta).ballY - brickCenterY j|
          ≤ (ballSize + 1 / ((bricksHeight : ℚ) + (heightPadding : ℚ))) / 2 →
        (beforeCollisions (pollEvents s delta events) delta).ballSpeedY ≠ 0) := by
  refine ⟨?_, ?_, ?_⟩
  · intro s hr
    have h := (reachable_ballInv s hr).2
    refine ⟨h, ?_⟩
    intro hy h0
    exact absurd (h h0) (not_lt.mpr hy)
  · intro s hy
    exact ⟨fun i j hj => hitTest_below s i j hy hj, paddleTest_below s hy⟩
  · intro s delta events hr _ _ j hj hdist h0
    have h := (beforeCollisions_ballInv _ delta
      (pollEvents_ballInv s delta events (reachable_ballInv s hr))).2
    exact brick_rows_far_below _ j (h h0) hj hdist

/-! ## C19: line descent continues the stripes -/

/-- The injected row of descent number `k` is alive exactly when the reset rule makes row
`-(k + 1)` alive. -/
theorem newRowValue_stripe (k : Nat) :
    (newRowValue (k : Int) = 1 ↔ (-(k : Int) - 1) % 8 < 4) ∧
    (newRowValue (k : Int) = 1 ∨ newRowValue (k : Int) = 0) := by
  unfold newRowValue
  have he : Int.tmod (k : Int) 8 = (k : Int) % 8 :=
    Int.tmod_eq_emod (Int.ofNat_nonneg k) (by decide)
  rw [he]
  by_cases h : (k : Int) % 8 > 3
  · rw [if_pos h]
    refine ⟨⟨fun _ => by omega, fun _ => rfl⟩, Or.inl rfl⟩
  · rw [if_neg h]
    refine ⟨⟨fun h1 => absurd h1 (by decide), fun h1 => by omega⟩, Or.inr rfl⟩

/-- C19: line descent continues the reset stripe pattern. Starting from the grid produced by
`resetGame` (line counter 0), after `N` line descents with nothing else in between, for every
`N`, every column below 13 and every row `r` in 0..20, the cell is 1 if and only if
`(r - N) mod 8 < 4` (Euclidean remainder) and is 0 otherwise; and the row injected by the
descent with line counter `k` (`k % 8 > 3`) is alive exactly when the reset rule
`row % 8 < 4` makes row `-(k + 1)` alive. -/
theorem descent_continues_stripes (s : State) (times : List Nat) (i r : Nat)
    (hi : i < 13) (hr : r ≤ 20) :
    ((lineSteps (resetGame s) times).brickStates.cell i r = 1 ↔
      ((r : Int) - (times.length : Int)) % 8 < 4) ∧
    ((lineSteps (resetGame s) times).brickStates.cell i r = 1 ∨
      (lineSteps (resetGame s) times).brickStates.cell i r = 0) ∧
    (∀ k : Nat, (Int.tmod (k : Int) 8 > 3 ↔ (-(k : Int) - 1) % 8 < 4)) := by
  have hcell := lineSteps_cell (resetGame s) times i r hi hr
  have hlc : (resetGame s).lineCounter = 0 := rfl
  rw [hlc] at hcell
  refine ⟨?_, ?_, ?_⟩
  · rw [hcell]
    by_cases hN : times.length ≤ r
    · rw [if_pos hN, resetGame_cell, if_pos ⟨hi, by omega⟩]
      by_cases h4 : (r - times.length) % 8 < 4
      · rw [if_pos h4]
        exact ⟨fun _ => by omega, fun _ => rfl⟩
      · rw [if_neg h4]
        exact ⟨fun h1 => absurd h1 (by decide), fun h1 => by omega⟩
    · rw [if_neg hN]
      have hk : (0 : Int) + (times.length : Int) - 1 - (r : Int)
          = ((times.length - 1 - r : Nat) : Int) := by omega
      rw [hk, (newRowValue_stripe (times.length - 1 - r)).1]
      constructor <;> intro h <;> omega
  · rw [hcell]
    by_cases hN : times.length ≤ r
    · rw [if_pos hN, resetGame_cell, if_pos ⟨hi, by omega⟩]
      by_cases h4 : (r - times.length) % 8 < 4
      · rw [if_pos h4]; exact Or.inl rfl
      · rw [if_neg h4]; exact Or.inr rfl
    · rw [if_neg hN]
      have hk : (0 : Int) + (times.length : Int) - 1 - (r : Int)
          = ((times.length - 1 - r : Nat) : Int) := by omega
      rw [hk]
      exact (newRowValue_stripe (times.length - 1 - r)).2
  · intro k
    have he : Int.tmod (k : Int) 8 = (k : Int) % 8 :=
      Int.tmod_eq_emod (Int.ofNat_nonneg k) (by decide)
    rw [he]
    constructor <;> intro h <;> omega

/-- Witness for C19: five descents from the reset grid, column 3, row 0. -/
theorem descent_continues_stripes_witness :
    (3 < 13 ∧ 0 ≤ 20) ∧
    ((lineSteps (resetGame (initState 0)) [10, 20, 30, 40, 50]).brickStates.cell 3 0 = 1 ↔
      (((0 : Nat) : Int) - (([10, 20, 30, 40, 50] : List Nat).length : Int)) % 8 < 4) :=
  ⟨by decide,
   (descent_continues_stripes (initState 0) [10, 20, 30, 40, 50] 3 0
     (by decide) (by decide)).1⟩

/-! ## Iterations on a quiet field, for the example states -/

/-- A ball lower than `y = 0.62` is out of the vertical reach of every brick row. -/
theorem hitTest_out_of_reach (s : State) (i j : Nat) (hy : s.ballY > 62 / 100) (hj : j < 21) :
    ¬ hitTest s i j := by
  unfold hitTest
  intro h
  have h2 := (abs_le.mp h.2.1).2
  have hjq : (j : ℚ) ≤ 20 := by exact_mod_cast (by omega : j ≤ 20)
  have hc : brickCenterY j ≤ 215 / 360 := by
    unfold brickCenterY
    norm_num [bricksHeight, heightPadding]
    linarith
  have hr : (ballSize + 1 / ((bricksHeight : ℚ) + (heightPadding : ℚ))) / 2 = 1 / 45 := by
    norm_num [ballSize, paddleHeight, bricksHeight, heightPadding]
  rw [hr] at h2
  linarith

/-- The wall block does nothing for a ball away from the side walls and the top wall. -/
theorem wallCollisions_inside (s : State) (hx1 : 1 / 10 < s.ballX) (hx2 : s.ballX < 9 / 10)
    (hy : s.ballY > 62 / 100) : wallCollisions s = s := by
  have h1 : ¬ s.ballX ≤ 1 / ((bricksWidth : ℚ) + (widthPadding : ℚ)) + ballSize / 2 := by
    norm_num [ballSize, paddleHeight, bricksWidth, bricksHeight, widthPadding, heightPadding]
    linarith
  have h2 : ¬ s.ballX ≥ ((bricksWidth : ℚ) + (widthPadding : ℚ) - 1) /
      ((bricksWidth : ℚ) + (widthPadding : ℚ)) - ballSize / 2 := by
    norm_num [ballSize, paddleHeight, bricksWidth, bricksHeight, widthPadding, heightPadding]
    linarith
  have h3 : ¬ s.ballY ≤ 1 / ((bricksHeight : ℚ) + (heightPadding : ℚ)) + ballSize / 2 := by
    norm_num [ballSize, paddleHeight, bricksHeight, heightPadding]
    linarith
  unfold wallCollisions
  dsimp only
  rw [if_neg h1, if_neg h2, if_neg h3]

/-- An iteration without events on a running game with the ball in the lower part of the
field, away from the walls, and nothing to drain: the brick scan, the drain and the wall block
do nothing, so the iteration is the paddle block followed by the move of the ball. -/
theorem tick_quiet (s : State) (t : Nat) (delta : ℚ) (hd : 0 < delta)
    (hp : s.gamePaused = false) (hm : s.ballMissed = false) (hy1 : s.ballY ≤ 1)
    (hy2 : s.ballY > 62 / 100) (hq : s.scoreQueue = 0) (hqt : s.scoreQueueTimer ≤ 0)
    (hx1 : 1 / 10 < s.ballX) (hx2 : s.ballX < 9 / 10) :
    beforePaddle s t delta = s ∧
    tick s t delta [] = { moveBall (paddleCollisions s t) delta with prevTime := t } := by
  have hb : beforeCollisions s delta = s := by
    have ht : tickTimers s delta = s := by
      unfold tickTimers
      rw [if_neg (not_lt.mpr hqt)]
    unfold beforeCollisions
    rw [ht, missRespawn_idle s delta hm (fun h => absurd h.1 (not_lt.mpr hy1))]
  have hbc : brickCollisions s t = s :=
    brickCollisions_none s t (fun i j _ hj hl => hitTest_out_of_reach s i j hy2 hj hl.2)
  have hsd : scoreDrain s = s := by
    unfold scoreDrain
    rw [if_neg]
    rw [hq]
    intro h
    exact absurd h.1 (lt_irrefl 0)
  have hbp : beforePaddle s t delta = s := by
    unfold beforePaddle
    rw [hb, hbc, hsd]
  have hw : wallCollisions (paddleCollisions s t) = paddleCollisions s t :=
    wallCollisions_inside _ (by rw [paddleCollisions_ballX]; exact hx1)
      (by rw [paddleCollisions_ballX]; exact hx2) (by rw [paddleCollisions_ballY]; exact hy2)
  refine ⟨hbp, ?_⟩
  unfold tick
  rw [if_neg (not_le.mpr hd)]
  dsimp only
  rw [pollEvents_nil, if_neg (by rw [hp]; decide)]
  unfold simulate
  dsimp only
  rw [hb, hbc, hsd, hw]

/-- A counted paddle hit that is not due for a descent. -/
theorem paddleCollisions_hit_noline (q : State) (t : Nat) (hp : paddleTest q)
    (hc : ((t : ℚ) - q.lastPaddleHitTime) / 1000 > lineCooldown)
    (hl : ¬ lineDue (q.paddleHitCounter + 1)) :
    paddleCollisions q t =
      { bouncePaddle q with
        paddleHitCounter := q.paddleHitCounter + 1, lastPaddleHitTime := (t : ℚ) } := by
  unfold paddleCollisions
  dsimp only
  rw [if_pos hp, countPaddleHit_pos (bouncePaddle q) t hc]
  split_ifs with h
  · exact absurd h.2 hl
  · rfl

/-- A counted paddle hit that is due for a descent, with the line cooldown over. -/
theorem paddleCollisions_hit_line (q : State) (t : Nat) (hp : paddleTest q)
    (hc : ((t : ℚ) - q.lastPaddleHitTime) / 1000 > lineCooldown)
    (hline : ((t : ℚ) - q.lastLineTime) / 1000 > lineCooldown)
    (hl : lineDue (q.paddleHitCounter + 1)) :
    paddleCollisions q t =
      lineStep { bouncePaddle q with
        paddleHitCounter := q.paddleHitCounter + 1, lastPaddleHitTime := (t : ℚ) } t := by
  unfold paddleCollisions
  dsimp only
  rw [if_pos hp, countPaddleHit_pos (bouncePaddle q) t hc]
  split_ifs with h
  · rfl
  · exact absurd ⟨hline, hl⟩ h

/-- The velocity after a hit right of the paddle centre and close to it, at the start speed. -/
theorem bouncePaddle_near_centre (s : State) (hx : s.paddleX ≤ s.ballX)
    (hn : s.ballX - s.paddleX ≤ 3 / 100) (hw : s.paddleWidth = paddleWidthStart)
    (hs : s.ballSpeed = 1 / 2) :
    (bouncePaddle s).ballSpeedX = 3 / 20 ∧ (bouncePaddle s).ballSpeedY = -(7 / 20) := by
  have hfrac : max (min (|s.ballX - s.paddleX| / s.paddleWidth) (8 / 10)) (3 / 10)
      = 3 / 10 := by
    rw [hw, paddleWidthStart_eq, abs_of_nonneg (by linarith)]
    have h1 : (s.ballX - s.paddleX) / (1 / 10) ≤ 3 / 10 := by
      have e : (s.ballX - s.paddleX) / (1 / 10) = (s.ballX - s.paddleX) * 10 := by ring
      rw [e]
      linarith
    rw [min_eq_left (by linarith), max_eq_right h1]
  have hvx : (bouncePaddle s).ballSpeedX = 3 / 20 := by
    rw [bouncePaddle_ballSpeedX, if_neg (not_lt.mpr hx), hfrac, hs]
    norm_num
  refine ⟨hvx, ?_⟩
  rw [bouncePaddle_ballSpeedY, hvx, hs]
  norm_num [abs_of_pos]

theorem resetState_not_on_paddle : ¬ paddleTest (resetGame (initState 0)) := by
  unfold paddleTest
  intro h
  have h2 := (abs_le.mp h.2).1
  norm_num [resetGame, paddleCenterY, paddleHeight, ballSize, bricksHeight, widthPadding,
    heightPadding] at h2

/-- An iteration without events from the reset state only moves the ball. -/
theorem resetState_tick (t : Nat) (delta : ℚ) (hd : 0 < delta) :
    tick (resetGame (initState 0)) t delta [] =
      { moveBall (resetGame (initState 0)) delta with prevTime := t } := by
  have h := (tick_quiet (resetGame (initState 0)) t delta hd rfl rfl
    (by norm_num [resetGame]) (by norm_num [resetGame]) rfl (le_refl _)
    (by norm_num [resetGame]) (by norm_num [resetGame])).2
  have hp : paddleCollisions (resetGame (initState 0)) t = resetGame (initState 0) := by
    unfold paddleCollisions
    rw [if_neg resetState_not_on_paddle]
  rw [h, hp]

theorem belowFieldState_eq :
    belowFieldState = { moveBall (resetGame (initState 0)) 2 with prevTime := 20 } :=
  resetState_tick 20 2 (by norm_num)

theorem belowFieldState_reachable : Reachable belowFieldState :=
  Reachable.step _ 20 2 [] (Reachable.reset (initState 0))

theorem belowFieldState_fields :
    belowFieldState.ballMissed = false ∧ belowFieldState.ballY = 6 / 5 ∧
    belowFieldState.lives = 5 ∧ belowFieldState.gamePaused = false := by
  rw [belowFieldState_eq]
  refine ⟨rfl, ?_, rfl, rfl⟩
  show (7 / 10 : ℚ) + ballSpeedStart / 2 * 2 = 6 / 5
  norm_num [ballSpeedStart]

theorem missedState_eq : missedState = simulate belowFieldState 40 (2 / 100) := by
  unfold missedState tick
  rw [if_neg (by norm_num)]
  dsimp only
  rw [pollEvents_nil, if_neg (by rw [belowFieldState_fields.2.2.2]; decide)]

theorem missedState_reachable : Reachable missedState :=
  Reachable.step _ 40 (2 / 100) [] belowFieldState_reachable

/-- The miss is taken: a life is lost and the ball waits below the field without moving. -/
theorem missedState_pending : MissPending missedState ∧ missedState.lives = 4 := by
  obtain ⟨hm, hy, hl, _⟩ := belowFieldState_fields
  obtain ⟨h1, h2⟩ := simulate_miss_pending belowFieldState 40 (2 / 100) hm
    (by rw [hy]; norm_num) (by rw [hl]; decide)
  rw [missedState_eq]
  refine ⟨h1, ?_⟩
  rw [h2, hl]
  rfl

theorem onPaddleState_eq :
    onPaddleState = { moveBall (resetGame (initState 0)) (53 / 90) with prevTime := 20 } :=
  resetState_tick 20 (53 / 90) (by norm_num)

theorem onPaddleState_reachable : Reachable onPaddleState :=
  Reachable.step _ 20 (53 / 90) [] (Reachable.reset (initState 0))

theorem onPaddleState_run : OnPaddleRun 0 onPaddleState := by
  rw [onPaddleState_eq]
  unfold OnPaddleRun
  refine ⟨rfl, rfl, rfl, le_refl _, ?_, rfl, ?_, rfl, rfl, rfl, ?_, ?_, ?_, ?_, ?_⟩
  · show (5 / 10 : ℚ) = 1 / 2
    norm_num
  · show ballSpeedStart = 1 / 2
    norm_num [ballSpeedStart]
  · show (0 : ℚ) ≤ 800 + 200 * ((0 : Nat) : ℚ)
    norm_num
  · show (1 / 2 : ℚ) ≤ 5 / 10 + 0 * (53 / 90)
    norm_num
  · show (5 / 10 : ℚ) + 0 * (53 / 90) ≤ 1 / 2 + ((0 : Nat) : ℚ) * (3 / 20000)
    norm_num
  · show 61 / 72 - ((0 : Nat) : ℚ) * (7 / 20000) ≤ (7 / 10 : ℚ) + ballSpeedStart / 2 * (53 / 90)
    norm_num [ballSpeedStart]
  · show (7 / 10 : ℚ) + ballSpeedStart / 2 * (53 / 90) ≤ 61 / 72
    norm_num [ballSpeedStart]

/-- With at most 8 hits counted in the run, the ball is in contact with the paddle, in the
lower part of the field and away from the walls. -/
theorem OnPaddleRun.contact {n : Nat} {s : State} (h : OnPaddleRun n s) (hn : n ≤ 8) :
    paddleTest s ∧ s.ballY ≤ 1 ∧ s.ballY > 62 / 100 ∧ 1 / 10 < s.ballX ∧ s.ballX < 9 / 10 ∧
    s.paddleX ≤ s.ballX ∧ s.ballX - s.paddleX ≤ 3 / 100 := by
  obtain ⟨_, _, _, _, hpx, hpw, _, _, _, _, _, hx1, hx2, hy1, hy2⟩ := h
  have hnq : (n : ℚ) ≤ 8 := by exact_mod_cast hn
  have hn0 : (0 : ℚ) ≤ (n : ℚ) := Nat.cast_nonneg n
  refine ⟨?_, by linarith, by linarith, by linarith, by linarith, by linarith, by linarith⟩
  unfold paddleTest
  rw [hpx, hpw, paddleWidthStart_eq]
  constructor
  · rw [abs_le]
    norm_num [ballSize, paddleHeight, bricksHeight, heightPadding]
    constructor <;> linarith
  · rw [abs_le]
    norm_num [paddleCenterY, ballSize, paddleHeight, bricksHeight, widthPadding, heightPadding]
    constructor <;> linarith

theorem OnPaddleRun.cooldown {n : Nat} {s : State} (h : OnPaddleRun n s) :
    (((1000 + 200 * n : Nat) : ℚ) - s.lastPaddleHitTime) / 1000 > lineCooldown := by
  have hl := h.2.2.2.2.2.2.2.2.2.2.1
  unfold lineCooldown
  push_cast
  linarith

/-- The iteration of the run on a state with `n <= 8` hits counted, as an equation. -/
theorem OnPaddleRun.tick_eq {n : Nat} {s : State} (h : OnPaddleRun n s) (hn : n ≤ 8) :
    tick s (1000 + 200 * n) (1 / 1000) [] =
      { moveBall (paddleCollisions s (1000 + 200 * n)) (1 / 1000) with
        prevTime := 1000 + 200 * n } := by
  obtain ⟨_, hy1, hy2, hx1, hx2, _, _⟩ := h.contact hn
  exact (tick_quiet s (1000 + 200 * n) (1 / 1000) (by norm_num) h.1 h.2.1 hy1 hy2 h.2.2.1
    h.2.2.2.1 hx1 hx2).2

/-- One iteration of the run counts one more hit and leaves the ball on the paddle. -/
theorem hitRun_step (n : Nat) (s : State) (h : OnPaddleRun n s) (hn : n ≤ 7) :
    OnPaddleRun (n + 1) (tick s (1000 + 200 * n) (1 / 1000) []) := by
  obtain ⟨hpt, _, _, _, _, hc1, hc2⟩ := h.contact (by omega)
  have hcool := h.cooldown
  have htick := h.tick_eq (by omega)
  obtain ⟨g1, g2, g3, g4, g5, g6, g7, g8, g9, g10, g11, g12, g13, g14, g15⟩ := h
  have hl : ¬ lineDue (s.paddleHitCounter + 1) := by
    rw [g10]
    unfold lineDue
    omega
  obtain ⟨hvx, hvy⟩ := bouncePaddle_near_centre s hc1 hc2 g6 g7
  rw [htick, paddleCollisions_hit_noline s _ hpt hcool hl]
  unfold OnPaddleRun
  refine ⟨g1, g2, g3, g4, g5, g6, g7, g8, g9, ?_, ?_, ?_, ?_, ?_, ?_⟩
  · show s.paddleHitCounter + 1 = ((n + 1 : Nat) : Int)
    rw [g10]
    push_cast
    rfl
  · show ((1000 + 200 * n : Nat) : ℚ) ≤ 800 + 200 * ((n + 1 : Nat) : ℚ)
    push_cast
    linarith
  · show 1 / 2 ≤ s.ballX + (bouncePaddle s).ballSpeedX * (1 / 1000)
    rw [hvx]
    linarith
  · show s.ballX + (bouncePaddle s).ballSpeedX * (1 / 1000)
      ≤ 1 / 2 + ((n + 1 : Nat) : ℚ) * (3 / 20000)
    rw [hvx]
    push_cast
    linarith
  · show 61 / 72 - ((n + 1 : Nat) : ℚ) * (7 / 20000)
      ≤ s.ballY + (bouncePaddle s).ballSpeedY * (1 / 1000)
    rw [hvy]
    push_cast
    linarith
  · show s.ballY + (bouncePaddle s).ballSpeedY * (1 / 1000) ≤ 61 / 72
    rw [hvy]
    linarith

theorem hitRun_succ (n : Nat) :
    hitRun (n + 1) = tick (hitRun n) (1000 + 200 * n) (1 / 1000) [] := rfl

theorem hitRun_run (n : Nat) (hn : n ≤ 8) : OnPaddleRun n (hitRun n) := by
  induction n with
  | zero => exact onPaddleState_run
  | succ n ih =>
    rw [hitRun_succ]
    exact hitRun_step n (hitRun n) (ih (by omega)) (by omega)

theorem hitRun_reachable (n : Nat) : Reachable (hitRun n) := by
  induction n with
  | zero => exact onPaddleState_reachable
  | succ n ih =>
    rw [hitRun_succ]
    exact Reachable.step _ _ _ _ ih

/-- The iteration of the run on a state with 8 hits counted counts the ninth hit and makes
the first descent. -/
theorem OnPaddleRun.ninth {s : State} (h : OnPaddleRun 8 s) :
    (tick s (1000 + 200 * 8) (1 / 1000) []).paddleHitCounter = 9 ∧
    (tick s (1000 + 200 * 8) (1 / 1000) []).lineCounter = 1 := by
  obtain ⟨hpt, _, _, _, _, _, _⟩ := h.contact (le_refl 8)
  have hcool := h.cooldown
  have htick := h.tick_eq (le_refl 8)
  have hc8 : s.paddleHitCounter = 8 := h.2.2.2.2.2.2.2.2.2.1
  have hlc : s.lineCounter = 0 := h.2.2.2.2.2.2.2.1
  have hlt : s.lastLineTime = 0 := h.2.2.2.2.2.2.2.2.1
  have hline : (((1000 + 200 * 8 : Nat) : ℚ) - s.lastLineTime) / 1000 > lineCooldown := by
    rw [hlt]
    norm_num [lineCooldown]
  have hdue : lineDue (s.paddleHitCounter + 1) := by
    rw [hc8]
    left
    rfl
  rw [htick, paddleCollisions_hit_line s _ hpt hcool hline hdue]
  constructor
  · show (lineStep _ (1000 + 200 * 8)).paddleHitCounter = 9
    rw [lineStep_paddleHitCounter]
    show s.paddleHitCounter + 1 = 9
    rw [hc8]
    rfl
  · show (lineStep _ (1000 + 200 * 8)).lineCounter = 1
    rw [lineStep_lineCounter]
    show s.lineCounter + 1 = 1
    rw [hlc]
    rfl

/-- The ninth iteration of the run counts the ninth hit and makes the first descent. -/
theorem hitRun_nine : (hitRun 9).paddleHitCounter = 9 ∧ (hitRun 9).lineCounter = 1 :=
  (hitRun_run 8 (le_refl 8)).ninth

theorem line99State_tick :
    (tick line99State 1000 (2 / 100) []).paddleWidth = paddleWidthStart * (85 / 100) ∧
    (tick line99State 1000 (2 / 100) []).lineCounter = 100 := by
  have hpt : paddleTest line99State := by
    unfold paddleTest
    norm_num [line99State, resetGame, paddleCenterY, paddleHeight, ballSize,
      paddleWidthStart, bricksWidth, bricksHeight, widthPadding, heightPadding]
  have htick := (tick_quiet line99State 1000 (2 / 100) (by norm_num) rfl rfl
    (by norm_num [line99State, resetGame]) (by norm_num [line99State, resetGame]) rfl
    (le_refl _) (by norm_num [line99State, resetGame])
    (by norm_num [line99State, resetGame])).2
  have hcool : (((1000 : Nat) : ℚ) - line99State.lastPaddleHitTime) / 1000 > lineCooldown := by
    norm_num [line99State, resetGame, initState, lineCooldown]
  have hline : (((1000 : Nat) : ℚ) - line99State.lastLineTime) / 1000 > lineCooldown := by
    norm_num [line99State, resetGame, initState, lineCooldown]
  have hdue : lineDue (line99State.paddleHitCounter + 1) := by
    unfold lineDue
    right; right; right; right; right; right
    exact ⟨by decide, by decide⟩
  rw [htick, paddleCollisions_hit_line line99State 1000 hpt hcool hline hdue]
  constructor
  · show (lineStep _ 1000).paddleWidth = _
    rw [lineStep_widthAtLine _ 1000 (by
      show paddleWidthStart = widthAtLine 99
      unfold widthAtLine
      norm_num)]
    show widthAtLine (99 + 1) = _
    unfold widthAtLine
    norm_num
  · show (lineStep _ 1000).lineCounter = 100
    rw [lineStep_lineCounter]
    rfl

/-! ## C11: the velocity after a paddle hit of a game -/

theorem widthAtLine_pos (k : Int) : 0 < widthAtLine k := by
  unfold widthAtLine
  rw [paddleWidthStart_eq]
  split_ifs <;> norm_num

/-- The state on which the paddle block of an iteration from a state of a game runs has a
speed budget of at least the start speed and a positive paddle width. -/
theorem beforePaddle_in_game (r : State) (t : Nat) (delta : ℚ) (events : List Event)
    (hr : Reachable r) :
    SpeedBounded (beforePaddle (pollEvents r delta events) t delta) ∧
    0 < (beforePaddle (pollEvents r delta events) t delta).paddleWidth := by
  constructor
  · have h1 := brickCollisions_ballInv _ t
      (beforeCollisions_ballInv _ delta
        (pollEvents_ballInv r delta events (reachable_ballInv r hr)))
    exact speedBounded_congr _ _ (scoreDrain_ballSpeed _) (scoreDrain_ballSpeedX _)
      (scoreDrain_ballSpeedY _) h1.1
  · have hp := pollEvents_induct delta (fun s1 => s1.paddleWidth = widthAtLine s1.lineCounter)
      events (fun s1 e _ h1 => handleEvent_widthAtLine delta s1 e h1) r
      (reachable_widthAtLine r hr)
    have hw : (beforePaddle (pollEvents r delta events) t delta).paddleWidth
        = (pollEvents r delta events).paddleWidth := by
      simp [beforePaddle, beforeCollisions]
    rw [hw, hp]
    exact widthAtLine_pos _

/-- C11: at every paddle hit of a game, that is, whenever the paddle test holds in the state
`s` on which the paddle block of an iteration from a state of a game runs: `ballSpeed >= 0`
and `paddleWidth > 0` hold (the budget is at least the start speed 0.5); the new horizontal
speed has magnitude `clamp(|ballX - paddleX| / paddleWidth, 0.3, 0.8) * ballSpeed`, is negative
exactly when `ballX < paddleX` and positive otherwise; the new vertical speed equals
`-(ballSpeed - |new horizontal speed|)` and is at most 0; and after the hit
`|ballSpeedX| + |ballSpeedY| = ballSpeed`, the budget being unchanged by the hit. -/
theorem paddle_hit_velocity_in_game (r s : State) (t : Nat) (delta : ℚ) (events : List Event)
    (hr : Reachable r) (hs : s = beforePaddle (pollEvents r delta events) t delta)
    (hit : paddleTest s) :
    (s.ballSpeed ≥ 0 ∧ s.paddleWidth > 0 ∧ s.ballSpeed ≥ ballSpeedStart) ∧
    |(paddleCollisions s t).ballSpeedX|
      = max (min (|s.ballX - s.paddleX| / s.paddleWidth) (8 / 10)) (3 / 10) * s.ballSpeed ∧
    ((paddleCollisions s t).ballSpeedX < 0 ↔ s.ballX < s.paddleX) ∧
    (0 < (paddleCollisions s t).ballSpeedX ↔ ¬ s.ballX < s.paddleX) ∧
    (paddleCollisions s t).ballSpeedY
      = -(s.ballSpeed - |(paddleCollisions s t).ballSpeedX|) ∧
    (paddleCollisions s t).ballSpeedY ≤ 0 ∧
    |(paddleCollisions s t).ballSpeedX| + |(paddleCollisions s t).ballSpeedY|
      = (paddleCollisions s t).ballSpeed ∧
    (paddleCollisions s t).ballSpeed = s.ballSpeed := by
  have hg := beforePaddle_in_game r t delta events hr
  rw [← hs] at hg
  obtain ⟨hb, hw⟩ := hg
  have hpos : 0 < s.ballSpeed := hb.pos
  obtain ⟨h1, _, _, h4, h5, h6, h7, h8⟩ := paddle_hit_velocity s t hit (le_of_lt hpos) hw
  exact ⟨⟨le_of_lt hpos, hw, hb.1⟩, h1, (h4 hpos).1, (h4 hpos).2, h5, h6, by rw [h8]; exact h7,
    h8⟩

/-- On a state of the run with at most 8 hits counted, the statements before the paddle block
change nothing. -/
theorem OnPaddleRun.beforePaddle_eq {n : Nat} {s : State} (h : OnPaddleRun n s) (hn : n ≤ 8)
    (t : Nat) : beforePaddle (pollEvents s (1 / 1000) []) t (1 / 1000) = s := by
  obtain ⟨_, hy1, hy2, hx1, hx2, _, _⟩ := h.contact hn
  rw [pollEvents_nil]
  exact (tick_quiet s t (1 / 1000) (by norm_num) h.1 h.2.1 hy1 hy2 h.2.2.1
    h.2.2.2.1 hx1 hx2).1

/-- Witness for C11: `hitRun 1` is a state of a game with the ball on the paddle, not left of
its centre; the paddle block of the next iteration runs on it, sends the ball to the right and
upward and spends the whole budget. -/
theorem paddle_hit_velocity_in_game_witness :
    (Reachable (hitRun 1) ∧
      hitRun 1 = beforePaddle (pollEvents (hitRun 1) (1 / 1000) []) 1200 (1 / 1000) ∧
      paddleTest (hitRun 1) ∧ ¬ (hitRun 1).ballX < (hitRun 1).paddleX) ∧
    0 < (paddleCollisions (hitRun 1) 1200).ballSpeedX ∧
    (paddleCollisions (hitRun 1) 1200).ballSpeedY ≤ 0 ∧
    |(paddleCollisions (hitRun 1) 1200).ballSpeedX|
        + |(paddleCollisions (hitRun 1) 1200).ballSpeedY|
      = (paddleCollisions (hitRun 1) 1200).ballSpeed :=
  have hrun : OnPaddleRun 1 (hitRun 1) := hitRun_run 1 (by decide)
  have heq : hitRun 1 = beforePaddle (pollEvents (hitRun 1) (1 / 1000) []) 1200 (1 / 1000) :=
    (hrun.beforePaddle_eq (by decide) 1200).symm
  have hit : paddleTest (hitRun 1) := (hrun.contact (by decide)).1
  have hside : ¬ (hitRun 1).ballX < (hitRun 1).paddleX :=
    not_lt.mpr (hrun.contact (by decide)).2.2.2.2.2.1
  have h := paddle_hit_velocity_in_game (hitRun 1) (hitRun 1) 1200 (1 / 1000) []
    (hitRun_reachable 1) heq hit
  ⟨⟨hitRun_reachable 1, heq, hit, hside⟩, h.2.2.2.1.mpr hside, h.2.2.2.2.2.1,
   h.2.2.2.2.2.2.1⟩

/-! ## Witnesses on states of a running game -/

/-- Witness for C4: the iteration from `line99State` counts paddle hit 212, makes the descent
that brings the line counter to 100 and runs the shrink step, which takes the width from
`paddleWidthStart` to 85% of it. -/
theorem paddleWidth_never_grows_witness :
    Event.keyDown Key.r ∉ ([] : List Event) ∧
    line99State.paddleWidth = paddleWidthStart ∧
    (tick line99State 1000 (2 / 100) []).lineCounter = 100 ∧
    (tick line99State 1000 (2 / 100) []).paddleWidth = paddleWidthStart * (85 / 100) ∧
    (tick line99State 1000 (2 / 100) []).paddleWidth ≤ line99State.paddleWidth :=
  ⟨by decide, rfl, line99State_tick.2, line99State_tick.1,
   (paddleWidth_never_grows line99State).2.2.2 1000 (2 / 100) [] (by decide)⟩

theorem oneBrickState_tick_scoreQueue :
    (tick oneBrickState 1000 (2 / 100) []).scoreQueue = 6 := by
  have htick : tick oneBrickState 1000 (2 / 100) [] = simulate oneBrickState 1000 (2 / 100) := by
    unfold tick
    rw [if_neg (by norm_num)]
    rfl
  rw [htick, simulate_scoreQueue, oneBrickState_before, oneBrickState_scan]
  have hq7 : (brickHit oneBrickState 1000 0 0).scoreQueue = 7 := by
    rw [brickHit_scoreQueue]
    rfl
  have hq : (brickHit oneBrickState 1000 0 0).scoreQueue > 0 := by
    rw [hq7]
    decide
  have ht : (brickHit oneBrickState 1000 0 0).scoreQueueTimer ≤ 0 := by
    rw [brickHit_scoreQueueTimer]
    exact le_of_eq rfl
  rw [scoreDrain_fires _ hq ht]
  show (brickHit oneBrickState 1000 0 0).scoreQueue - 1 = 6
  rw [hq7]
  rfl

/-- Witness for C5: the iteration from `oneBrickState` breaks the brick `(0, 0)`, which queues
7 points, and drains one of them: `score` goes from 0 to 1, `scoreQueue` from 0 to 6, and the
sum grows by the points of the broken brick. -/
theorem score_queue_conservation_witness :
    Event.keyDown Key.r ∉ ([] : List Event) ∧
    oneBrickState.score = 0 ∧ oneBrickState.scoreQueue = 0 ∧
    (tick oneBrickState 1000 (2 / 100) []).score = 1 ∧
    (tick oneBrickState 1000 (2 / 100) []).scoreQueue = 6 ∧
    (∃ i j, i < 13 ∧ j < 21 ∧
      liveHit (beforeCollisions (pollEvents oneBrickState (2 / 100) []) (2 / 100)) i j ∧
      (tick oneBrickState 1000 (2 / 100) []).score
          + (tick oneBrickState 1000 (2 / 100) []).scoreQueue
        = oneBrickState.score + oneBrickState.scoreQueue + brickPoints j) :=
  ⟨by decide, rfl, rfl, oneBrickState_tick_score, oneBrickState_tick_scoreQueue,
   (score_queue_conservation.1 oneBrickState 1000 (2 / 100) [] (by decide)).elim
     (fun h => absurd h.1 (by
       rw [oneBrickState_tick_score, oneBrickState_tick_scoreQueue]
       show ¬ ((1 : Int) + 6 = 0 + 0)
       decide))
     (fun h => h.elim (fun i hi => hi.elim (fun j hj =>
       ⟨i, j, hj.1, hj.2.1, hj.2.2.2.2.1, hj.2.2.2.2.2.2⟩)))⟩

theorem belowFieldState_tick_lives :
    (tick belowFieldState 40 (2 / 100) []).lives = 4 := missedState_pending.2

/-- Witness for C6: `belowFieldState` is a state of a game with 5 lives and the ball at
`ballY = 6/5`; the next iteration takes one life (5 to 4) and ends in `missedState` with the
miss pending; the iteration after that takes no further life. -/
theorem lives_lost_once_per_miss_witness :
    (Reachable belowFieldState ∧
      (tick belowFieldState 40 (2 / 100) []).lives < belowFieldState.lives) ∧
    (belowFieldState.ballMissed = false ∧ belowFieldState.ballY > 1 ∧
      belowFieldState.lives > 0 ∧
      (tick belowFieldState 40 (2 / 100) []).lives = belowFieldState.lives - 1 ∧
      MissPending (tick belowFieldState 40 (2 / 100) [])) ∧
    (Reachable missedState ∧ MissPending missedState) ∧
    missedState.lives ≤ (tick missedState 60 (2 / 100) []).lives :=
  have hlt : (tick belowFieldState 40 (2 / 100) []).lives < belowFieldState.lives := by
    rw [belowFieldState_tick_lives, belowFieldState_fields.2.2.1]
    decide
  ⟨⟨belowFieldState_reachable, hlt⟩,
   (lives_lost_once_per_miss.2.1 belowFieldState 40 (2 / 100) [] belowFieldState_reachable).2 hlt,
   ⟨missedState_reachable, missedState_pending.1⟩,
   (lives_lost_once_per_miss.2.2 missedState 60 (2 / 100) [] missedState_reachable
     missedState_pending.1).1⟩

/-- Witness for C12: `hitRun 9` is a state of a game right after the first line descent (nine
paddle hits counted, line counter 1), and its paddle width is the start width. -/
theorem paddleWidth_by_lineCounter_witness :
    (Reachable (hitRun 9) ∧ (hitRun 9).paddleHitCounter = 9 ∧ (hitRun 9).lineCounter = 1 ∧
      (hitRun 9).lineCounter ≤ 99) ∧
    (hitRun 9).paddleWidth = paddleWidthStart :=
  have hle : (hitRun 9).lineCounter ≤ 99 := by
    rw [hitRun_nine.2]
    decide
  ⟨⟨hitRun_reachable 9, hitRun_nine.1, hitRun_nine.2, hle⟩,
   (paddleWidth_by_lineCounter (hitRun 9) (hitRun_reachable 9)).1 hle⟩

/-- Witness for C20: `missedState` is a state of a game in which the ball has no vertical
velocity, and it lies below the field. -/
theorem still_ball_only_below_witness :
    (Reachable missedState ∧ missedState.ballSpeedY = 0) ∧ missedState.ballY > 1 :=
  ⟨⟨missedState_reachable, missedState_pending.1.2.2.1⟩,
   (still_ball_only_below.1 missedState missedState_reachable).1 missedState_pending.1.2.2.1⟩

/-- Witness for C15 (amended): the iteration from `oneBrickState`, with `scoreQueue = 0`,
breaks the brick `(0, 0)` with the drain timer at 0 and adds 1 to `score`. -/
theorem scan_then_drain_witness :
    (Event.keyDown Key.r ∉ ([] : List Event) ∧ oneBrickState.scoreQueue = 0 ∧
      brickCollisions (beforeCollisions (pollEvents oneBrickState (2 / 100) []) (2 / 100)) 1000
        = brickHit (beforeCollisions (pollEvents oneBrickState (2 / 100) []) (2 / 100))
            1000 0 0) ∧
    (tick oneBrickState 1000 (2 / 100) []).score = oneBrickState.score + 1 :=
  have hscan :
      brickCollisions (beforeCollisions (pollEvents oneBrickState (2 / 100) []) (2 / 100)) 1000
        = brickHit (beforeCollisions (pollEvents oneBrickState (2 / 100) []) (2 / 100))
            1000 0 0 := by
    rw [pollEvents_nil, oneBrickState_before]
    exact oneBrickState_scan
  have htimer :
      (beforeCollisions (pollEvents oneBrickState (2 / 100) []) (2 / 100)).scoreQueueTimer
        ≤ 0 := by
    rw [pollEvents_nil, oneBrickState_before]
    exact le_of_eq rfl
  ⟨⟨by decide, rfl, hscan⟩,
   (scan_then_drain.2 oneBrickState 1000 (2 / 100) [] (by decide) rfl).2.2 0 0
     (by norm_num) rfl hscan htimer⟩

theorem onPaddleState_paddleTest : paddleTest onPaddleState :=
  (onPaddleState_run.contact (by decide)).1

/-- Witness for C18: `onPaddleState` is a state of a game with the ball on the paddle; the
bound holds in it, and after the paddle block the two speeds add up to the budget. -/
theorem speed_budget_bounds_velocity_witness :
    (Reachable onPaddleState ∧ paddleTest onPaddleState) ∧
    |onPaddleState.ballSpeedX| + |onPaddleState.ballSpeedY| ≤ onPaddleState.ballSpeed ∧
    |(paddleCollisions onPaddleState 1000).ballSpeedX|
        + |(paddleCollisions onPaddleState 1000).ballSpeedY|
      = (paddleCollisions onPaddleState 1000).ballSpeed :=
  ⟨⟨onPaddleState_reachable, onPaddleState_paddleTest⟩,
   (speed_budget_bounds_velocity.1 onPaddleState onPaddleState_reachable).2.2,
   speed_budget_bounds_velocity.2.2.2.2.2.2 onPaddleState 1000
     (reachable_ballInv onPaddleState onPaddleState_reachable).1 onPaddleState_paddleTest⟩

end SuperBreakout
